import Mathlib

/-!
# EZMQX control plane: Context, Publisher, Subscriber

A shallow embedding of `ezmqx/ezmqxcontext.go`, and of the life cycle of
`ezmqx/ezmqxpublisher.go` and `ezmqx/ezmqxsubscriber.go`.

* Go maps are finite maps with unique keys (`AList`); reading a missing key
  yields the zero value of the value type.
* Go `int` is embedded as `Int`: every counter of the port pool is bounded by
  the pool size in the states studied here, so no 64-bit wrap-around occurs.
* `atomic.Value` fields are `Option Bool`: `none` is a value that was never
  stored (a `Load` then yields `nil`).
* The package constants (`LOCAL_PORT_START`, `LOCAL_PORT_MAX`, the JSON key
  names, the URLs) are declared outside the translated files; they are the
  fields of `Constants`, a parameter of the functions that read them.
* Strings are sequences of characters; on the ASCII identifiers of the REST
  API this agrees with Go's byte offsets.
* A failed type assertion or an out-of-range slice is a panic (`Except.error`).
* Calls into the transport library, the data-model library, the HTTP client
  and the file system are inputs of the functions that make them.
-/

namespace EZMQX

/-- The result codes named in the translated files (the type `EZMQXErrorCode`
is declared outside them). -/
inductive EZMQXErrorCode where
  | EZMQX_OK
  | EZMQX_INVALID_PARAM
  | EZMQX_NOT_INITIALIZED
  | EZMQX_TERMINATED
  | EZMQX_UNKNOWN_STATE
  | EZMQX_INVALID_TOPIC
  | EZMQX_REST_ERROR
  | EZMQX_MAXIMUM_PORT_EXCEED
  | EZMQX_RELEASE_WRONG_PORT
  | EZMQX_TNS_NOT_AVAILABLE
  | EZMQX_UNKNOWN_AML_MODEL
  | EZMQX_INVALID_AML_MODEL
  | EZMQX_SESSION_UNAVAILABLE
  deriving DecidableEq, Repr

open EZMQXErrorCode

/-- A Go `map[K]V`: a finite map with unique keys. -/
abbrev GoMap (K V : Type) := AList (fun _ : K => V)

/-- The Go expression `m[k]`: the stored value, or the zero value of `V`. -/
def GoMap.get {K V : Type} [DecidableEq K] (m : GoMap K V) (k : K) (zero : V) : V :=
  (AList.lookup k m).getD zero

/-- The Go loop `for key := range m { delete(m, key) }`. -/
def GoMap.clear {K V : Type} [DecidableEq K] (m : GoMap K V) : GoMap K V :=
  m.keys.foldl (fun acc key => AList.erase key acc) m

/-- The struct `EZMQXContext`; `Rep` is the type of a non-nil `*aml.Representation`. -/
structure EZMQXContext (Rep : Type) where
  initialized : Option Bool
  terminated : Option Bool
  standAlone : Bool
  hostName : String
  hostAddr : String
  remoteAddr : String
  tnsEnabled : Bool
  numOfPort : Int
  usedIdx : Int
  amlRepDic : GoMap String Rep
  usedPorts : GoMap Int Bool
  ports : GoMap Int Int

/-- The package constants read by the translated files. -/
structure Constants where
  LOCAL_PORT_START : Int
  LOCAL_PORT_MAX : Int
  LOCAL_HOST : String
  HTTP_OK : Int
  NODE : String
  PREFIX : String
  API_CONFIG : String
  API_APPS : String
  SLASH : String
  HOST_NAME_FILE_PATH : String
  CONF_PROPS : String
  CONF_REMOTE_ADDR : String
  CONF_NODE_ADDR : String
  APPS_PROPS : String
  APPS_ID : String
  APPS_STATE : String
  APPS_STATE_RUNNING : String
  SERVICES_PROPS : String
  SERVICES_CON_ID : String
  SERVICES_CON_PORTS : String
  PORTS_PRIVATE : String
  PORTS_PUBLIC : String

variable {Rep : Type}

/-- `getContextInstance`: the singleton is created on first use, with only
`initialized` stored; `terminated` is left as a never-stored `atomic.Value`. -/
def getContextInstance (ctxInstance : Option (EZMQXContext Rep)) : EZMQXContext Rep :=
  match ctxInstance with
  | none =>
    { initialized := some false
      terminated := none
      standAlone := false
      hostName := ""
      hostAddr := ""
      remoteAddr := ""
      tnsEnabled := false
      numOfPort := 0
      usedIdx := 0
      amlRepDic := ∅
      usedPorts := ∅
      ports := ∅ }
  | some c => c

/-- `assignDynamicPort`: the `for` loop, one iteration per unit of fuel.
`none` means the fuel ran out before the loop returned. -/
def assignDynamicPort (K : Constants) :
    Nat → EZMQXContext Rep → Option (Int × EZMQXErrorCode × EZMQXContext Rep)
  | 0, _ => none
  | fuel + 1, c =>
    if c.numOfPort ≥ K.LOCAL_PORT_MAX then
      some (-1, EZMQX_MAXIMUM_PORT_EXCEED, c)
    else
      let key := K.LOCAL_PORT_START + c.usedIdx
      if c.usedPorts.get key false = true then
        let idx := c.usedIdx + 1
        assignDynamicPort K fuel
          { c with usedIdx := if idx ≥ K.LOCAL_PORT_MAX then 0 else idx }
      else
        some (key, EZMQX_OK,
          { c with usedPorts := c.usedPorts.insert key true, numOfPort := c.numOfPort + 1 })

/-- `releaseDynamicPort`. -/
def releaseDynamicPort (c : EZMQXContext Rep) (port : Int) : EZMQXErrorCode × EZMQXContext Rep :=
  if c.usedPorts.get port false = false then
    (EZMQX_RELEASE_WRONG_PORT, c)
  else
    (EZMQX_OK, { c with usedPorts := c.usedPorts.insert port false, numOfPort := c.numOfPort - 1 })

/-- `setHostInfo`: the first argument goes to `hostAddr`, the second to `hostName`. -/
def setHostInfo (c : EZMQXContext Rep) (name address : String) : EZMQXContext Rep :=
  { c with hostAddr := name, hostName := address }

/-- `setTnsInfo`. -/
def setTnsInfo (c : EZMQXContext Rep) (remoteAddr : String) : EZMQXContext Rep :=
  { c with tnsEnabled := true, remoteAddr := remoteAddr }

/-- A decoded JSON value, as `encoding/json` hands it to an `interface{}`.
Numbers are restricted to the integers that `float64` holds exactly and that
fit an `int`, the port numbers of the REST API. -/
inductive Json where
  | null
  | bool (b : Bool)
  | num (n : Int)
  | str (s : String)
  | arr (items : List Json)
  | obj (members : List (String × Json))

/-- The body of an HTTP response: unreadable, not JSON text, or a JSON value. -/
inductive Body where
  | unreadable
  | malformed
  | json (value : Json)

/-- The part of an `http.Response` that the Context reads. -/
structure Response where
  StatusCode : Int
  Body : Body

/-- Why a Go function stopped with a run-time panic. -/
inductive GoPanic where
  | typeAssertion
  | sliceBounds
  | nilDereference
  deriving DecidableEq, Repr

/-- Lookup of `key` in a decoded JSON object: a repeated key keeps its last value. -/
def memberOf (members : List (String × Json)) (key : String) : Option Json :=
  members.reverse.lookup key

/-- The Go type assertion `item.(map[string]interface{})`. -/
def asObject : Json → Except GoPanic (List (String × Json))
  | .obj members => .ok members
  | _ => .error .typeAssertion

/-- The Go type assertion `v.(string)`. -/
def asString : Json → Except GoPanic String
  | .str s => .ok s
  | _ => .error .typeAssertion

/-- The Go type assertion `v.(float64)`, followed by `FormatFloat` and `Atoi`. -/
def asInt : Json → Except GoPanic Int
  | .num n => .ok n
  | _ => .error .typeAssertion

/-- The Go type assertion `v.([]interface{})`. -/
def asArray : Json → Except GoPanic (List Json)
  | .arr items => .ok items
  | _ => .error .typeAssertion

/-- `json.Unmarshal` into a `map[string][]interface{}`: the value must be an
object (or `null`) each of whose members is an array (or `null`). -/
def unmarshalArrays : Json → Option (List (String × List Json))
  | .null => some []
  | .obj members =>
    members.foldr (fun kv acc =>
      match kv.2, acc with
      | .arr items, some rest => some ((kv.1, items) :: rest)
      | .null, some rest => some ((kv.1, []) :: rest)
      | _, _ => none) (some [])
  | _ => none

/-- `json.Unmarshal` into a `map[string]interface{}`: an object or `null`. -/
def unmarshalObject : Json → Option (List (String × Json))
  | .null => some []
  | .obj members => some members
  | _ => none

/-- The loop of `parseConfigData` over the items of the properties array;
the two flags are `anchorKeyExists` and `nodeKeyExists`. -/
def parseConfigItems (K : Constants) :
    List Json → EZMQXContext Rep → Bool → Bool → Except GoPanic (EZMQXContext Rep × Bool × Bool)
  | [], c, anchorKeyExists, nodeKeyExists => .ok (c, anchorKeyExists, nodeKeyExists)
  | item :: rest, c, anchorKeyExists, nodeKeyExists => do
    let stringMap ← asObject item
    let (c1, anchor1) ←
      match memberOf stringMap K.CONF_REMOTE_ADDR with
      | some anchorAddress => do
        let a ← asString anchorAddress
        pure (setTnsInfo c a, true)
      | none => pure (c, anchorKeyExists)
    let (c2, node1) ←
      match memberOf stringMap K.CONF_NODE_ADDR with
      | some nodeAddress => do
        let a ← asString nodeAddress
        pure ({ c1 with hostAddr := a }, true)
      | none => pure (c1, nodeKeyExists)
    parseConfigItems K rest c2 anchor1 node1

/-- `parseConfigData`. -/
def parseConfigData (K : Constants) (c : EZMQXContext Rep) (response : Response) :
    Except GoPanic (EZMQXErrorCode × EZMQXContext Rep) :=
  if response.StatusCode ≠ K.HTTP_OK then .ok (EZMQX_REST_ERROR, c)
  else
    match response.Body with
    | .unreadable => .ok (EZMQX_REST_ERROR, c)
    | .malformed => .ok (EZMQX_REST_ERROR, c)
    | .json data =>
      match unmarshalArrays data with
      | none => .ok (EZMQX_REST_ERROR, c)
      | some configData =>
        match configData.reverse.lookup K.CONF_PROPS with
        | none => .ok (EZMQX_REST_ERROR, c)
        | some config => do
          let (c1, anchorKeyExists, nodeKeyExists) ← parseConfigItems K config c false false
          if !anchorKeyExists || !nodeKeyExists then pure (EZMQX_REST_ERROR, c1)
          else pure (EZMQX_OK, c1)

/-- `readFromFile`; `file` is the content of the file, `none` when it cannot be
read. The slice `hostName[0 : len(hostName)-1]` panics on an empty file. -/
def readFromFile (c : EZMQXContext Rep) (file : Option String) :
    Except GoPanic (EZMQXErrorCode × EZMQXContext Rep) :=
  match file with
  | none => .ok (EZMQX_UNKNOWN_STATE, c)
  | some data =>
    if data.data.length = 0 then .error .sliceBounds
    else .ok (EZMQX_OK, { c with hostName := String.mk data.data.dropLast })

/-- The loop of `parseAppsResponse` over the application entries; `none` is
the `nil` list returned when a key is missing. -/
def parseAppsItems (K : Constants) : List Json → List String → Except GoPanic (Option (List String))
  | [], idList => .ok (some idList)
  | item :: rest, idList => do
    let stringMap ← asObject item
    match memberOf stringMap K.APPS_ID with
    | none => pure none
    | some id => do
      let idString ← asString id
      match memberOf stringMap K.APPS_STATE with
      | none => pure none
      | some state => do
        let stateString ← asString state
        if stateString = K.APPS_STATE_RUNNING then
          parseAppsItems K rest (idList ++ [idString])
        else
          parseAppsItems K rest idList

/-- `parseAppsResponse`: the ids of the running applications, `none` for `nil`. -/
def parseAppsResponse (K : Constants) (response : Response) : Except GoPanic (Option (List String)) :=
  if response.StatusCode ≠ K.HTTP_OK then .ok none
  else
    match response.Body with
    | .unreadable => .ok none
    | .malformed => .ok none
    | .json data =>
      match unmarshalArrays data with
      | none => .ok none
      | some result =>
        match result.reverse.lookup K.APPS_PROPS with
        | none => .ok none
        | some apps => parseAppsItems K apps []

/-- The loop of `parsePortInfo` over the port entries. -/
def parsePortItems (K : Constants) :
    List Json → EZMQXContext Rep → Except GoPanic (EZMQXErrorCode × EZMQXContext Rep)
  | [], c => .ok (EZMQX_OK, c)
  | item :: rest, c => do
    let stringMap ← asObject item
    match memberOf stringMap K.PORTS_PRIVATE with
    | none => pure (EZMQX_REST_ERROR, c)
    | some privatePort => do
      let priv ← asInt privatePort
      match memberOf stringMap K.PORTS_PUBLIC with
      | none => pure (EZMQX_REST_ERROR, c)
      | some publicPort => do
        let pub ← asInt publicPort
        parsePortItems K rest { c with ports := c.ports.insert priv pub }

/-- `parsePortInfo`. -/
def parsePortInfo (K : Constants) (c : EZMQXContext Rep) (port : Json) :
    Except GoPanic (EZMQXErrorCode × EZMQXContext Rep) := do
  let ports ← asArray port
  parsePortItems K ports c

/-- The loop of `parseAppInfo` over the services of one application. The slice
`containerId[0:len(hostName)]` panics when the container id is the shorter. -/
def parseAppServices (K : Constants) :
    List Json → EZMQXContext Rep → Except GoPanic (EZMQXErrorCode × EZMQXContext Rep)
  | [], c => .ok (EZMQX_OK, c)
  | service :: rest, c => do
    let serviceMap ← asObject service
    match memberOf serviceMap K.SERVICES_CON_ID with
    | none => pure (EZMQX_REST_ERROR, c)
    | some cid => do
      let hostName := c.hostName
      let containerId ← asString cid
      if containerId.data.length < hostName.data.length then throw .sliceBounds
      let containerId := String.mk (containerId.data.take hostName.data.length)
      if containerId = hostName then
        match memberOf serviceMap K.SERVICES_CON_PORTS with
        | none => pure (EZMQX_REST_ERROR, c)
        | some port => do
          let (result, c1) ← parsePortInfo K c port
          if result ≠ EZMQX_OK then pure (EZMQX_REST_ERROR, c1)
          else parseAppServices K rest c1
      else parseAppServices K rest c

/-- `parseAppInfo`. -/
def parseAppInfo (K : Constants) (c : EZMQXContext Rep) (response : Response) :
    Except GoPanic (EZMQXErrorCode × EZMQXContext Rep) :=
  if response.StatusCode ≠ K.HTTP_OK then .ok (EZMQX_REST_ERROR, c)
  else
    match response.Body with
    | .unreadable => .ok (EZMQX_REST_ERROR, c)
    | .malformed => .ok (EZMQX_REST_ERROR, c)
    | .json data =>
      match unmarshalObject data with
      | none => .ok (EZMQX_REST_ERROR, c)
      | some appInfo =>
        match memberOf appInfo K.SERVICES_PROPS with
        | none => .ok (EZMQX_REST_ERROR, c)
        | some services => do
          let interfaces ← asArray services
          parseAppServices K interfaces c

/-- What `initializeDockerMode` reads from outside the process: the result of
`ezmq.GetInstance().Initialize()`, the HTTP client (`none` is a failed
request) and the host-name file (`none` is a failed read). -/
structure DockerEnv where
  ezmqInitOk : Bool
  httpGet : String → Option Response
  readFile : String → Option String

/-- The loop of `initializeDockerMode` over the ids of the running
applications: the result of `parseAppInfo` is not looked at. -/
def fetchAppInfos (K : Constants) (env : DockerEnv) (appInfoURL : String) :
    List String → EZMQXContext Rep → Except GoPanic (EZMQXErrorCode × EZMQXContext Rep)
  | [], c => .ok (EZMQX_OK, c)
  | appId :: rest, c =>
    let url := appInfoURL ++ appId
    match env.httpGet url with
    | none => .ok (EZMQX_REST_ERROR, c)
    | some response => do
      let (_, c1) ← parseAppInfo K c response
      fetchAppInfos K env appInfoURL rest c1

/-- `initializeDockerMode`. -/
def initializeDockerMode (K : Constants) (env : DockerEnv) (c : EZMQXContext Rep) :
    Except GoPanic (EZMQXErrorCode × EZMQXContext Rep) :=
  if !env.ezmqInitOk then .ok (EZMQX_UNKNOWN_STATE, c)
  else
    let configURL := K.NODE ++ K.PREFIX ++ K.API_CONFIG
    match env.httpGet configURL with
    | none => .ok (EZMQX_REST_ERROR, c)
    | some response => do
      let (result, c1) ← parseConfigData K c response
      if result ≠ EZMQX_OK then pure (result, c1)
      else
        let (result, c2) ← readFromFile c1 (env.readFile K.HOST_NAME_FILE_PATH)
        if result ≠ EZMQX_OK then pure (result, c2)
        else
          let appsURL := K.NODE ++ K.PREFIX ++ K.API_APPS
          match env.httpGet appsURL with
          | none => pure (EZMQX_REST_ERROR, c2)
          | some response => do
            match ← parseAppsResponse K response with
            | none => pure (EZMQX_REST_ERROR, c2)
            | some idList => do
              let appInfoURL := K.NODE ++ K.PREFIX ++ K.API_APPS ++ K.SLASH
              let (result, c3) ← fetchAppInfos K env appInfoURL idList c2
              if result ≠ EZMQX_OK then pure (result, c3)
              else pure (EZMQX_OK, { c3 with initialized := some true, terminated := some false })

/-- `initializeStandAloneMode`; `ezmqInitOk` is whether
`ezmq.GetInstance().Initialize()` returned `EZMQ_OK`. -/
def initializeStandAloneMode (K : Constants) (ezmqInitOk : Bool) (c : EZMQXContext Rep)
    (useTns : Bool) (tnsAddr : String) : EZMQXErrorCode × EZMQXContext Rep :=
  if !ezmqInitOk then (EZMQX_UNKNOWN_STATE, c)
  else
    let c1 := { c with standAlone := true }
    let c2 := setHostInfo c1 K.LOCAL_HOST K.LOCAL_HOST
    let c3 := if useTns then setTnsInfo c2 tnsAddr else c2
    (EZMQX_OK, { c3 with initialized := some true, terminated := some false })

/-- `getAmlRep`: `none` is the `nil` representation. -/
def getAmlRep (c : EZMQXContext Rep) (amlModelId : String) : Option Rep × EZMQXErrorCode :=
  match AList.lookup amlModelId c.amlRepDic with
  | none => (none, EZMQX_UNKNOWN_AML_MODEL)
  | some rep => (some rep, EZMQX_OK)

/-- The loop of `addAmlRep`; `CreateRepresentation` and `GetRepresentationId`
are the two calls into the data-model library, `none` when they do not
return `AML_OK`. -/
def addAmlRepLoop (CreateRepresentation : String → Option Rep)
    (GetRepresentationId : Rep → Option String) :
    List String → List String → EZMQXContext Rep → List String × EZMQXErrorCode × EZMQXContext Rep
  | [], modelId, c => (modelId, EZMQX_OK, c)
  | filePath :: rest, modelId, c =>
    match CreateRepresentation filePath with
    | none => (modelId, EZMQX_INVALID_AML_MODEL, c)
    | some repObject =>
      match GetRepresentationId repObject with
      | none => (modelId, EZMQX_INVALID_PARAM, c)
      | some amlModelId =>
        let c1 :=
          if (AList.lookup amlModelId c.amlRepDic).isNone then
            { c with amlRepDic := c.amlRepDic.insert amlModelId repObject }
          else c
        addAmlRepLoop CreateRepresentation GetRepresentationId rest (modelId ++ [amlModelId]) c1

/-- `addAmlRep`. -/
def addAmlRep (CreateRepresentation : String → Option Rep)
    (GetRepresentationId : Rep → Option String) (c : EZMQXContext Rep)
    (amlFilePath : List String) : List String × EZMQXErrorCode × EZMQXContext Rep :=
  addAmlRepLoop CreateRepresentation GetRepresentationId amlFilePath [] c

/-- An `EZMQXEndpoint` as built by `GetEZMQXEndPoint1(address, port)`. -/
structure EZMQXEndpoint where
  addr : String
  port : Int
  deriving DecidableEq, Repr

/-- `getHostEp`: `none` is the `nil` endpoint. -/
def getHostEp (c : EZMQXContext Rep) (port : Int) : Option EZMQXEndpoint × EZMQXErrorCode :=
  if c.standAlone then
    (some ⟨c.hostAddr, port⟩, EZMQX_OK)
  else
    let hostPort := if c.ports.get port 0 ≠ 0 then c.ports.get port 0 else 0
    if hostPort = 0 then (none, EZMQX_UNKNOWN_STATE)
    else (some ⟨c.hostAddr, hostPort⟩, EZMQX_OK)

/-- `terminate`; `ezmqTerminateOk` is whether `ezmq.GetInstance().Terminate()`
returned `EZMQ_OK`. Stopping the topic handler does not touch the Context. -/
def terminate (c : EZMQXContext Rep) (ezmqTerminateOk : Bool) : EZMQXErrorCode × EZMQXContext Rep :=
  if c.terminated = some true then
    (EZMQX_TERMINATED, c)
  else
    let c1 := { c with ports := c.ports.clear }
    let c2 := { c1 with usedPorts := c1.usedPorts.clear }
    let c3 := { c2 with amlRepDic := c2.amlRepDic.clear }
    let c4 := { c3 with
      hostName := "", hostAddr := "", remoteAddr := "", usedIdx := 0, numOfPort := 0,
      standAlone := false, tnsEnabled := false }
    let c5 := if ezmqTerminateOk then c4 else c4
    (EZMQX_OK, { c5 with terminated := some true, initialized := some false })

/-- `isCtxInitialized`: `none` is the failed type assertion on a never-stored value. -/
def isCtxInitialized (c : EZMQXContext Rep) : Option Bool := c.initialized

/-- `isCtxTerminated`: `none` is the failed type assertion on a never-stored value. -/
def isCtxTerminated (c : EZMQXContext Rep) : Option Bool := c.terminated

/-- `isCtxStandAlone`. -/
def isCtxStandAlone (c : EZMQXContext Rep) : Bool := c.standAlone

/-- `isCtxTnsEnabled`. -/
def isCtxTnsEnabled (c : EZMQXContext Rep) : Bool := c.tnsEnabled

/-- `ctxGetTnsAddr`. -/
def ctxGetTnsAddr (c : EZMQXContext Rep) : String := c.remoteAddr

/-- The ports currently marked used in a `usedPorts` map. -/
def usedSet (m : GoMap Int Bool) : Finset Int :=
  m.keys.toFinset.filter (fun p => m.get p false = true)

/-- What a caller can do to the Context between two observations: any method
of the Context, with any argument and any answer of the outside world. -/
inductive Reachable (K : Constants) (CreateRepresentation : String → Option Rep)
    (GetRepresentationId : Rep → Option String) : EZMQXContext Rep → Prop where
  | fresh : Reachable K CreateRepresentation GetRepresentationId (getContextInstance none)
  | assign {c c1 : EZMQXContext Rep} {fuel : Nat} {port : Int} {code : EZMQXErrorCode} :
      Reachable K CreateRepresentation GetRepresentationId c →
      assignDynamicPort K fuel c = some (port, code, c1) →
      Reachable K CreateRepresentation GetRepresentationId c1
  | release {c : EZMQXContext Rep} (port : Int) :
      Reachable K CreateRepresentation GetRepresentationId c →
      Reachable K CreateRepresentation GetRepresentationId (releaseDynamicPort c port).2
  | terminate {c : EZMQXContext Rep} (ezmqTerminateOk : Bool) :
      Reachable K CreateRepresentation GetRepresentationId c →
      Reachable K CreateRepresentation GetRepresentationId (terminate c ezmqTerminateOk).2
  | standAlone {c : EZMQXContext Rep} (ezmqInitOk useTns : Bool) (tnsAddr : String) :
      Reachable K CreateRepresentation GetRepresentationId c →
      Reachable K CreateRepresentation GetRepresentationId
        (initializeStandAloneMode K ezmqInitOk c useTns tnsAddr).2
  | docker {c c1 : EZMQXContext Rep} {env : DockerEnv} {code : EZMQXErrorCode} :
      Reachable K CreateRepresentation GetRepresentationId c →
      initializeDockerMode K env c = .ok (code, c1) →
      Reachable K CreateRepresentation GetRepresentationId c1
  | addAml {c : EZMQXContext Rep} (amlFilePath : List String) :
      Reachable K CreateRepresentation GetRepresentationId c →
      Reachable K CreateRepresentation GetRepresentationId
        (addAmlRep CreateRepresentation GetRepresentationId c amlFilePath).2.2

/-- The state after `n` successive calls of `assignDynamicPort` that all
returned `EZMQX_OK`, with no other call in between. -/
inductive AssignedTimes (K : Constants) : Nat → EZMQXContext Rep → EZMQXContext Rep → Prop where
  | zero (c : EZMQXContext Rep) : AssignedTimes K 0 c c
  | succ {n fuel : Nat} {c c1 c2 : EZMQXContext Rep} {port : Int} :
      AssignedTimes K n c c1 →
      assignDynamicPort K fuel c1 = some (port, EZMQX_OK, c2) →
      AssignedTimes K (n + 1) c c2

/-- The invariant of the port pool. -/
structure PortPoolInv (K : Constants) (c : EZMQXContext Rep) : Prop where
  count_nonneg : 0 ≤ c.numOfPort
  count_le : c.numOfPort ≤ K.LOCAL_PORT_MAX
  count_eq : c.numOfPort = ((usedSet c.usedPorts).card : Int)
  used_range : ∀ p ∈ usedSet c.usedPorts,
    K.LOCAL_PORT_START ≤ p ∧ p < K.LOCAL_PORT_START + K.LOCAL_PORT_MAX
  cursor_nonneg : 0 ≤ c.usedIdx
  cursor_lt : c.usedIdx < K.LOCAL_PORT_MAX

/-- Two Context states with the same port pool. -/
def SamePool (c c1 : EZMQXContext Rep) : Prop :=
  c1.usedPorts = c.usedPorts ∧ c1.numOfPort = c.numOfPort ∧ c1.usedIdx = c.usedIdx

/-- A sample value of the package constants, used to run the functions on
concrete inputs: a pool of three ports starting at 4000, and the key names
of the REST API. -/
def sampleConstants : Constants :=
  { LOCAL_PORT_START := 4000
    LOCAL_PORT_MAX := 3
    LOCAL_HOST := "localhost"
    HTTP_OK := 200
    NODE := "http://node:48098"
    PREFIX := "/api/v1"
    API_CONFIG := "/config"
    API_APPS := "/apps"
    SLASH := "/"
    HOST_NAME_FILE_PATH := "/etc/hostname"
    CONF_PROPS := "properties"
    CONF_REMOTE_ADDR := "remoteAddress"
    CONF_NODE_ADDR := "nodeAddress"
    APPS_PROPS := "properties"
    APPS_ID := "id"
    APPS_STATE := "state"
    APPS_STATE_RUNNING := "running"
    SERVICES_PROPS := "services"
    SERVICES_CON_ID := "containerId"
    SERVICES_CON_PORTS := "ports"
    PORTS_PRIVATE := "privatePort"
    PORTS_PUBLIC := "publicPort" }

/-- A sample data-model library: the representation of a file is its path,
except for the file `bad.aml`, which does not parse. -/
def sampleCreate (path : String) : Option String :=
  if path = "bad.aml" then none else some path

/-- A sample data-model library: the id of a representation is its text. -/
def sampleGetId (rep : String) : Option String := some rep

/-- The fresh Context of the samples. -/
def sampleFresh : EZMQXContext String := getContextInstance none

/-- The sample Context after one successful `assignDynamicPort`. -/
def sampleOnePort : EZMQXContext String :=
  { sampleFresh with usedPorts := AList.insert 4000 true ∅, numOfPort := 1 }

/-- The sample Context after two successful calls of `assignDynamicPort`. -/
def sampleTwoPorts : EZMQXContext String :=
  { sampleFresh with
    usedPorts := AList.insert 4001 true (AList.insert 4000 true ∅)
    numOfPort := 2
    usedIdx := 1 }

/-- The sample Context with all three ports of the pool handed out. -/
def sampleFull : EZMQXContext String :=
  { sampleFresh with
    usedPorts := AList.insert 4002 true (AList.insert 4001 true (AList.insert 4000 true ∅))
    numOfPort := 3
    usedIdx := 2 }

/-- The sample Context after the release of port 4000 from the full pool: the
cursor stands on index 2, the only free index is 0. -/
def sampleReleased : EZMQXContext String := (releaseDynamicPort sampleFull 4000).2

/-- The id that the data-model library gives to the file at `path`, when both
of its calls return `AML_OK`. -/
def modelIdOf (CreateRepresentation : String → Option Rep)
    (GetRepresentationId : Rep → Option String) (path : String) : Option String :=
  (CreateRepresentation path).bind GetRepresentationId

/-- A sample configuration resource with both addresses. -/
def sampleConfig : Response :=
  { StatusCode := 200
    Body := .json (.obj [("properties",
      .arr [.obj [("remoteAddress", .str "10.0.0.9"), ("nodeAddress", .str "10.0.0.5")]])]) }

/-- A sample configuration resource with `remoteAddress` and no `nodeAddress`. -/
def sampleConfigNoNode : Response :=
  { StatusCode := 200
    Body := .json (.obj [("properties", .arr [.obj [("remoteAddress", .str "10.0.0.9")]])]) }

/-- A sample list of applications: one running application, `app1`. -/
def sampleApps : Response :=
  { StatusCode := 200
    Body := .json (.obj [("properties",
      .arr [.obj [("id", .str "app1"), ("state", .str "running")]])]) }

/-- A sample outside world for Docker mode: the transport library starts, the
host-name file holds `host1`, the configuration resource is `config` and the
detail resource of `app1` is `appInfo`. -/
def sampleDockerEnv (config appInfo : Response) : DockerEnv :=
  { ezmqInitOk := true
    httpGet := fun url =>
      if url = "http://node:48098/api/v1/config" then some config
      else if url = "http://node:48098/api/v1/apps" then some sampleApps
      else if url = "http://node:48098/api/v1/apps/app1" then some appInfo
      else none
    readFile := fun path => if path = "/etc/hostname" then some "host1\n" else none }

/-- A detail resource that answers with a non-success status. -/
def sampleAppInfoNotFound : Response := { StatusCode := 404, Body := .malformed }

/-- A detail resource whose body is not JSON text. -/
def sampleAppInfoNotJson : Response := { StatusCode := 200, Body := .malformed }

/-- A detail resource without the services key. -/
def sampleAppInfoNoServices : Response := { StatusCode := 200, Body := .json (.obj []) }

/-- A detail resource with a service that has no container id. -/
def sampleAppInfoNoContainerId : Response :=
  { StatusCode := 200, Body := .json (.obj [("services", .arr [.obj []])]) }

/-- A detail resource whose matching service has no ports key. -/
def sampleAppInfoNoPorts : Response :=
  { StatusCode := 200
    Body := .json (.obj [("services", .arr [.obj [("containerId", .str "host1abcdef")]])]) }

/-- A detail resource whose matching service has a port entry without a
public port. -/
def sampleAppInfoNoPublicPort : Response :=
  { StatusCode := 200
    Body := .json (.obj [("services", .arr [.obj [("containerId", .str "host1abcdef"),
      ("ports", .arr [.obj [("privatePort", .num 4000)]])]])]) }

/-- A well-formed detail resource: private port 4000 is published as 32768. -/
def sampleAppInfo : Response :=
  { StatusCode := 200
    Body := .json (.obj [("services", .arr [.obj [("containerId", .str "host1abcdef"),
      ("ports", .arr [.obj [("privatePort", .num 4000), ("publicPort", .num 32768)]])]])]) }

/-- The sample Context after a successful stand-alone initialization. -/
def sampleStandAlone : EZMQXContext String :=
  (initializeStandAloneMode sampleConstants true sampleFresh false "").2

/-! ### Publisher (`ezmqx/ezmqxpublisher.go`) -/

/-- The values of the `status` field of a publisher or subscriber; the three
constants are declared outside the translated files. -/
inductive Status where
  | CREATED
  | INITIALIZED
  | TERMINATING
  deriving DecidableEq, Repr

open Status

/-- Modelled from the spec: an `EZMQXTopic`, declared outside the translated
files, is a name, a data-model id, a secured flag and an endpoint; its
accessors `GetName`, `GetDataModel`, `IsSecured`, `GetEndPoint` read these
fields. -/
structure EZMQXTopic where
  name : String
  dataModel : String
  secured : Bool
  endPoint : EZMQXEndpoint
  deriving DecidableEq, Repr

/-- The constants of the TNS protocol read by the publisher and the
subscriber; they are declared outside the translated files. -/
structure TnsConstants where
  HTTP_PREFIX : String
  COLON : String
  TNS_KNOWN_PORT : String
  TOPIC : String
  QUERY_NAME : String
  QUESTION_MARK : String
  QUERY_HIERARCHICAL : String
  QUERY_TRUE : String
  QUERY_FALSE : String
  PAYLOAD_TOPICS : String
  PAYLOAD_DATAMODEL : String
  PAYLOAD_ENDPOINT : String
  PAYLOAD_NAME : String
  PAYLOAD_SECURED : String

/-- The struct `EZMQXPublisher`, without its pointer to the shared Context
(the Context is passed along). `ezmqPublisher` is the port of the transport
publisher, `none` for `nil`; `topicHandler` tells whether the handler has
been obtained and started. -/
structure EZMQXPublisher where
  ezmqPublisher : Option Int
  topic : Option EZMQXTopic
  topicHandler : Bool
  localPort : Int
  status : Status
  deriving DecidableEq, Repr

/-- `getPublisher`. -/
def getPublisher : EZMQXPublisher :=
  { ezmqPublisher := none, topic := none, topicHandler := false, localPort := 0,
    status := CREATED }

/-- What the publisher reads from outside the process: whether
`ezmq.GetEZMQPublisher(port, ...)` returns a publisher, whether its `Start`
and `Stop` return `EZMQ_OK`, the status code of the HTTP `DELETE` (`none` when
the request cannot be formed or fails) and the result of
`getTopicHandler().send(UNREGISTER, name)`. -/
structure PublisherEnv where
  createOk : Int → Bool
  startOk : Int → Bool
  stopOk : Bool
  httpDelete : String → Option Int
  sendUnregister : String → EZMQXErrorCode

/-- `EZMQXPublisher.initialize`; `fuel` bounds the loop of `assignDynamicPort`
(`none` when it runs out), and an `atomic.Value` that was never stored makes
`isCtxInitialized` panic. -/
def publisherInitialize (K : Constants) (env : PublisherEnv) (fuel : Nat)
    (pub : EZMQXPublisher) (c : EZMQXContext Rep) (optionalPort : Int) :
    Option (Except GoPanic (EZMQXErrorCode × EZMQXPublisher × EZMQXContext Rep)) :=
  match isCtxInitialized c with
  | none => some (.error .typeAssertion)
  | some false => some (.ok (EZMQX_NOT_INITIALIZED, pub, c))
  | some true =>
    let assigned : Option (EZMQXErrorCode × EZMQXPublisher × EZMQXContext Rep) :=
      if isCtxStandAlone c then
        some (EZMQX_OK, { pub with localPort := optionalPort }, c)
      else
        match assignDynamicPort K fuel c with
        | none => none
        | some (port, error, c1) => some (error, { pub with localPort := port }, c1)
    match assigned with
    | none => none
    | some (error, i1, c1) =>
      if error ≠ EZMQX_OK then some (.ok (error, i1, c1))
      else
        let i2 := { i1 with
          ezmqPublisher := if env.createOk i1.localPort then some i1.localPort else none }
        if i2.ezmqPublisher = none then some (.ok (EZMQX_UNKNOWN_STATE, i2, c1))
        else if !env.startOk i1.localPort then some (.ok (EZMQX_UNKNOWN_STATE, i2, c1))
        else
          let i3 := if !isCtxStandAlone c1 then { i2 with topicHandler := true } else i2
          some (.ok (EZMQX_OK, { i3 with status := INITIALIZED }, c1))

/-- `EZMQXPublisher.unRegisterTopic`; `GetName` on a `nil` topic is a nil
dereference. -/
def unRegisterTopic (K : Constants) (T : TnsConstants) (env : PublisherEnv)
    (c : EZMQXContext Rep) (topic : Option EZMQXTopic) : Except GoPanic EZMQXErrorCode :=
  if !isCtxTnsEnabled c then .ok EZMQX_OK
  else
    let topicURL := T.HTTP_PREFIX ++ ctxGetTnsAddr c ++ T.COLON ++ T.TNS_KNOWN_PORT ++ K.PREFIX ++ T.TOPIC
    match topic with
    | none => .error .nilDereference
    | some t =>
      let query := T.QUERY_NAME ++ t.name
      match env.httpDelete (topicURL ++ T.QUESTION_MARK ++ query) with
      | none => .ok EZMQX_REST_ERROR
      | some statusCode =>
        if statusCode ≠ K.HTTP_OK then .ok EZMQX_REST_ERROR
        else
          let result := env.sendUnregister t.name
          if result ≠ EZMQX_OK then .ok result else .ok EZMQX_OK

/-- `EZMQXPublisher.terminate`. -/
def publisherTerminate (K : Constants) (T : TnsConstants) (env : PublisherEnv)
    (pub : EZMQXPublisher) (c : EZMQXContext Rep) :
    Except GoPanic (EZMQXErrorCode × EZMQXPublisher × EZMQXContext Rep) :=
  if pub.status ≠ INITIALIZED then .ok (EZMQX_UNKNOWN_STATE, pub, c)
  else
    let i1 := { pub with status := TERMINATING }
    let released : EZMQXErrorCode × EZMQXContext Rep :=
      if !isCtxStandAlone c then releaseDynamicPort c i1.localPort else (EZMQX_OK, c)
    if released.1 ≠ EZMQX_OK then
      .ok (EZMQX_UNKNOWN_STATE, { i1 with status := INITIALIZED }, released.2)
    else
      let c1 := released.2
      let unregistered : Except GoPanic EZMQXErrorCode :=
        if isCtxTnsEnabled c1 then unRegisterTopic K T env c1 i1.topic else .ok EZMQX_OK
      match unregistered with
      | .error e => .error e
      | .ok result =>
        if result ≠ EZMQX_OK then
          .ok (EZMQX_UNKNOWN_STATE, { i1 with status := INITIALIZED }, c1)
        else if i1.ezmqPublisher.isSome && !env.stopOk then
          .ok (EZMQX_UNKNOWN_STATE, { i1 with status := INITIALIZED }, c1)
        else
          .ok (EZMQX_OK, { i1 with status := CREATED }, c1)

/-- The result codes of successive `terminate` calls on one publisher, one
outside world per call; the list stops at a call that panics. -/
def publisherTerminateRun (K : Constants) (T : TnsConstants) :
    List PublisherEnv → EZMQXPublisher → EZMQXContext Rep → List EZMQXErrorCode
  | [], _, _ => []
  | env :: rest, pub, c =>
    match publisherTerminate K T env pub c with
    | .error _ => []
    | .ok (code, i1, c1) => code :: publisherTerminateRun K T rest i1 c1

/-! ### Subscriber (`ezmqx/ezmqxsubscriber.go`) -/

/-- A subscription accepted by the transport subscriber: `SubscribeForTopic`
or `SubscribeWithIPPort`. -/
inductive Subscription where
  | forTopic (name : String)
  | withIPPort (addr : String) (port : Int) (name : String)
  deriving DecidableEq, Repr

/-- The subscription's topic name. -/
def Subscription.name : Subscription → String
  | .forTopic name => name
  | .withIPPort _ _ name => name

/-- Modelled from the spec: the transport subscriber of the `ezmq` library, an
object bound to `(address, port)` that is started, stopped and subscribed to
topics; only the calls that return `EZMQ_OK` change it. -/
structure EZMQSubscriber where
  addr : String
  port : Int
  started : Bool
  subscriptions : List Subscription
  deriving DecidableEq, Repr

/-- The struct `EZMQXSubscriber`, without its pointer to the shared Context
and its callback. A value of `amlRepDic` is `none` for a `nil`
representation. -/
structure EZMQXSubscriber (Rep : Type) where
  ezmqSubscriber : Option EZMQSubscriber
  storedTopics : List EZMQXTopic
  amlRepDic : GoMap String (Option Rep)
  status : Status

/-- `getEZMQXSubscriber`. -/
def getEZMQXSubscriber : EZMQXSubscriber Rep :=
  { ezmqSubscriber := none, storedTopics := [], amlRepDic := ∅, status := CREATED }

/-- `getTopics`. -/
def getTopics (sub : EZMQXSubscriber Rep) : List EZMQXTopic := sub.storedTopics

/-- The topic names that the transport subscriber has subscribed to, in
order; none when no transport subscriber exists. -/
def subscribedNames (sub : EZMQXSubscriber Rep) : List String :=
  match sub.ezmqSubscriber with
  | none => []
  | some transport => transport.subscriptions.map Subscription.name

/-- The functions of the package that the subscriber calls and that are
declared outside the translated files: the check of a topic name against the
naming grammar and the parser of an endpoint string. -/
structure TopicFunctions where
  validateTopic : String → Bool
  GetEZMQXEndPoint : String → EZMQXEndpoint

/-- What the subscriber reads from outside the process: the REST client
(`none` when `Get` does not return `EZMQX_OK`), whether
`ezmq.GetEZMQSubscriber` returns a subscriber, and whether `Start`,
`SubscribeForTopic`, `SubscribeWithIPPort` and `Stop` return `EZMQ_OK`. -/
structure SubscriberEnv where
  restGet : String → Option Response
  createOk : String → Int → Bool
  startOk : String → Int → Bool
  subscribeForTopicOk : String → Bool
  subscribeWithIPPortOk : String → Int → String → Bool
  stopOk : Bool

/-- The comma-ok type assertion `stringMap[key].(string)`. -/
def stringMember (members : List (String × Json)) (key : String) : Option String :=
  match memberOf members key with
  | some (.str s) => some s
  | _ => none

/-- The comma-ok type assertion `stringMap[key].(bool)`. -/
def boolMember (members : List (String × Json)) (key : String) : Option Bool :=
  match memberOf members key with
  | some (.bool b) => some b
  | _ => none

/-- The loop of `parseTNSResponse` over the topic descriptors. -/
def parseTNSItems (T : TnsConstants) (F : TopicFunctions) :
    List Json → List EZMQXTopic → Except GoPanic (Option (List EZMQXTopic) × EZMQXErrorCode)
  | [], ezmqxTopicList => .ok (some ezmqxTopicList, EZMQX_OK)
  | item :: rest, ezmqxTopicList => do
    let stringMap ← asObject item
    match stringMember stringMap T.PAYLOAD_DATAMODEL with
    | none => pure (none, EZMQX_REST_ERROR)
    | some dataModel =>
      match stringMember stringMap T.PAYLOAD_ENDPOINT with
      | none => pure (none, EZMQX_REST_ERROR)
      | some endPoint =>
        match stringMember stringMap T.PAYLOAD_NAME with
        | none => pure (none, EZMQX_REST_ERROR)
        | some name =>
          match boolMember stringMap T.PAYLOAD_SECURED with
          | none => pure (none, EZMQX_REST_ERROR)
          | some isSecured =>
            let ezmqxTopic : EZMQXTopic :=
              { name := name, dataModel := dataModel, secured := isSecured,
                endPoint := F.GetEZMQXEndPoint endPoint }
            parseTNSItems T F rest (ezmqxTopicList ++ [ezmqxTopic])

/-- `parseTNSResponse`; the data are the body of the response. -/
def parseTNSResponse (T : TnsConstants) (F : TopicFunctions) (data : Body) :
    Except GoPanic (Option (List EZMQXTopic) × EZMQXErrorCode) :=
  match data with
  | .unreadable => .ok (none, EZMQX_REST_ERROR)
  | .malformed => .ok (none, EZMQX_REST_ERROR)
  | .json value =>
    match unmarshalArrays value with
    | none => .ok (none, EZMQX_REST_ERROR)
    | some topics =>
      match topics.reverse.lookup T.PAYLOAD_TOPICS with
      | none => .ok (none, EZMQX_REST_ERROR)
      | some topicList => parseTNSItems T F topicList []

/-- The URL that `verifyTopics` requests. -/
def verifyTopicsURL (K : Constants) (T : TnsConstants) (c : EZMQXContext Rep) (topic : String)
    (isHierarchical : Bool) : String :=
  let tnsURL := ctxGetTnsAddr c ++ K.PREFIX ++ T.TOPIC
  let hierarchical := if isHierarchical then T.QUERY_TRUE else T.QUERY_FALSE
  let query := T.QUERY_NAME ++ topic ++ T.QUERY_HIERARCHICAL ++ hierarchical
  tnsURL ++ T.QUESTION_MARK ++ query

/-- `verifyTopics`: one GET request to the TNS. -/
def verifyTopics (K : Constants) (T : TnsConstants) (F : TopicFunctions) (env : SubscriberEnv)
    (c : EZMQXContext Rep) (topic : String) (isHierarchical : Bool) :
    Except GoPanic (Option (List EZMQXTopic) × EZMQXErrorCode) :=
  match env.restGet (verifyTopicsURL K T c topic isHierarchical) with
  | none => .ok (none, EZMQX_REST_ERROR)
  | some response =>
    if response.StatusCode ≠ K.HTTP_OK then .ok (none, EZMQX_REST_ERROR)
    else parseTNSResponse T F response.Body

/-- `createSubscriber`. -/
def createSubscriber (env : SubscriberEnv) (sub : EZMQXSubscriber Rep) (endPoint : EZMQXEndpoint) :
    EZMQXErrorCode × EZMQXSubscriber Rep :=
  if env.createOk endPoint.addr endPoint.port then
    let transport : EZMQSubscriber :=
      { addr := endPoint.addr, port := endPoint.port, started := false, subscriptions := [] }
    (EZMQX_OK, { sub with ezmqSubscriber := some transport })
  else
    (EZMQX_UNKNOWN_STATE, { sub with ezmqSubscriber := none })

/-- `subscribe`. -/
def subscribe (env : SubscriberEnv) (sub : EZMQXSubscriber Rep) (topic : EZMQXTopic) :
    EZMQXErrorCode × EZMQXSubscriber Rep :=
  let endPoint := topic.endPoint
  match sub.ezmqSubscriber with
  | none =>
    let created := createSubscriber env sub endPoint
    if created.1 ≠ EZMQX_OK then (created.1, created.2)
    else
      match created.2.ezmqSubscriber with
      | none => (EZMQX_UNKNOWN_STATE, created.2)
      | some transport =>
        if !env.startOk transport.addr transport.port then (EZMQX_UNKNOWN_STATE, created.2)
        else
          let started := { transport with started := true }
          if !env.subscribeForTopicOk topic.name then
            (EZMQX_SESSION_UNAVAILABLE, { created.2 with ezmqSubscriber := some started })
          else
            let subscribed : EZMQSubscriber :=
              { started with subscriptions := started.subscriptions ++ [.forTopic topic.name] }
            (EZMQX_OK, { created.2 with ezmqSubscriber := some subscribed })
  | some transport =>
    if !env.subscribeWithIPPortOk endPoint.addr endPoint.port topic.name then
      (EZMQX_SESSION_UNAVAILABLE, sub)
    else
      let subscribed : EZMQSubscriber :=
        { transport with
          subscriptions :=
            transport.subscriptions ++ [.withIPPort endPoint.addr endPoint.port topic.name] }
      (EZMQX_OK, { sub with ezmqSubscriber := some subscribed })

/-- The body of the loop of `storeTopics`, for one topic. -/
def storeTopic (F : TopicFunctions) (env : SubscriberEnv) (c : EZMQXContext Rep)
    (sub : EZMQXSubscriber Rep) (ezmqxTopic : EZMQXTopic) : EZMQXErrorCode × EZMQXSubscriber Rep :=
  if ezmqxTopic.secured then (EZMQX_INVALID_PARAM, sub)
  else if !F.validateTopic ezmqxTopic.name then (EZMQX_INVALID_TOPIC, sub)
  else
    let found := getAmlRep c ezmqxTopic.dataModel
    let sub1 := { sub with amlRepDic := sub.amlRepDic.insert ezmqxTopic.name found.1 }
    if found.2 ≠ EZMQX_OK then (found.2, sub1)
    else
      let subscribed := subscribe env sub1 ezmqxTopic
      if subscribed.1 ≠ EZMQX_OK then (subscribed.1, subscribed.2)
      else
        (EZMQX_OK, { subscribed.2 with storedTopics := subscribed.2.storedTopics ++ [ezmqxTopic] })

/-- The loop of `storeTopics`: it stops at the first topic whose step does not
return `EZMQX_OK`. -/
def storeTopicsLoop (F : TopicFunctions) (env : SubscriberEnv) (c : EZMQXContext Rep) :
    List EZMQXTopic → EZMQXSubscriber Rep → EZMQXErrorCode × EZMQXSubscriber Rep
  | [], sub => (EZMQX_OK, sub)
  | ezmqxTopic :: rest, sub =>
    let step := storeTopic F env c sub ezmqxTopic
    if step.1 ≠ EZMQX_OK then step else storeTopicsLoop F env c rest step.2

/-- `storeTopics`; an `atomic.Value` that was never stored makes
`isCtxInitialized` panic. -/
def storeTopics (F : TopicFunctions) (env : SubscriberEnv) (c : EZMQXContext Rep)
    (sub : EZMQXSubscriber Rep) (topics : List EZMQXTopic) :
    Except GoPanic (EZMQXErrorCode × EZMQXSubscriber Rep) :=
  match isCtxInitialized c with
  | none => .error .typeAssertion
  | some false => .ok (EZMQX_NOT_INITIALIZED, sub)
  | some true =>
    let looped := storeTopicsLoop F env c topics sub
    if looped.1 ≠ EZMQX_OK then .ok looped
    else .ok (EZMQX_OK, { looped.2 with status := INITIALIZED })

/-- `EZMQXSubscriber.initialize`; the third component of the result lists the
URLs requested from the TNS, in order. -/
def subscriberInitialize (K : Constants) (T : TnsConstants) (F : TopicFunctions)
    (env : SubscriberEnv) (c : EZMQXContext Rep) (sub : EZMQXSubscriber Rep) (topic : String)
    (isHierarchical : Bool) :
    Except GoPanic (EZMQXErrorCode × EZMQXSubscriber Rep × List String) :=
  match isCtxInitialized c with
  | none => .error .typeAssertion
  | some false => .ok (EZMQX_NOT_INITIALIZED, sub, [])
  | some true =>
    if !F.validateTopic topic then .ok (EZMQX_INVALID_TOPIC, sub, [])
    else if !isCtxTnsEnabled c then .ok (EZMQX_TNS_NOT_AVAILABLE, sub, [])
    else
      let requests := [verifyTopicsURL K T c topic isHierarchical]
      match verifyTopics K T F env c topic isHierarchical with
      | .error e => .error e
      | .ok (verified, errorCode) =>
        if errorCode ≠ EZMQX_OK then .ok (errorCode, sub, requests)
        else
          match verified with
          | none => .error .nilDereference
          | some topics =>
            match storeTopics F env c sub topics with
            | .error e => .error e
            | .ok (result, sub1) => .ok (result, sub1, requests)

/-- `EZMQXSubscriber.terminate`. -/
def subscriberTerminate (env : SubscriberEnv) (sub : EZMQXSubscriber Rep) :
    EZMQXErrorCode × EZMQXSubscriber Rep :=
  if sub.status ≠ INITIALIZED then (EZMQX_UNKNOWN_STATE, sub)
  else
    let s1 := { sub with status := TERMINATING }
    match s1.ezmqSubscriber with
    | some transport =>
      if !env.stopOk then (EZMQX_UNKNOWN_STATE, { s1 with status := INITIALIZED })
      else
        let stopped : EZMQSubscriber := { transport with started := false }
        (EZMQX_OK, { s1 with ezmqSubscriber := some stopped, status := CREATED })
    | none => (EZMQX_OK, { s1 with status := CREATED })

/-- `EZMQXSubscriber.isTerminated`. -/
def subscriberIsTerminated (sub : EZMQXSubscriber Rep) : Bool :=
  if sub.status = CREATED then true else false

/-! ### Samples for the publisher and the subscriber -/

/-- A detail resource that records public port 0 for private port 4000. -/
def sampleAppInfoZeroPort : Response :=
  { StatusCode := 200
    Body := .json (.obj [("services", .arr [.obj [("containerId", .str "host1abcdef"),
      ("ports", .arr [.obj [("privatePort", .num 4000), ("publicPort", .num 0)]])]])]) }

/-- The sample Context after a successful Docker-mode initialization with
`sampleConfig` and `sampleAppInfo`: networked, TNS enabled. -/
def sampleDocker : EZMQXContext String :=
  { sampleFresh with
    initialized := some true, terminated := some false, hostName := "host1",
    hostAddr := "10.0.0.5", remoteAddr := "10.0.0.9", tnsEnabled := true,
    ports := AList.insert 4000 32768 ∅ }

/-- The sample networked Context after one publisher has been given port 4000. -/
def sampleDockerOnePort : EZMQXContext String :=
  { sampleDocker with usedPorts := AList.insert 4000 true ∅, numOfPort := 1 }

/-- A sample value of the TNS constants. -/
def sampleTns : TnsConstants :=
  { HTTP_PREFIX := "http://"
    COLON := ":"
    TNS_KNOWN_PORT := "48323"
    TOPIC := "/tns/topic"
    QUERY_NAME := "name="
    QUESTION_MARK := "?"
    QUERY_HIERARCHICAL := "&hierarchical="
    QUERY_TRUE := "yes"
    QUERY_FALSE := "no"
    PAYLOAD_TOPICS := "topics"
    PAYLOAD_DATAMODEL := "dataModel"
    PAYLOAD_ENDPOINT := "endpoint"
    PAYLOAD_NAME := "name"
    PAYLOAD_SECURED := "secured" }

/-- A sample topic on the sample node. -/
def sampleTopic : EZMQXTopic :=
  { name := "/sensor/temp", dataModel := "model.aml", secured := false,
    endPoint := { addr := "10.0.0.5", port := 32768 } }

/-- A sample outside world for the publisher: the transport publisher is
created, started and stopped as the three flags say, the TNS answers the
`DELETE` with `deleteStatus`, and the topic handler accepts every command. -/
def samplePublisherEnv (createOk startOk stopOk : Bool) (deleteStatus : Option Int) :
    PublisherEnv :=
  { createOk := fun _ => createOk
    startOk := fun _ => startOk
    stopOk := stopOk
    httpDelete := fun _ => deleteStatus
    sendUnregister := fun _ => EZMQX_OK }

/-- The sample publisher after a successful `initialize` on `sampleDocker` and
a `registerTopic(sampleTopic)`. -/
def samplePublisher : EZMQXPublisher :=
  { ezmqPublisher := some 4000, topic := some sampleTopic, topicHandler := true,
    localPort := 4000, status := INITIALIZED }

/-- Sample package functions: a topic name is accepted when it starts with a
slash, and every endpoint string is read as an address with port 5562. -/
def sampleTopicFunctions : TopicFunctions :=
  { validateTopic := fun name =>
      match name.data with
      | '/' :: _ => true
      | _ => false
    GetEZMQXEndPoint := fun text => { addr := text, port := 5562 } }

/-- A sample outside world for the subscriber: the TNS answers every request
with `response`, the transport subscriber is created and started, it accepts
the subscriptions to every topic but `/broken`, and `Stop` answers `stopOk`. -/
def sampleSubscriberEnv (response : Option Response) (stopOk : Bool) : SubscriberEnv :=
  { restGet := fun _ => response
    createOk := fun _ _ => true
    startOk := fun _ _ => true
    subscribeForTopicOk := fun name => name ≠ "/broken"
    subscribeWithIPPortOk := fun _ _ name => name ≠ "/broken"
    stopOk := stopOk }

/-- The sample networked Context with the model `model.aml` in its cache. -/
def sampleDockerWithModel : EZMQXContext String :=
  { sampleDocker with amlRepDic := AList.insert "model.aml" "model.aml" ∅ }

/-- A TNS answer with one secured topic, `/a`. -/
def sampleTnsSecured : Response :=
  { StatusCode := 200
    Body := .json (.obj [("topics", .arr [.obj [("name", .str "/a"),
      ("dataModel", .str "model.aml"), ("endpoint", .str "10.0.0.7"),
      ("secured", .bool true)]])]) }

/-- A sample topic, `/a`. -/
def sampleTopicA : EZMQXTopic :=
  { name := "/a", dataModel := "model.aml", secured := false,
    endPoint := { addr := "10.0.0.7", port := 5562 } }

/-- A sample topic, `/b`. -/
def sampleTopicB : EZMQXTopic :=
  { name := "/b", dataModel := "model.aml", secured := false,
    endPoint := { addr := "10.0.0.8", port := 5562 } }

/-- A sample topic whose subscription the sample transport refuses. -/
def sampleTopicBroken : EZMQXTopic :=
  { name := "/broken", dataModel := "model.aml", secured := false,
    endPoint := { addr := "10.0.0.8", port := 5562 } }

/-- A sample topic, `/c`. -/
def sampleTopicC : EZMQXTopic :=
  { name := "/c", dataModel := "model.aml", secured := false,
    endPoint := { addr := "10.0.0.9", port := 5562 } }

/-- A sample transport subscriber, started and subscribed to `/a`. -/
def sampleTransport : EZMQSubscriber :=
  { addr := "10.0.0.7", port := 5562, started := true, subscriptions := [.forTopic "/a"] }

/-- A sample subscriber that is initialized and owns `sampleTransport`. -/
def sampleSubscriber : EZMQXSubscriber String :=
  { ezmqSubscriber := some sampleTransport
    storedTopics := [sampleTopicA]
    amlRepDic := AList.insert "/a" (some "model.aml") ∅
    status := INITIALIZED }

/-- A sample data-model library in which the representation of the file
`noid.aml` has no id: `GetRepresentationId` fails on it. -/
def sampleGetIdPartial (rep : String) : Option String :=
  if rep = "noid.aml" then none else some rep

/-- The states that calls other than the two initializations reach from `c`. -/
inductive BeforeReinit (K : Constants) (CreateRepresentation : String → Option Rep)
    (GetRepresentationId : Rep → Option String) (c : EZMQXContext Rep) :
    EZMQXContext Rep → Prop where
  | start : BeforeReinit K CreateRepresentation GetRepresentationId c c
  | assign {c1 c2 : EZMQXContext Rep} {fuel : Nat} {port : Int} {code : EZMQXErrorCode} :
      BeforeReinit K CreateRepresentation GetRepresentationId c c1 →
      assignDynamicPort K fuel c1 = some (port, code, c2) →
      BeforeReinit K CreateRepresentation GetRepresentationId c c2
  | release {c1 : EZMQXContext Rep} (port : Int) :
      BeforeReinit K CreateRepresentation GetRepresentationId c c1 →
      BeforeReinit K CreateRepresentation GetRepresentationId c (releaseDynamicPort c1 port).2
  | terminate {c1 : EZMQXContext Rep} (ezmqTerminateOk : Bool) :
      BeforeReinit K CreateRepresentation GetRepresentationId c c1 →
      BeforeReinit K CreateRepresentation GetRepresentationId c (terminate c1 ezmqTerminateOk).2
  | addAml {c1 : EZMQXContext Rep} (amlFilePath : List String) :
      BeforeReinit K CreateRepresentation GetRepresentationId c c1 →
      BeforeReinit K CreateRepresentation GetRepresentationId c
        (addAmlRep CreateRepresentation GetRepresentationId c1 amlFilePath).2.2

/-- The fields that the REST parsers of Docker mode never write. -/
def ParseFrame (c c1 : EZMQXContext Rep) : Prop :=
  c1.initialized = c.initialized ∧ c1.terminated = c.terminated ∧ c1.standAlone = c.standAlone ∧
  c1.numOfPort = c.numOfPort ∧ c1.usedIdx = c.usedIdx ∧ c1.amlRepDic = c.amlRepDic ∧
  c1.usedPorts = c.usedPorts

/-! ## Go maps -/

theorem GoMap.get_insert {K V : Type} [DecidableEq K] (m : GoMap K V) (k p : K) (v zero : V) :
    GoMap.get (AList.insert k v m) p zero = if p = k then v else GoMap.get m p zero := by
  unfold GoMap.get
  by_cases h : p = k
  · subst h; simp [AList.lookup_insert]
  · simp [h, AList.lookup_insert_ne]

theorem GoMap.get_empty {K V : Type} [DecidableEq K] (p : K) (zero : V) :
    GoMap.get (∅ : GoMap K V) p zero = zero := by
  simp [GoMap.get, AList.lookup_empty]

theorem GoMap.mem_foldl_erase {K V : Type} [DecidableEq K] (ks : List K) (m : GoMap K V) (a : K) :
    a ∈ ks.foldl (fun acc key => AList.erase key acc) m ↔ a ∈ m ∧ a ∉ ks := by
  induction ks generalizing m with
  | nil => simp
  | cons k ks ih =>
    rw [List.foldl_cons, ih, AList.mem_erase]
    simp only [List.mem_cons, not_or]
    tauto

theorem GoMap.eq_empty_of_forall_not_mem {K V : Type} (m : GoMap K V) (h : ∀ a, a ∉ m) :
    m = ∅ := by
  apply AList.ext
  have hk : m.keys = [] := List.eq_nil_iff_forall_not_mem.mpr (fun a ha => h a (AList.mem_keys.mpr ha))
  have : m.entries.map Sigma.fst = [] := hk
  simpa using this

theorem GoMap.clear_eq_empty {K V : Type} [DecidableEq K] (m : GoMap K V) : m.clear = ∅ := by
  apply GoMap.eq_empty_of_forall_not_mem
  intro a ha
  have := (GoMap.mem_foldl_erase m.keys m a).mp ha
  exact this.2 (AList.mem_keys.mp this.1)

theorem mem_usedSet (m : GoMap Int Bool) (p : Int) : p ∈ usedSet m ↔ m.get p false = true := by
  unfold usedSet
  rw [Finset.mem_filter, List.mem_toFinset]
  constructor
  · exact fun h => h.2
  · intro h
    refine ⟨?_, h⟩
    rw [← AList.mem_keys, ← AList.lookup_isSome]
    unfold GoMap.get at h
    cases hl : AList.lookup p m with
    | none => rw [hl] at h; simp at h
    | some b => rfl

theorem usedSet_empty : usedSet (∅ : GoMap Int Bool) = ∅ := by
  ext p
  simp [mem_usedSet, GoMap.get_empty]

theorem usedSet_insert_true (m : GoMap Int Bool) (k : Int) :
    usedSet (AList.insert k true m) = insert k (usedSet m) := by
  ext p
  rw [Finset.mem_insert, mem_usedSet, mem_usedSet, GoMap.get_insert]
  by_cases h : p = k <;> simp [h]

theorem usedSet_insert_false (m : GoMap Int Bool) (k : Int) :
    usedSet (AList.insert k false m) = (usedSet m).erase k := by
  ext p
  rw [Finset.mem_erase, mem_usedSet, mem_usedSet, GoMap.get_insert]
  by_cases h : p = k <;> simp [h]

/-! ## The port pool -/

theorem next_cursor (u M : Int) (h0 : 0 ≤ u) (hM : u < M) :
    (if u + 1 ≥ M then 0 else u + 1) = (u + 1) % M := by
  split
  · have : u + 1 = M := by omega
    rw [this, Int.emod_self]
  · rw [Int.emod_eq_of_lt (by omega) (by omega)]

/-- The scan of `assignDynamicPort`: when the first free index in cyclic order
from the cursor is `k` steps away, `k + 1` iterations hand it out. -/
theorem assignDynamicPort_scan (K : Constants) (k : Nat) :
    ∀ (c : EZMQXContext Rep) (fuel : Nat),
      c.numOfPort < K.LOCAL_PORT_MAX → 0 ≤ c.usedIdx → c.usedIdx < K.LOCAL_PORT_MAX →
      (∀ i : Nat, i < k →
        c.usedPorts.get (K.LOCAL_PORT_START + (c.usedIdx + i) % K.LOCAL_PORT_MAX) false = true) →
      c.usedPorts.get (K.LOCAL_PORT_START + (c.usedIdx + k) % K.LOCAL_PORT_MAX) false = false →
      k < fuel →
      assignDynamicPort K fuel c =
        some (K.LOCAL_PORT_START + (c.usedIdx + k) % K.LOCAL_PORT_MAX, EZMQX_OK,
          { c with
            usedIdx := (c.usedIdx + k) % K.LOCAL_PORT_MAX
            usedPorts := c.usedPorts.insert
              (K.LOCAL_PORT_START + (c.usedIdx + k) % K.LOCAL_PORT_MAX) true
            numOfPort := c.numOfPort + 1 }) := by
  induction k with
  | zero =>
    intro c fuel hn h0 hM _ hfree hfuel
    obtain ⟨f, rfl⟩ : ∃ f, fuel = f + 1 := ⟨fuel - 1, by omega⟩
    have hu : (c.usedIdx + ((0 : Nat) : Int)) % K.LOCAL_PORT_MAX = c.usedIdx := by
      rw [Nat.cast_zero, add_zero, Int.emod_eq_of_lt h0 hM]
    rw [hu] at hfree ⊢
    unfold assignDynamicPort
    rw [if_neg (by omega)]
    simp only [hfree, Bool.false_eq_true, if_false]
  | succ k ih =>
    intro c fuel hn h0 hM hused hfree hfuel
    obtain ⟨f, rfl⟩ : ∃ f, fuel = f + 1 := ⟨fuel - 1, by omega⟩
    have hfirst : c.usedPorts.get (K.LOCAL_PORT_START + c.usedIdx) false = true := by
      have := hused 0 (Nat.succ_pos k)
      rwa [Nat.cast_zero, add_zero, Int.emod_eq_of_lt h0 hM] at this
    have hshift : ∀ i : Nat, ((c.usedIdx + 1) % K.LOCAL_PORT_MAX + (i : Int)) % K.LOCAL_PORT_MAX
        = (c.usedIdx + ((i + 1 : Nat) : Int)) % K.LOCAL_PORT_MAX := by
      intro i
      rw [Int.emod_add_emod]
      congr 1
      push_cast
      ring
    have hpos : (0 : Int) < K.LOCAL_PORT_MAX := by omega
    unfold assignDynamicPort
    rw [if_neg (by omega)]
    simp only [hfirst, if_true]
    rw [next_cursor c.usedIdx K.LOCAL_PORT_MAX h0 hM]
    have hrec := ih { c with usedIdx := (c.usedIdx + 1) % K.LOCAL_PORT_MAX } f hn
      (Int.emod_nonneg _ (by omega)) (Int.emod_lt_of_pos _ hpos)
      (by
        intro i hi
        show c.usedPorts.get (K.LOCAL_PORT_START +
          ((c.usedIdx + 1) % K.LOCAL_PORT_MAX + (i : Int)) % K.LOCAL_PORT_MAX) false = true
        rw [hshift i]
        exact hused (i + 1) (by omega))
      (by
        show c.usedPorts.get (K.LOCAL_PORT_START +
          ((c.usedIdx + 1) % K.LOCAL_PORT_MAX + (k : Int)) % K.LOCAL_PORT_MAX) false = false
        rw [hshift k]
        exact hfree)
      (by omega)
    rw [hrec]
    simp only [hshift k]

/-! ## What Docker-mode initialization leaves alone -/

theorem ParseFrame.refl (c : EZMQXContext Rep) : ParseFrame c c := ⟨rfl, rfl, rfl, rfl, rfl, rfl, rfl⟩

theorem ParseFrame.trans {a b c : EZMQXContext Rep} (h1 : ParseFrame a b) (h2 : ParseFrame b c) :
    ParseFrame a c := by
  obtain ⟨a1, a2, a3, a4, a5, a6, a7⟩ := h1
  obtain ⟨b1, b2, b3, b4, b5, b6, b7⟩ := h2
  exact ⟨b1.trans a1, b2.trans a2, b3.trans a3, b4.trans a4, b5.trans a5, b6.trans a6, b7.trans a7⟩

theorem parseConfigItems_frame (K : Constants) (items : List Json) :
    ∀ (c : EZMQXContext Rep) (a n : Bool) (r : EZMQXContext Rep × Bool × Bool),
      parseConfigItems K items c a n = .ok r → ParseFrame c r.1 := by
  induction items with
  | nil =>
    intro c a n r h
    simp only [parseConfigItems] at h
    cases h; exact ParseFrame.refl c
  | cons item rest ih =>
    intro c a n r h
    unfold parseConfigItems at h
    simp only [bind, Except.bind, pure, Except.pure, setTnsInfo] at h
    repeat' split at h
    all_goals first
      | (exact Except.noConfusion h)
      | (exact ih _ _ _ _ h)
      | (have h2 := ih _ _ _ _ h; exact ParseFrame.trans ⟨rfl, rfl, rfl, rfl, rfl, rfl, rfl⟩ h2)

theorem parseConfigData_frame (K : Constants) (c : EZMQXContext Rep) (response : Response)
    (r : EZMQXErrorCode × EZMQXContext Rep) (h : parseConfigData K c response = .ok r) :
    ParseFrame c r.2 := by
  unfold parseConfigData at h
  simp only [bind, Except.bind, pure, Except.pure] at h
  repeat' split at h
  all_goals first
    | (exact Except.noConfusion h)
    | (cases h; exact ParseFrame.refl _)
    | (cases h; exact parseConfigItems_frame K _ _ _ _ _ (by assumption))

theorem readFromFile_frame (c : EZMQXContext Rep) (file : Option String)
    (r : EZMQXErrorCode × EZMQXContext Rep) (h : readFromFile c file = .ok r) :
    ParseFrame c r.2 := by
  unfold readFromFile at h
  repeat' split at h
  all_goals first
    | (exact Except.noConfusion h)
    | (cases h; exact ⟨rfl, rfl, rfl, rfl, rfl, rfl, rfl⟩)

theorem parsePortItems_frame (K : Constants) (items : List Json) :
    ∀ (c : EZMQXContext Rep) (r : EZMQXErrorCode × EZMQXContext Rep),
      parsePortItems K items c = .ok r → ParseFrame c r.2 := by
  induction items with
  | nil =>
    intro c r h
    simp only [parsePortItems] at h
    cases h; exact ParseFrame.refl c
  | cons item rest ih =>
    intro c r h
    unfold parsePortItems at h
    simp only [bind, Except.bind, pure, Except.pure] at h
    repeat' split at h
    all_goals first
      | (exact Except.noConfusion h)
      | (cases h; exact ParseFrame.refl _)
      | (have h2 := ih _ _ h; exact ParseFrame.trans ⟨rfl, rfl, rfl, rfl, rfl, rfl, rfl⟩ h2)

theorem parsePortInfo_frame (K : Constants) (port : Json) (c : EZMQXContext Rep)
    (r : EZMQXErrorCode × EZMQXContext Rep) (h : parsePortInfo K c port = .ok r) :
    ParseFrame c r.2 := by
  unfold parsePortInfo at h
  simp only [bind, Except.bind] at h
  split at h
  · cases h
  · exact parsePortItems_frame K _ _ _ h

theorem parseAppServices_frame (K : Constants) (items : List Json) :
    ∀ (c : EZMQXContext Rep) (r : EZMQXErrorCode × EZMQXContext Rep),
      parseAppServices K items c = .ok r → ParseFrame c r.2 := by
  induction items with
  | nil =>
    intro c r h
    simp only [parseAppServices] at h
    cases h; exact ParseFrame.refl c
  | cons item rest ih =>
    intro c r h
    unfold parseAppServices at h
    simp only [bind, Except.bind, pure, Except.pure] at h
    repeat' split at h
    all_goals first
      | (exact Except.noConfusion h)
      | (cases h; exact ParseFrame.refl _)
      | (exact ih _ _ h)
      | (cases h; have h3 := parsePortInfo_frame K _ _ _ ‹parsePortInfo K _ _ = _›; exact h3)
      | (have h2 := ih _ _ h; exact ParseFrame.trans (parsePortInfo_frame K _ _ _ (by assumption)) h2)

theorem parseAppInfo_frame (K : Constants) (c : EZMQXContext Rep) (response : Response)
    (r : EZMQXErrorCode × EZMQXContext Rep) (h : parseAppInfo K c response = .ok r) :
    ParseFrame c r.2 := by
  unfold parseAppInfo at h
  simp only [bind, Except.bind, pure, Except.pure] at h
  repeat' split at h
  all_goals first
    | (exact Except.noConfusion h)
    | (cases h; exact ParseFrame.refl _)
    | (exact parseAppServices_frame K _ _ _ h)

theorem fetchAppInfos_frame (K : Constants) (env : DockerEnv) (url : String) (ids : List String) :
    ∀ (c : EZMQXContext Rep) (r : EZMQXErrorCode × EZMQXContext Rep),
      fetchAppInfos K env url ids c = .ok r → ParseFrame c r.2 := by
  induction ids with
  | nil =>
    intro c r h
    simp only [fetchAppInfos] at h
    cases h; exact ParseFrame.refl c
  | cons appId rest ih =>
    intro c r h
    unfold fetchAppInfos at h
    simp only [bind, Except.bind, pure, Except.pure] at h
    repeat' split at h
    all_goals first
      | (exact Except.noConfusion h)
      | (cases h; exact ParseFrame.refl _)
      | (have h2 := ih _ _ h; exact ParseFrame.trans (parseAppInfo_frame K _ _ _ (by assumption)) h2)

/-- What `initializeDockerMode` may change: on a failure only what the
parsers write; on success the two life-cycle flags as well. -/
theorem initializeDockerMode_frame (K : Constants) (env : DockerEnv) (c : EZMQXContext Rep)
    (r : EZMQXErrorCode × EZMQXContext Rep) (h : initializeDockerMode K env c = .ok r) :
    (r.1 ≠ EZMQX_OK ∧ ParseFrame c r.2) ∨
    (r.1 = EZMQX_OK ∧ ∃ c3, ParseFrame c c3 ∧
      r.2 = { c3 with initialized := some true, terminated := some false }) := by
  unfold initializeDockerMode at h
  simp only [bind, Except.bind, pure, Except.pure] at h
  have hcfg := fun (resp : Response) (v : EZMQXErrorCode × EZMQXContext Rep) =>
    parseConfigData_frame K c resp v
  have hfile := fun (c1 : EZMQXContext Rep) (v : EZMQXErrorCode × EZMQXContext Rep) =>
    readFromFile_frame c1 (env.readFile K.HOST_NAME_FILE_PATH) v
  have hfetch := fun (ids : List String) (c2 : EZMQXContext Rep)
      (v : EZMQXErrorCode × EZMQXContext Rep) =>
    fetchAppInfos_frame K env (K.NODE ++ K.PREFIX ++ K.API_APPS ++ K.SLASH) ids c2 v
  repeat' split at h
  all_goals first
    | (exact Except.noConfusion h)
    | (cases h; exact Or.inl ⟨by simp, ParseFrame.refl _⟩)
    | (cases h; exact Or.inl ⟨by assumption, hcfg _ _ (by assumption)⟩)
    | (cases h; exact Or.inl ⟨by assumption,
        (hcfg _ _ (by assumption)).trans (hfile _ _ (by assumption))⟩)
    | (cases h; dsimp only; refine Or.inl ⟨by simp, ?_⟩;
        exact (hcfg _ _ (by assumption)).trans (hfile _ _ (by assumption)))
    | (cases h; exact Or.inl ⟨by assumption,
        ((hcfg _ _ (by assumption)).trans (hfile _ _ (by assumption))).trans
          (hfetch _ _ _ (by assumption))⟩)
    | (cases h; exact Or.inr ⟨rfl, _,
        ((hcfg _ _ (by assumption)).trans (hfile _ _ (by assumption))).trans
          (hfetch _ _ _ (by assumption)), rfl⟩)

/-! ## The invariant of the port pool -/

theorem PortPoolInv.of_samePool {K : Constants} {c c1 : EZMQXContext Rep}
    (h : SamePool c c1) (hc : PortPoolInv K c) : PortPoolInv K c1 := by
  obtain ⟨h1, h2, h3⟩ := h
  obtain ⟨a1, a2, a3, a4, a5, a6⟩ := hc
  exact ⟨by rw [h2]; exact a1, by rw [h2]; exact a2, by rw [h2, h1]; exact a3,
    by rw [h1]; exact a4, by rw [h3]; exact a5, by rw [h3]; exact a6⟩

theorem ParseFrame.samePool {c c1 : EZMQXContext Rep} (h : ParseFrame c c1) : SamePool c c1 :=
  ⟨h.2.2.2.2.2.2, h.2.2.2.1, h.2.2.2.2.1⟩

theorem portPoolInv_fresh (K : Constants) (hK : 0 < K.LOCAL_PORT_MAX) :
    PortPoolInv K (getContextInstance (none : Option (EZMQXContext Rep))) := by
  refine ⟨le_refl _, le_of_lt hK, ?_, ?_, le_refl _, hK⟩
  · show (0 : Int) = ((usedSet (∅ : GoMap Int Bool)).card : Int)
    rw [usedSet_empty]; rfl
  · intro p hp
    have : p ∈ usedSet (∅ : GoMap Int Bool) := hp
    rw [usedSet_empty] at this
    exact absurd this (Finset.not_mem_empty p)

theorem assignDynamicPort_inv (K : Constants) (hK : 0 < K.LOCAL_PORT_MAX) (fuel : Nat) :
    ∀ (c : EZMQXContext Rep) (r : Int × EZMQXErrorCode × EZMQXContext Rep),
      assignDynamicPort K fuel c = some r → PortPoolInv K c → PortPoolInv K r.2.2 := by
  induction fuel with
  | zero => intro c r h; simp [assignDynamicPort] at h
  | succ f ih =>
    intro c r h hc
    unfold assignDynamicPort at h
    split at h
    · cases h; exact hc
    · rename_i hlt
      simp only at h
      split at h
      · refine ih _ _ h ?_
        obtain ⟨a1, a2, a3, a4, a5, a6⟩ := hc
        refine ⟨a1, a2, a3, a4, ?_, ?_⟩
        · show 0 ≤ (if c.usedIdx + 1 ≥ K.LOCAL_PORT_MAX then 0 else c.usedIdx + 1)
          split <;> omega
        · show (if c.usedIdx + 1 ≥ K.LOCAL_PORT_MAX then 0 else c.usedIdx + 1) < K.LOCAL_PORT_MAX
          split <;> omega
      · rename_i hfree
        cases h
        obtain ⟨a1, a2, a3, a4, a5, a6⟩ := hc
        have hnot : K.LOCAL_PORT_START + c.usedIdx ∉ usedSet c.usedPorts := by
          rw [mem_usedSet]; exact hfree
        refine ⟨?_, ?_, ?_, ?_, a5, a6⟩
        · show 0 ≤ c.numOfPort + 1
          omega
        · show c.numOfPort + 1 ≤ K.LOCAL_PORT_MAX
          omega
        · show c.numOfPort + 1 = ((usedSet (AList.insert _ true c.usedPorts)).card : Int)
          rw [usedSet_insert_true, Finset.card_insert_of_not_mem hnot, a3]
          push_cast; rfl
        · intro p hp
          have hp2 : p ∈ usedSet (AList.insert (K.LOCAL_PORT_START + c.usedIdx) true c.usedPorts) := hp
          rw [usedSet_insert_true, Finset.mem_insert] at hp2
          rcases hp2 with rfl | hp2
          · constructor <;> omega
          · exact a4 p hp2

theorem releaseDynamicPort_inv (K : Constants) (c : EZMQXContext Rep) (port : Int)
    (hc : PortPoolInv K c) : PortPoolInv K (releaseDynamicPort c port).2 := by
  unfold releaseDynamicPort
  split
  · exact hc
  · rename_i hused
    obtain ⟨a1, a2, a3, a4, a5, a6⟩ := hc
    have hmem : port ∈ usedSet c.usedPorts := by
      rw [mem_usedSet]; simpa using hused
    have hpos : 0 < (usedSet c.usedPorts).card := Finset.card_pos.mpr ⟨port, hmem⟩
    refine ⟨?_, ?_, ?_, ?_, a5, a6⟩
    · show 0 ≤ c.numOfPort - 1
      omega
    · show c.numOfPort - 1 ≤ K.LOCAL_PORT_MAX
      omega
    · show c.numOfPort - 1 = ((usedSet (AList.insert port false c.usedPorts)).card : Int)
      rw [usedSet_insert_false, Finset.card_erase_of_mem hmem, a3]
      omega
    · intro p hp
      have hp2 : p ∈ usedSet (AList.insert port false c.usedPorts) := hp
      rw [usedSet_insert_false] at hp2
      exact a4 p (Finset.mem_of_mem_erase hp2)

theorem terminate_of_terminated (c : EZMQXContext Rep) (ok : Bool)
    (h : c.terminated = some true) : terminate c ok = (EZMQX_TERMINATED, c) := by
  unfold terminate
  rw [if_pos h]

theorem terminate_of_not_terminated (c : EZMQXContext Rep) (ok : Bool)
    (h : c.terminated ≠ some true) :
    terminate c ok = (EZMQX_OK,
      { initialized := some false, terminated := some true, standAlone := false,
        hostName := "", hostAddr := "", remoteAddr := "", tnsEnabled := false,
        numOfPort := 0, usedIdx := 0, amlRepDic := ∅, usedPorts := ∅, ports := ∅ }) := by
  unfold terminate
  rw [if_neg h]
  cases ok <;> simp [GoMap.clear_eq_empty]

theorem terminate_inv (K : Constants) (hK : 0 < K.LOCAL_PORT_MAX) (c : EZMQXContext Rep)
    (ok : Bool) (hc : PortPoolInv K c) : PortPoolInv K (terminate c ok).2 := by
  by_cases h : c.terminated = some true
  · rw [terminate_of_terminated c ok h]; exact hc
  · rw [terminate_of_not_terminated c ok h]
    exact @PortPoolInv.of_samePool Rep K (getContextInstance none) _ ⟨rfl, rfl, rfl⟩
      (portPoolInv_fresh K hK)

theorem initializeStandAloneMode_samePool (K : Constants) (ok : Bool) (c : EZMQXContext Rep)
    (useTns : Bool) (tnsAddr : String) :
    SamePool c (initializeStandAloneMode K ok c useTns tnsAddr).2 := by
  unfold initializeStandAloneMode
  cases ok <;> cases useTns <;> exact ⟨rfl, rfl, rfl⟩

theorem initializeDockerMode_samePool (K : Constants) (env : DockerEnv) (c : EZMQXContext Rep)
    (r : EZMQXErrorCode × EZMQXContext Rep) (h : initializeDockerMode K env c = .ok r) :
    SamePool c r.2 := by
  rcases initializeDockerMode_frame K env c r h with ⟨_, hf⟩ | ⟨_, c3, hf, he⟩
  · exact hf.samePool
  · rw [he]; exact hf.samePool

theorem addAmlRepLoop_create_fails (create : String → Option Rep) (getId : Rep → Option String)
    (p : String) (rest ids : List String) (c : EZMQXContext Rep) (hc : create p = none) :
    addAmlRepLoop create getId (p :: rest) ids c = (ids, EZMQX_INVALID_AML_MODEL, c) := by
  simp only [addAmlRepLoop, hc]

theorem addAmlRepLoop_getId_fails (create : String → Option Rep) (getId : Rep → Option String)
    (p : String) (rest ids : List String) (c : EZMQXContext Rep) (repObject : Rep)
    (hc : create p = some repObject) (hg : getId repObject = none) :
    addAmlRepLoop create getId (p :: rest) ids c = (ids, EZMQX_INVALID_PARAM, c) := by
  simp only [addAmlRepLoop, hc, hg]

theorem addAmlRepLoop_step (create : String → Option Rep) (getId : Rep → Option String)
    (p : String) (rest ids : List String) (c : EZMQXContext Rep) (repObject : Rep)
    (amlModelId : String) (hc : create p = some repObject) (hg : getId repObject = some amlModelId) :
    addAmlRepLoop create getId (p :: rest) ids c =
      addAmlRepLoop create getId rest (ids ++ [amlModelId])
        (if (AList.lookup amlModelId c.amlRepDic).isNone then
          { c with amlRepDic := c.amlRepDic.insert amlModelId repObject } else c) := by
  simp only [addAmlRepLoop, hc, hg]

theorem addAmlRepLoop_samePool (create : String → Option Rep) (getId : Rep → Option String)
    (paths : List String) :
    ∀ (ids : List String) (c : EZMQXContext Rep),
      SamePool c (addAmlRepLoop create getId paths ids c).2.2 := by
  induction paths with
  | nil => intro ids c; exact ⟨rfl, rfl, rfl⟩
  | cons p rest ih =>
    intro ids c
    cases hc : create p with
    | none => rw [addAmlRepLoop_create_fails create getId p rest ids c hc]; exact ⟨rfl, rfl, rfl⟩
    | some repObject =>
      cases hg : getId repObject with
      | none =>
        rw [addAmlRepLoop_getId_fails create getId p rest ids c repObject hc hg]
        exact ⟨rfl, rfl, rfl⟩
      | some amlModelId =>
        rw [addAmlRepLoop_step create getId p rest ids c repObject amlModelId hc hg]
        obtain ⟨b1, b2, b3⟩ := ih (ids ++ [amlModelId])
          (if (AList.lookup amlModelId c.amlRepDic).isNone then
            { c with amlRepDic := c.amlRepDic.insert amlModelId repObject } else c)
        refine ⟨b1.trans ?_, b2.trans ?_, b3.trans ?_⟩ <;> split <;> rfl

/-- The port-pool invariant holds in every reachable state. -/
theorem reachable_portPoolInv (K : Constants) (hK : 0 < K.LOCAL_PORT_MAX)
    (create : String → Option Rep) (getId : Rep → Option String) (c : EZMQXContext Rep)
    (h : Reachable K create getId c) : PortPoolInv K c := by
  induction h with
  | fresh => exact portPoolInv_fresh K hK
  | assign _ hstep ih => exact assignDynamicPort_inv K hK _ _ _ hstep ih
  | release port _ ih => exact releaseDynamicPort_inv K _ port ih
  | terminate ok _ ih => exact terminate_inv K hK _ ok ih
  | standAlone ok useTns tnsAddr _ ih =>
    exact PortPoolInv.of_samePool (initializeStandAloneMode_samePool K ok _ useTns tnsAddr) ih
  | docker _ hstep ih =>
    exact PortPoolInv.of_samePool (initializeDockerMode_samePool K _ _ _ hstep) ih
  | addAml paths _ ih =>
    exact PortPoolInv.of_samePool (addAmlRepLoop_samePool create getId paths [] _) ih

theorem exists_free_index (K : Constants) (c : EZMQXContext Rep) (hc : PortPoolInv K c)
    (hlt : c.numOfPort < K.LOCAL_PORT_MAX) :
    ∃ i : Int, 0 ≤ i ∧ i < K.LOCAL_PORT_MAX ∧
      c.usedPorts.get (K.LOCAL_PORT_START + i) false = false := by
  by_contra hno
  push_neg at hno
  have hsub : Finset.Ico K.LOCAL_PORT_START (K.LOCAL_PORT_START + K.LOCAL_PORT_MAX)
      ⊆ usedSet c.usedPorts := by
    intro p hp
    rw [Finset.mem_Ico] at hp
    rw [mem_usedSet]
    have := hno (p - K.LOCAL_PORT_START) (by omega) (by omega)
    rw [show K.LOCAL_PORT_START + (p - K.LOCAL_PORT_START) = p by ring] at this
    simpa using this
  have hcard := Finset.card_le_card hsub
  rw [Int.card_Ico] at hcard
  have := hc.count_eq
  omega

theorem exists_first_free (K : Constants) (c : EZMQXContext Rep) (hc : PortPoolInv K c)
    (hlt : c.numOfPort < K.LOCAL_PORT_MAX) :
    ∃ k : Nat, (k : Int) < K.LOCAL_PORT_MAX ∧
      (∀ i : Nat, i < k →
        c.usedPorts.get (K.LOCAL_PORT_START + (c.usedIdx + i) % K.LOCAL_PORT_MAX) false = true) ∧
      c.usedPorts.get (K.LOCAL_PORT_START + (c.usedIdx + k) % K.LOCAL_PORT_MAX) false = false := by
  obtain ⟨i, hi0, hiM, hfree⟩ := exists_free_index K c hc hlt
  have hpos : (0 : Int) < K.LOCAL_PORT_MAX := by omega
  have hex : ∃ k : Nat,
      c.usedPorts.get (K.LOCAL_PORT_START + (c.usedIdx + k) % K.LOCAL_PORT_MAX) false = false := by
    refine ⟨((i - c.usedIdx) % K.LOCAL_PORT_MAX).toNat, ?_⟩
    rw [Int.toNat_of_nonneg (Int.emod_nonneg _ (by omega)), Int.add_emod_emod,
      show c.usedIdx + (i - c.usedIdx) = i by ring, Int.emod_eq_of_lt hi0 hiM]
    exact hfree
  have hle : Nat.find hex ≤ ((i - c.usedIdx) % K.LOCAL_PORT_MAX).toNat := by
    apply Nat.find_min'
    rw [Int.toNat_of_nonneg (Int.emod_nonneg _ (by omega)), Int.add_emod_emod,
      show c.usedIdx + (i - c.usedIdx) = i by ring, Int.emod_eq_of_lt hi0 hiM]
    exact hfree
  refine ⟨Nat.find hex, ?_, ?_, Nat.find_spec hex⟩
  · have h1 : ((i - c.usedIdx) % K.LOCAL_PORT_MAX) < K.LOCAL_PORT_MAX := Int.emod_lt_of_pos _ hpos
    have h2 : 0 ≤ ((i - c.usedIdx) % K.LOCAL_PORT_MAX) := Int.emod_nonneg _ (by omega)
    omega
  · intro j hj
    have := Nat.find_min hex hj
    simpa using this

/-! ## Claims on the port pool -/

/-- C1: in every Context state reachable from a fresh Context by calls of its
methods (among them `assignDynamicPort`, `releaseDynamicPort`, `terminate`),
`numOfPort` lies between 0 and `LOCAL_PORT_MAX`, equals the number of ports
marked used in `usedPorts`, every used port lies in
`[LOCAL_PORT_START, LOCAL_PORT_START + LOCAL_PORT_MAX)` and the cursor
`usedIdx` lies in `[0, LOCAL_PORT_MAX)`. -/
theorem port_pool_invariant (K : Constants) (CreateRepresentation : String → Option Rep)
    (GetRepresentationId : Rep → Option String) (c : EZMQXContext Rep)
    (hK : 0 < K.LOCAL_PORT_MAX)
    (h : Reachable K CreateRepresentation GetRepresentationId c) :
    0 ≤ c.numOfPort ∧ c.numOfPort ≤ K.LOCAL_PORT_MAX ∧
    c.numOfPort = ((usedSet c.usedPorts).card : Int) ∧
    (∀ p : Int, c.usedPorts.get p false = true →
      K.LOCAL_PORT_START ≤ p ∧ p < K.LOCAL_PORT_START + K.LOCAL_PORT_MAX) ∧
    0 ≤ c.usedIdx ∧ c.usedIdx < K.LOCAL_PORT_MAX := by
  have hc := reachable_portPoolInv K hK CreateRepresentation GetRepresentationId c h
  exact ⟨hc.count_nonneg, hc.count_le, hc.count_eq,
    fun p hp => hc.used_range p ((mem_usedSet _ p).mpr hp), hc.cursor_nonneg, hc.cursor_lt⟩

/-- The invariant on the sample pool after one assignment. -/
theorem port_pool_invariant_witness :
    0 < sampleConstants.LOCAL_PORT_MAX ∧
    Reachable sampleConstants sampleCreate sampleGetId sampleOnePort ∧
    (0 ≤ sampleOnePort.numOfPort ∧ sampleOnePort.numOfPort ≤ sampleConstants.LOCAL_PORT_MAX ∧
      sampleOnePort.numOfPort = ((usedSet sampleOnePort.usedPorts).card : Int) ∧
      (∀ p : Int, sampleOnePort.usedPorts.get p false = true →
        sampleConstants.LOCAL_PORT_START ≤ p ∧
        p < sampleConstants.LOCAL_PORT_START + sampleConstants.LOCAL_PORT_MAX) ∧
      0 ≤ sampleOnePort.usedIdx ∧ sampleOnePort.usedIdx < sampleConstants.LOCAL_PORT_MAX) :=
  have hr : Reachable sampleConstants sampleCreate sampleGetId sampleOnePort :=
    Reachable.assign Reachable.fresh
      (rfl : assignDynamicPort sampleConstants 1 sampleFresh
        = some (4000, EZMQX_OK, sampleOnePort))
  ⟨by decide, hr, port_pool_invariant sampleConstants sampleCreate sampleGetId sampleOnePort
    (by decide) hr⟩

theorem assignDynamicPort_full (K : Constants) (c : EZMQXContext Rep) (fuel : Nat)
    (h : c.numOfPort ≥ K.LOCAL_PORT_MAX) :
    assignDynamicPort K (fuel + 1) c = some (-1, EZMQX_MAXIMUM_PORT_EXCEED, c) := by
  unfold assignDynamicPort
  rw [if_pos h]

theorem assignDynamicPort_count (K : Constants) (fuel : Nat) :
    ∀ (c c1 : EZMQXContext Rep) (port : Int),
      assignDynamicPort K fuel c = some (port, EZMQX_OK, c1) → c1.numOfPort = c.numOfPort + 1 := by
  induction fuel with
  | zero => intro c c1 port h; simp [assignDynamicPort] at h
  | succ f ih =>
    intro c c1 port h
    unfold assignDynamicPort at h
    split at h
    · cases h
    · simp only at h
      split at h
      · have h2 := ih _ _ _ h
        exact h2
      · cases h; rfl

theorem assignedTimes_count (K : Constants) (n : Nat) (c c1 : EZMQXContext Rep)
    (h : AssignedTimes K n c c1) : c1.numOfPort = c.numOfPort + n := by
  induction h with
  | zero c => simp
  | succ _ hstep ih =>
    rw [assignDynamicPort_count K _ _ _ _ hstep, ih]
    push_cast; ring

/-- C2: in every Context state whose `numOfPort` is at least `LOCAL_PORT_MAX`,
`assignDynamicPort` returns `(-1, EZMQX_MAXIMUM_PORT_EXCEED)` on its first
iteration and leaves the Context as it was, whatever `usedPorts` holds; this is
the state reached by `LOCAL_PORT_MAX` successful assignments on a fresh
Context. -/
theorem assign_fails_once_count_is_full (K : Constants) (c : EZMQXContext Rep) (fuel : Nat)
    (h : c.numOfPort ≥ K.LOCAL_PORT_MAX) :
    assignDynamicPort K (fuel + 1) c = some (-1, EZMQX_MAXIMUM_PORT_EXCEED, c) ∧
    (∀ (n : Nat) (c1 : EZMQXContext Rep),
      AssignedTimes K n (getContextInstance none) c1 → (n : Int) = K.LOCAL_PORT_MAX →
      assignDynamicPort K (fuel + 1) c1 = some (-1, EZMQX_MAXIMUM_PORT_EXCEED, c1)) := by
  refine ⟨assignDynamicPort_full K c fuel h, ?_⟩
  intro n c1 hn hmax
  apply assignDynamicPort_full
  rw [assignedTimes_count K n _ c1 hn, ← hmax]
  show (0 : Int) + n ≥ n
  omega

/-- The sample pool of three ports after three assignments: the fourth fails. -/
theorem assign_fails_once_count_is_full_witness :
    sampleFull.numOfPort ≥ sampleConstants.LOCAL_PORT_MAX ∧
    AssignedTimes sampleConstants 3 sampleFresh sampleFull ∧
    assignDynamicPort sampleConstants 1 sampleFull
      = some (-1, EZMQX_MAXIMUM_PORT_EXCEED, sampleFull) :=
  ⟨by decide,
    AssignedTimes.succ
      (AssignedTimes.succ
        (AssignedTimes.succ (AssignedTimes.zero sampleFresh)
          (rfl : assignDynamicPort sampleConstants 1 sampleFresh
            = some (4000, EZMQX_OK, sampleOnePort)))
        (rfl : assignDynamicPort sampleConstants 2 sampleOnePort
          = some (4001, EZMQX_OK, sampleTwoPorts)))
      (rfl : assignDynamicPort sampleConstants 3 sampleTwoPorts
        = some (4002, EZMQX_OK, sampleFull)),
    (assign_fails_once_count_is_full sampleConstants sampleFull 0 (by decide)).1⟩

/-- C3: `releaseDynamicPort(port)` returns `EZMQX_RELEASE_WRONG_PORT` and leaves
the Context as it was whenever `port` is not marked used, as in a fresh
Context and in the second of two consecutive releases of one port; when
`port` is marked used it returns `EZMQX_OK`, marks that port free, keeps the
status of every other port and the cursor, and lowers `numOfPort` by one. -/
theorem release_contract (c : EZMQXContext Rep) (port : Int) :
    (c.usedPorts.get port false = false →
      releaseDynamicPort c port = (EZMQX_RELEASE_WRONG_PORT, c)) ∧
    (c.usedPorts.get port false = true →
      (releaseDynamicPort c port).1 = EZMQX_OK ∧
      (releaseDynamicPort c port).2.usedPorts.get port false = false ∧
      (∀ q : Int, q ≠ port →
        (releaseDynamicPort c port).2.usedPorts.get q false = c.usedPorts.get q false) ∧
      (releaseDynamicPort c port).2.numOfPort = c.numOfPort - 1 ∧
      (releaseDynamicPort c port).2.usedIdx = c.usedIdx) ∧
    releaseDynamicPort (releaseDynamicPort c port).2 port
      = (EZMQX_RELEASE_WRONG_PORT, (releaseDynamicPort c port).2) ∧
    releaseDynamicPort (getContextInstance none : EZMQXContext Rep) port
      = (EZMQX_RELEASE_WRONG_PORT, getContextInstance none) := by
  have hfree : ∀ c0 : EZMQXContext Rep, c0.usedPorts.get port false = false →
      releaseDynamicPort c0 port = (EZMQX_RELEASE_WRONG_PORT, c0) := by
    intro c0 h0
    unfold releaseDynamicPort
    rw [if_pos h0]
  have hused : c.usedPorts.get port false = true →
      releaseDynamicPort c port = (EZMQX_OK,
        { c with usedPorts := c.usedPorts.insert port false, numOfPort := c.numOfPort - 1 }) := by
    intro h1
    unfold releaseDynamicPort
    rw [if_neg (by simp [h1])]
  refine ⟨hfree c, ?_, ?_, ?_⟩
  · intro h1
    rw [hused h1]
    refine ⟨rfl, ?_, ?_, rfl, rfl⟩
    · show GoMap.get (AList.insert port false c.usedPorts) port false = false
      rw [GoMap.get_insert, if_pos rfl]
    · intro q hq
      show GoMap.get (AList.insert port false c.usedPorts) q false = _
      rw [GoMap.get_insert, if_neg hq]
  · apply hfree
    cases h1 : c.usedPorts.get port false with
    | false => rw [hfree c h1]; exact h1
    | true =>
      rw [hused h1]
      show GoMap.get (AList.insert port false c.usedPorts) port false = false
      rw [GoMap.get_insert, if_pos rfl]
  · apply hfree
    exact GoMap.get_empty port false

/-- Release of the one used port of the sample pool, then a second release. -/
theorem release_contract_witness :
    sampleOnePort.usedPorts.get 4000 false = true ∧
    releaseDynamicPort sampleOnePort 4000 = (EZMQX_OK,
      { sampleFresh with usedPorts := AList.insert 4000 false ∅, numOfPort := 0 }) ∧
    (releaseDynamicPort sampleOnePort 4000).2.numOfPort = sampleOnePort.numOfPort - 1 ∧
    releaseDynamicPort (releaseDynamicPort sampleOnePort 4000).2 4000
      = (EZMQX_RELEASE_WRONG_PORT, (releaseDynamicPort sampleOnePort 4000).2) :=
  ⟨by decide, rfl,
    ((release_contract sampleOnePort 4000).2.1 (by decide)).2.2.2.1,
    (release_contract sampleOnePort 4000).2.2.1⟩

/-- The full sample pool is reachable: three assignments on a fresh Context. -/
theorem sampleFull_reachable : Reachable sampleConstants sampleCreate sampleGetId sampleFull :=
  Reachable.assign
    (Reachable.assign
      (Reachable.assign Reachable.fresh
        (rfl : assignDynamicPort sampleConstants 1 sampleFresh
          = some (4000, EZMQX_OK, sampleOnePort)))
      (rfl : assignDynamicPort sampleConstants 2 sampleOnePort
        = some (4001, EZMQX_OK, sampleTwoPorts)))
    (rfl : assignDynamicPort sampleConstants 3 sampleTwoPorts
      = some (4002, EZMQX_OK, sampleFull))

/-- C4: in every reachable Context state with `numOfPort < LOCAL_PORT_MAX`,
`assignDynamicPort` returns `(LOCAL_PORT_START + j, EZMQX_OK)` as soon as it is
given `k + 1` iterations, where `j = (usedIdx + k) mod LOCAL_PORT_MAX` is the
first index in cyclic order from the cursor whose port is not marked used; the
port lies in the pool range, was free before the call and is marked used
after it, `numOfPort` grows by one and every other port keeps its status. -/
theorem assign_returns_first_free (K : Constants) (CreateRepresentation : String → Option Rep)
    (GetRepresentationId : Rep → Option String) (c : EZMQXContext Rep)
    (hK : 0 < K.LOCAL_PORT_MAX)
    (hr : Reachable K CreateRepresentation GetRepresentationId c)
    (hlt : c.numOfPort < K.LOCAL_PORT_MAX) :
    ∃ (k : Nat) (j : Int),
      (k : Int) < K.LOCAL_PORT_MAX ∧ j = (c.usedIdx + k) % K.LOCAL_PORT_MAX ∧
      (∀ i : Nat, i < k →
        c.usedPorts.get (K.LOCAL_PORT_START + (c.usedIdx + i) % K.LOCAL_PORT_MAX) false = true) ∧
      c.usedPorts.get (K.LOCAL_PORT_START + j) false = false ∧
      K.LOCAL_PORT_START ≤ K.LOCAL_PORT_START + j ∧
      K.LOCAL_PORT_START + j < K.LOCAL_PORT_START + K.LOCAL_PORT_MAX ∧
      ∀ fuel : Nat, k < fuel →
        ∃ c1 : EZMQXContext Rep,
          assignDynamicPort K fuel c = some (K.LOCAL_PORT_START + j, EZMQX_OK, c1) ∧
          c1.usedPorts.get (K.LOCAL_PORT_START + j) false = true ∧
          c1.numOfPort = c.numOfPort + 1 ∧
          ∀ q : Int, q ≠ K.LOCAL_PORT_START + j →
            c1.usedPorts.get q false = c.usedPorts.get q false := by
  have hc := reachable_portPoolInv K hK CreateRepresentation GetRepresentationId c hr
  obtain ⟨k, hk, hused, hfree⟩ := exists_first_free K c hc hlt
  have h0 : 0 ≤ (c.usedIdx + k) % K.LOCAL_PORT_MAX := Int.emod_nonneg _ (by omega)
  have h1 : (c.usedIdx + k) % K.LOCAL_PORT_MAX < K.LOCAL_PORT_MAX := Int.emod_lt_of_pos _ hK
  refine ⟨k, (c.usedIdx + k) % K.LOCAL_PORT_MAX, hk, rfl, hused, hfree, by omega, by omega, ?_⟩
  intro fuel hfuel
  refine ⟨_, assignDynamicPort_scan K k c fuel hlt hc.cursor_nonneg hc.cursor_lt hused hfree hfuel,
    ?_, rfl, ?_⟩
  · show GoMap.get (AList.insert _ true c.usedPorts) _ false = true
    rw [GoMap.get_insert, if_pos rfl]
  · intro q hq
    show GoMap.get (AList.insert _ true c.usedPorts) q false = _
    rw [GoMap.get_insert, if_neg hq]

/-- The scan on the sample pool with the cursor on index 2 and index 0 free: it wraps around and hands out port 4000. -/
theorem assign_returns_first_free_witness :
    0 < sampleConstants.LOCAL_PORT_MAX ∧
    Reachable sampleConstants sampleCreate sampleGetId sampleReleased ∧
    sampleReleased.numOfPort < sampleConstants.LOCAL_PORT_MAX ∧
    sampleReleased.usedIdx = 2 ∧
    (assignDynamicPort sampleConstants 2 sampleReleased).map (fun r => (r.1, r.2.1))
      = some (4000, EZMQX_OK) ∧
    ∃ (k : Nat) (j : Int),
      (k : Int) < sampleConstants.LOCAL_PORT_MAX ∧
      j = (sampleReleased.usedIdx + k) % sampleConstants.LOCAL_PORT_MAX ∧
      (∀ i : Nat, i < k →
        sampleReleased.usedPorts.get (sampleConstants.LOCAL_PORT_START +
          (sampleReleased.usedIdx + i) % sampleConstants.LOCAL_PORT_MAX) false = true) ∧
      sampleReleased.usedPorts.get (sampleConstants.LOCAL_PORT_START + j) false = false ∧
      sampleConstants.LOCAL_PORT_START ≤ sampleConstants.LOCAL_PORT_START + j ∧
      sampleConstants.LOCAL_PORT_START + j
        < sampleConstants.LOCAL_PORT_START + sampleConstants.LOCAL_PORT_MAX ∧
      ∀ fuel : Nat, k < fuel →
        ∃ c1 : EZMQXContext String,
          assignDynamicPort sampleConstants fuel sampleReleased
            = some (sampleConstants.LOCAL_PORT_START + j, EZMQX_OK, c1) ∧
          c1.usedPorts.get (sampleConstants.LOCAL_PORT_START + j) false = true ∧
          c1.numOfPort = sampleReleased.numOfPort + 1 ∧
          ∀ q : Int, q ≠ sampleConstants.LOCAL_PORT_START + j →
            c1.usedPorts.get q false = sampleReleased.usedPorts.get q false :=
  have hr : Reachable sampleConstants sampleCreate sampleGetId sampleReleased :=
    Reachable.release 4000 sampleFull_reachable
  ⟨by decide, hr, by decide, rfl, rfl,
    assign_returns_first_free sampleConstants sampleCreate sampleGetId sampleReleased
      (by decide) hr (by decide)⟩

/-! ## Claims on termination -/

/-- C6: `terminate()` on a Context that is already terminated returns
`EZMQX_TERMINATED` and changes no field; otherwise it returns `EZMQX_OK`,
whatever the transport library's `Terminate` answers, and leaves the three
maps empty, the three strings empty, `usedIdx = 0`, `numOfPort = 0`,
`standAlone = false`, `tnsEnabled = false`, `terminated = true` and
`initialized = false`. -/
theorem terminate_contract (c : EZMQXContext Rep) (ezmqTerminateOk : Bool) :
    (c.terminated = some true → terminate c ezmqTerminateOk = (EZMQX_TERMINATED, c)) ∧
    (c.terminated ≠ some true →
      terminate c ezmqTerminateOk = (EZMQX_OK,
        { initialized := some false, terminated := some true, standAlone := false,
          hostName := "", hostAddr := "", remoteAddr := "", tnsEnabled := false,
          numOfPort := 0, usedIdx := 0, amlRepDic := ∅, usedPorts := ∅, ports := ∅ })) :=
  ⟨terminate_of_terminated c ezmqTerminateOk, terminate_of_not_terminated c ezmqTerminateOk⟩

/-- Termination of the full sample pool, followed by a second termination. -/
theorem terminate_contract_witness :
    sampleFull.terminated ≠ some true ∧
    terminate sampleFull false = (EZMQX_OK,
      { initialized := some false, terminated := some true, standAlone := false,
        hostName := "", hostAddr := "", remoteAddr := "", tnsEnabled := false,
        numOfPort := 0, usedIdx := 0, amlRepDic := ∅, usedPorts := ∅, ports := ∅ }) ∧
    terminate (terminate sampleFull false).2 true
      = (EZMQX_TERMINATED, (terminate sampleFull false).2) :=
  ⟨by decide, (terminate_contract sampleFull false).2 (by decide),
    (terminate_contract (terminate sampleFull false).2 true).1 rfl⟩

theorem addAmlRepLoop_all_parse (create : String → Option Rep) (getId : Rep → Option String)
    (paths : List String) :
    ∀ (ids : List String) (c : EZMQXContext Rep),
      (∀ p ∈ paths, ∃ id, modelIdOf create getId p = some id) →
      (addAmlRepLoop create getId paths ids c).2.1 = EZMQX_OK := by
  induction paths with
  | nil => intro ids c _; rfl
  | cons p rest ih =>
    intro ids c hall
    obtain ⟨id, hid⟩ := hall p (List.mem_cons_self p rest)
    unfold modelIdOf at hid
    cases hc : create p with
    | none => rw [hc] at hid; cases hid
    | some repObject =>
      rw [hc] at hid
      have hg : getId repObject = some id := hid
      rw [addAmlRepLoop_step create getId p rest ids c repObject id hc hg]
      exact ih _ _ (fun q hq => hall q (List.mem_cons_of_mem p hq))

/-! ## Claims on initialization -/

/-- C7, the code at the failing inputs: for a detail resource with a
non-success status, a body that is not JSON, no services key, no container
id, no ports key in the matching service, or no public port in a port entry,
`parseAppInfo` returns `EZMQX_REST_ERROR`, and `initializeDockerMode`, which
does not look at that result, returns `EZMQX_OK` and marks the Context
initialized. -/
theorem docker_init_ignores_app_info_errors :
    (parseAppInfo sampleConstants sampleFresh sampleAppInfoNotFound).map (fun r => r.1)
      = .ok EZMQX_REST_ERROR ∧
    (parseAppInfo sampleConstants sampleFresh sampleAppInfoNotJson).map (fun r => r.1)
      = .ok EZMQX_REST_ERROR ∧
    (parseAppInfo sampleConstants sampleFresh sampleAppInfoNoServices).map (fun r => r.1)
      = .ok EZMQX_REST_ERROR ∧
    (parseAppInfo sampleConstants sampleFresh sampleAppInfoNoContainerId).map (fun r => r.1)
      = .ok EZMQX_REST_ERROR ∧
    (parseAppInfo sampleConstants { sampleFresh with hostName := "host1" }
      sampleAppInfoNoPorts).map (fun r => r.1) = .ok EZMQX_REST_ERROR ∧
    (parseAppInfo sampleConstants { sampleFresh with hostName := "host1" }
      sampleAppInfoNoPublicPort).map (fun r => r.1) = .ok EZMQX_REST_ERROR ∧
    (initializeDockerMode sampleConstants (sampleDockerEnv sampleConfig sampleAppInfoNotFound)
      sampleFresh).map (fun r => (r.1, isCtxInitialized r.2)) = .ok (EZMQX_OK, some true) ∧
    (initializeDockerMode sampleConstants (sampleDockerEnv sampleConfig sampleAppInfoNotJson)
      sampleFresh).map (fun r => (r.1, isCtxInitialized r.2)) = .ok (EZMQX_OK, some true) ∧
    (initializeDockerMode sampleConstants (sampleDockerEnv sampleConfig sampleAppInfoNoServices)
      sampleFresh).map (fun r => (r.1, isCtxInitialized r.2)) = .ok (EZMQX_OK, some true) ∧
    (initializeDockerMode sampleConstants (sampleDockerEnv sampleConfig sampleAppInfoNoContainerId)
      sampleFresh).map (fun r => (r.1, isCtxInitialized r.2)) = .ok (EZMQX_OK, some true) ∧
    (initializeDockerMode sampleConstants (sampleDockerEnv sampleConfig sampleAppInfoNoPorts)
      sampleFresh).map (fun r => (r.1, isCtxInitialized r.2)) = .ok (EZMQX_OK, some true) ∧
    (initializeDockerMode sampleConstants (sampleDockerEnv sampleConfig sampleAppInfoNoPublicPort)
      sampleFresh).map (fun r => (r.1, isCtxInitialized r.2)) = .ok (EZMQX_OK, some true) :=
  ⟨rfl, rfl, rfl, rfl, rfl, rfl, rfl, rfl, rfl, rfl, rfl, rfl⟩

/-- C8, as stated, fails: on a Context that a stand-alone initialization has
marked initialized, a Docker-mode initialization whose configuration
resource has no `nodeAddress` returns `EZMQX_REST_ERROR` and the Context is
still marked initialized. -/
theorem failed_init_on_initialized_context :
    isCtxInitialized sampleStandAlone = some true ∧
    (initializeDockerMode sampleConstants (sampleDockerEnv sampleConfigNoNode sampleAppInfo)
      sampleStandAlone).map (fun r => (r.1, isCtxInitialized r.2))
      = .ok (EZMQX_REST_ERROR, some true) :=
  ⟨rfl, rfl⟩

/-- C8, as amended: an initialization that returns a non-OK code leaves the
`initialized` flag as it was before the call, for `initializeDockerMode` and
for `initializeStandAloneMode`; so a Context that was not marked initialized
is not marked initialized afterwards. -/
theorem failed_init_keeps_initialized_flag (K : Constants) (c : EZMQXContext Rep) :
    (∀ (env : DockerEnv) (r : EZMQXErrorCode × EZMQXContext Rep),
      initializeDockerMode K env c = .ok r → r.1 ≠ EZMQX_OK →
      isCtxInitialized r.2 = isCtxInitialized c) ∧
    (∀ (ezmqInitOk useTns : Bool) (tnsAddr : String),
      (initializeStandAloneMode K ezmqInitOk c useTns tnsAddr).1 ≠ EZMQX_OK →
      isCtxInitialized (initializeStandAloneMode K ezmqInitOk c useTns tnsAddr).2
        = isCtxInitialized c) := by
  constructor
  · intro env r h hne
    rcases initializeDockerMode_frame K env c r h with ⟨_, hf⟩ | ⟨hok, _⟩
    · exact hf.1
    · exact absurd hok hne
  · intro ezmqInitOk useTns tnsAddr hne
    unfold initializeStandAloneMode at hne ⊢
    cases ezmqInitOk
    · rfl
    · exact absurd rfl hne

/-- A fresh Context and a configuration resource without `nodeAddress`: Docker-mode initialization returns `EZMQX_REST_ERROR` and the Context is not marked initialized. -/
theorem failed_init_keeps_initialized_flag_witness :
    initializeDockerMode sampleConstants (sampleDockerEnv sampleConfigNoNode sampleAppInfo)
      sampleFresh
      = .ok (EZMQX_REST_ERROR, { sampleFresh with tnsEnabled := true, remoteAddr := "10.0.0.9" }) ∧
    isCtxInitialized ({ sampleFresh with tnsEnabled := true, remoteAddr := "10.0.0.9" } :
      EZMQXContext String) = isCtxInitialized sampleFresh ∧
    isCtxInitialized sampleFresh = some false :=
  ⟨rfl,
    (failed_init_keeps_initialized_flag sampleConstants sampleFresh).1
      (sampleDockerEnv sampleConfigNoNode sampleAppInfo)
      (EZMQX_REST_ERROR, { sampleFresh with tnsEnabled := true, remoteAddr := "10.0.0.9" })
      rfl (by decide),
    rfl⟩

/-! ## Claims on the model cache -/

theorem addAmlRepLoop_keeps_entries (create : String → Option Rep) (getId : Rep → Option String)
    (paths : List String) :
    ∀ (ids : List String) (c : EZMQXContext Rep) (id0 : String) (rep0 : Rep),
      AList.lookup id0 c.amlRepDic = some rep0 →
      AList.lookup id0 (addAmlRepLoop create getId paths ids c).2.2.amlRepDic = some rep0 := by
  induction paths with
  | nil => intro ids c id0 rep0 h; exact h
  | cons p rest ih =>
    intro ids c id0 rep0 h
    cases hc : create p with
    | none => rw [addAmlRepLoop_create_fails create getId p rest ids c hc]; exact h
    | some repObject =>
      cases hg : getId repObject with
      | none => rw [addAmlRepLoop_getId_fails create getId p rest ids c repObject hc hg]; exact h
      | some amlModelId =>
        rw [addAmlRepLoop_step create getId p rest ids c repObject amlModelId hc hg]
        apply ih
        split
        · rename_i hnone
          have hne : id0 ≠ amlModelId := by
            rintro rfl
            rw [h] at hnone
            simp at hnone
          show AList.lookup id0 (AList.insert amlModelId repObject c.amlRepDic) = some rep0
          rw [AList.lookup_insert_ne hne]
          exact h
        · exact h

theorem addAmlRepLoop_ids (create : String → Option Rep) (getId : Rep → Option String)
    (paths : List String) :
    ∀ (ids : List String) (c : EZMQXContext Rep),
      (addAmlRepLoop create getId paths ids c).2.1 = EZMQX_OK →
      (addAmlRepLoop create getId paths ids c).1.map some
        = ids.map some ++ paths.map (modelIdOf create getId) := by
  induction paths with
  | nil => intro ids c _; simp [addAmlRepLoop]
  | cons p rest ih =>
    intro ids c hok
    cases hc : create p with
    | none =>
      rw [addAmlRepLoop_create_fails create getId p rest ids c hc] at hok
      cases hok
    | some repObject =>
      cases hg : getId repObject with
      | none =>
        rw [addAmlRepLoop_getId_fails create getId p rest ids c repObject hc hg] at hok
        cases hok
      | some amlModelId =>
        rw [addAmlRepLoop_step create getId p rest ids c repObject amlModelId hc hg] at hok ⊢
        rw [ih _ _ hok]
        simp [modelIdOf, hc, hg]

theorem addAmlRep_single (create : String → Option Rep) (getId : Rep → Option String)
    (c : EZMQXContext Rep) (p : String) (rep : Rep) (id : String)
    (hc : create p = some rep) (hg : getId rep = some id) :
    addAmlRep create getId c [p] = ([id], EZMQX_OK,
      if (AList.lookup id c.amlRepDic).isNone then
        { c with amlRepDic := c.amlRepDic.insert id rep } else c) := by
  unfold addAmlRep
  rw [addAmlRepLoop_step create getId p [] [] c rep id hc hg]
  rfl

theorem lookup_after_single (c : EZMQXContext Rep) (rep : Rep) (id : String) :
    AList.lookup id (if (AList.lookup id c.amlRepDic).isNone then
        { c with amlRepDic := c.amlRepDic.insert id rep } else c).amlRepDic
      = some ((AList.lookup id c.amlRepDic).getD rep) := by
  cases h : AList.lookup id c.amlRepDic with
  | none =>
    simp only [Option.isNone_none, if_true, Option.getD_none]
    exact AList.lookup_insert _
  | some r0 =>
    simp only [Option.isNone_some, Bool.false_eq_true, if_false, Option.getD_some]
    exact h

/-- C9: for a model file `p` that the library parses to `rep` with id `id`,
adding `p` twice, in one `addAmlRep` call or in two, returns `id` each time
and leaves the cache as after the first addition, with exactly one key `id`,
bound to the representation cached first; `addAmlRep` never replaces or
removes an entry of `amlRepDic`, and on success its id list is the list of
the ids of its paths, in input order. -/
theorem model_cache_first_writer_wins (CreateRepresentation : String → Option Rep)
    (GetRepresentationId : Rep → Option String) (c : EZMQXContext Rep)
    (amlFilePath : List String) (p : String) (rep : Rep) (id : String)
    (hc : CreateRepresentation p = some rep) (hg : GetRepresentationId rep = some id) :
    (addAmlRep CreateRepresentation GetRepresentationId c [p]).1 = [id] ∧
    (addAmlRep CreateRepresentation GetRepresentationId c [p]).2.1 = EZMQX_OK ∧
    addAmlRep CreateRepresentation GetRepresentationId c [p, p]
      = ([id, id], EZMQX_OK, (addAmlRep CreateRepresentation GetRepresentationId c [p]).2.2) ∧
    addAmlRep CreateRepresentation GetRepresentationId
        (addAmlRep CreateRepresentation GetRepresentationId c [p]).2.2 [p]
      = ([id], EZMQX_OK, (addAmlRep CreateRepresentation GetRepresentationId c [p]).2.2) ∧
    (addAmlRep CreateRepresentation GetRepresentationId c [p]).2.2.amlRepDic.keys.count id = 1 ∧
    AList.lookup id (addAmlRep CreateRepresentation GetRepresentationId c [p]).2.2.amlRepDic
      = some ((AList.lookup id c.amlRepDic).getD rep) ∧
    (∀ (id0 : String) (rep0 : Rep), AList.lookup id0 c.amlRepDic = some rep0 →
      AList.lookup id0
        (addAmlRep CreateRepresentation GetRepresentationId c amlFilePath).2.2.amlRepDic
        = some rep0) ∧
    ((addAmlRep CreateRepresentation GetRepresentationId c amlFilePath).2.1 = EZMQX_OK →
      (addAmlRep CreateRepresentation GetRepresentationId c amlFilePath).1.map some
        = amlFilePath.map (modelIdOf CreateRepresentation GetRepresentationId)) := by
  have h1 := addAmlRep_single CreateRepresentation GetRepresentationId c p rep id hc hg
  have hl := lookup_after_single c rep id
  have hl1 : AList.lookup id
      (addAmlRep CreateRepresentation GetRepresentationId c [p]).2.2.amlRepDic
      = some ((AList.lookup id c.amlRepDic).getD rep) := by
    rw [h1]; exact hl
  have hsecond : ∀ ids : List String,
      addAmlRepLoop CreateRepresentation GetRepresentationId [p] ids
        (addAmlRep CreateRepresentation GetRepresentationId c [p]).2.2
      = (ids ++ [id], EZMQX_OK, (addAmlRep CreateRepresentation GetRepresentationId c [p]).2.2) := by
    intro ids
    rw [addAmlRepLoop_step CreateRepresentation GetRepresentationId p [] ids _ rep id hc hg]
    simp only [hl1, Option.isNone_some, Bool.false_eq_true, if_false]
    rfl
  refine ⟨by rw [h1], by rw [h1], ?_, ?_, ?_, ?_, ?_, ?_⟩
  · have h2 : addAmlRep CreateRepresentation GetRepresentationId c [p, p]
        = addAmlRepLoop CreateRepresentation GetRepresentationId [p] [id]
            (addAmlRep CreateRepresentation GetRepresentationId c [p]).2.2 := by
      rw [h1]
      unfold addAmlRep
      rw [addAmlRepLoop_step CreateRepresentation GetRepresentationId p [p] [] c rep id hc hg]
      rfl
    rw [h2, hsecond [id]]
    rfl
  · unfold addAmlRep at hsecond ⊢
    exact hsecond []
  · apply List.count_eq_one_of_mem (AList.keys_nodup _)
    rw [← AList.mem_keys, ← AList.lookup_isSome, hl1]
    rfl
  · exact hl1
  · exact addAmlRepLoop_keeps_entries CreateRepresentation GetRepresentationId amlFilePath [] c
  · intro hok
    have := addAmlRepLoop_ids CreateRepresentation GetRepresentationId amlFilePath [] c hok
    simpa using this

/-- The file `model.aml` added twice to a fresh Context. -/
theorem model_cache_first_writer_wins_witness :
    sampleCreate "model.aml" = some "model.aml" ∧
    sampleGetId "model.aml" = some "model.aml" ∧
    addAmlRep sampleCreate sampleGetId sampleFresh ["model.aml", "model.aml"]
      = (["model.aml", "model.aml"], EZMQX_OK,
        { sampleFresh with amlRepDic := AList.insert "model.aml" "model.aml" ∅ }) ∧
    (addAmlRep sampleCreate sampleGetId sampleFresh ["model.aml"]).2.2.amlRepDic.keys.count
      "model.aml" = 1 :=
  have h := model_cache_first_writer_wins sampleCreate sampleGetId sampleFresh []
    "model.aml" "model.aml" "model.aml" rfl rfl
  ⟨rfl, rfl, rfl, h.2.2.2.2.1⟩

theorem addAmlRepLoop_append (create : String → Option Rep) (getId : Rep → Option String)
    (pre : List String) :
    ∀ (rest ids : List String) (c : EZMQXContext Rep),
      (∀ p ∈ pre, ∃ id, modelIdOf create getId p = some id) →
      addAmlRepLoop create getId (pre ++ rest) ids c
        = addAmlRepLoop create getId rest (addAmlRepLoop create getId pre ids c).1
            (addAmlRepLoop create getId pre ids c).2.2 := by
  induction pre with
  | nil => intro rest ids c _; rfl
  | cons p pre ih =>
    intro rest ids c hall
    obtain ⟨id, hid⟩ := hall p (List.mem_cons_self p pre)
    unfold modelIdOf at hid
    cases hc : create p with
    | none => rw [hc] at hid; cases hid
    | some repObject =>
      rw [hc] at hid
      have hg : getId repObject = some id := hid
      rw [List.cons_append,
        addAmlRepLoop_step create getId p (pre ++ rest) ids c repObject id hc hg,
        addAmlRepLoop_step create getId p pre ids c repObject id hc hg]
      exact ih rest _ _ (fun q hq => hall q (List.mem_cons_of_mem p hq))

/-- C10, as amended: for a path list `pre ++ [bad] ++ post` in which every
path of `pre` parses (both calls of the data-model library succeed) and `bad`
does not, `addAmlRep` returns `EZMQX_INVALID_AML_MODEL` when
`CreateRepresentation` fails on `bad`, and `EZMQX_INVALID_PARAM` when
`GetRepresentationId` fails on the representation of `bad`; in both cases the
Context afterwards is the one obtained by adding `pre` alone, and the
returned id list is the list of the ids of `pre`, in order. -/
theorem batch_abort_without_rollback (CreateRepresentation : String → Option Rep)
    (GetRepresentationId : Rep → Option String) (c : EZMQXContext Rep)
    (pre post : List String) (bad : String)
    (hpre : ∀ p ∈ pre, ∃ id, modelIdOf CreateRepresentation GetRepresentationId p = some id)
    (hbad : modelIdOf CreateRepresentation GetRepresentationId bad = none) :
    addAmlRep CreateRepresentation GetRepresentationId c (pre ++ [bad] ++ post)
      = ((addAmlRep CreateRepresentation GetRepresentationId c pre).1,
        (match CreateRepresentation bad with
          | none => EZMQX_INVALID_AML_MODEL
          | some _ => EZMQX_INVALID_PARAM),
        (addAmlRep CreateRepresentation GetRepresentationId c pre).2.2) ∧
    (addAmlRep CreateRepresentation GetRepresentationId c pre).2.1 = EZMQX_OK ∧
    (addAmlRep CreateRepresentation GetRepresentationId c pre).1.map some
      = pre.map (modelIdOf CreateRepresentation GetRepresentationId) := by
  have hok := addAmlRepLoop_all_parse CreateRepresentation GetRepresentationId pre [] c hpre
  refine ⟨?_, hok, ?_⟩
  · unfold addAmlRep
    rw [List.append_assoc,
      addAmlRepLoop_append CreateRepresentation GetRepresentationId pre _ [] c hpre,
      List.singleton_append]
    cases hc : CreateRepresentation bad with
    | none =>
      rw [addAmlRepLoop_create_fails CreateRepresentation GetRepresentationId bad post _ _ hc]
    | some repObject =>
      have hg : GetRepresentationId repObject = none := by
        unfold modelIdOf at hbad
        rw [hc] at hbad
        exact hbad
      rw [addAmlRepLoop_getId_fails CreateRepresentation GetRepresentationId bad post _ _
        repObject hc hg]
  · have := addAmlRepLoop_ids CreateRepresentation GetRepresentationId pre [] c hok
    simpa using this

/-- A batch of four files whose third has no representation, and one whose
third has a representation without an id. -/
theorem batch_abort_without_rollback_witness :
    (∀ p ∈ ["a.aml", "b.aml"], ∃ id, modelIdOf sampleCreate sampleGetIdPartial p = some id) ∧
    modelIdOf sampleCreate sampleGetIdPartial "bad.aml" = none ∧
    modelIdOf sampleCreate sampleGetIdPartial "noid.aml" = none ∧
    addAmlRep sampleCreate sampleGetIdPartial sampleFresh
        (["a.aml", "b.aml"] ++ ["bad.aml"] ++ ["c.aml"])
      = (["a.aml", "b.aml"], EZMQX_INVALID_AML_MODEL,
        { sampleFresh with
          amlRepDic := AList.insert "b.aml" "b.aml" (AList.insert "a.aml" "a.aml" ∅) }) ∧
    addAmlRep sampleCreate sampleGetIdPartial sampleFresh
        (["a.aml", "b.aml"] ++ ["noid.aml"] ++ ["c.aml"])
      = (["a.aml", "b.aml"], EZMQX_INVALID_PARAM,
        { sampleFresh with
          amlRepDic := AList.insert "b.aml" "b.aml" (AList.insert "a.aml" "a.aml" ∅) }) ∧
    addAmlRep sampleCreate sampleGetIdPartial sampleFresh ["a.aml", "b.aml"]
      = (["a.aml", "b.aml"], EZMQX_OK,
        { sampleFresh with
          amlRepDic := AList.insert "b.aml" "b.aml" (AList.insert "a.aml" "a.aml" ∅) }) :=
  have hpre : ∀ p ∈ ["a.aml", "b.aml"],
      ∃ id, modelIdOf sampleCreate sampleGetIdPartial p = some id := by
    intro p hp
    simp only [List.mem_cons, List.mem_singleton, List.not_mem_nil, or_false] at hp
    rcases hp with rfl | rfl
    · exact ⟨"a.aml", rfl⟩
    · exact ⟨"b.aml", rfl⟩
  ⟨hpre, rfl, rfl,
    (batch_abort_without_rollback sampleCreate sampleGetIdPartial sampleFresh
      ["a.aml", "b.aml"] ["c.aml"] "bad.aml" hpre rfl).1.trans rfl,
    (batch_abort_without_rollback sampleCreate sampleGetIdPartial sampleFresh
      ["a.aml", "b.aml"] ["c.aml"] "noid.aml" hpre rfl).1.trans rfl,
    rfl⟩

/-- C10, as stated, fails: the file `noid.aml` has a representation without an
id, so it does not parse, and `addAmlRep` on `a.aml`, `noid.aml`, `c.aml`
returns `EZMQX_INVALID_PARAM`, not `EZMQX_INVALID_AML_MODEL`; the model of
`a.aml` stays cached and nothing of `c.aml` is. -/
theorem unidentified_model_returns_invalid_param :
    (∀ p ∈ ["a.aml"], ∃ id, modelIdOf sampleCreate sampleGetIdPartial p = some id) ∧
    sampleCreate "noid.aml" = some "noid.aml" ∧
    sampleGetIdPartial "noid.aml" = none ∧
    modelIdOf sampleCreate sampleGetIdPartial "noid.aml" = none ∧
    addAmlRep sampleCreate sampleGetIdPartial sampleFresh (["a.aml"] ++ ["noid.aml"] ++ ["c.aml"])
      = (["a.aml"], EZMQX_INVALID_PARAM,
        { sampleFresh with amlRepDic := AList.insert "a.aml" "a.aml" ∅ }) ∧
    (addAmlRep sampleCreate sampleGetIdPartial sampleFresh
      (["a.aml"] ++ ["noid.aml"] ++ ["c.aml"])).2.1 ≠ EZMQX_INVALID_AML_MODEL :=
  ⟨fun p hp => ⟨"a.aml", by
      simp only [List.mem_singleton] at hp
      subst hp
      rfl⟩,
    rfl, rfl, rfl, rfl, by decide⟩

/-! ## Claims on the host endpoint -/

theorem GoMap.get_eq_zero_iff (m : GoMap Int Int) (port : Int) :
    GoMap.get m port 0 = 0 ↔ AList.lookup port m = none ∨ AList.lookup port m = some 0 := by
  unfold GoMap.get
  cases h : AList.lookup port m with
  | none => simp
  | some v => simp

/-- C11, as stated, fails: after a Docker-mode initialization whose detail
resource records public port 0 for private port 4000, the NAT table has an
entry for 4000 and `getHostEp(4000)` still returns `(nil, EZMQX_UNKNOWN_STATE)`. -/
theorem recorded_zero_port_is_unknown :
    initializeDockerMode sampleConstants (sampleDockerEnv sampleConfig sampleAppInfoZeroPort)
      sampleFresh = .ok (EZMQX_OK, { sampleDocker with ports := AList.insert 4000 0 ∅ }) ∧
    AList.lookup 4000 ({ sampleDocker with ports := AList.insert 4000 0 ∅ } :
      EZMQXContext String).ports = some 0 ∧
    getHostEp ({ sampleDocker with ports := AList.insert 4000 0 ∅ } : EZMQXContext String) 4000
      = (none, EZMQX_UNKNOWN_STATE) :=
  ⟨rfl, rfl, rfl⟩

/-- C11, as amended: in stand-alone mode `getHostEp(port)` returns `EZMQX_OK`
with the endpoint `(hostAddr, port)` for every port; in container mode it
returns `EZMQX_OK` with `(hostAddr, ports[port])` when `ports[port]` is not 0,
and returns `(nil, EZMQX_UNKNOWN_STATE)` exactly when `ports[port]` is 0, that
is when the private port has no recorded mapping or its recorded public port
is 0. -/
theorem host_endpoint_contract (c : EZMQXContext Rep) (port : Int) :
    (isCtxStandAlone c = true →
      getHostEp c port = (some { addr := c.hostAddr, port := port }, EZMQX_OK)) ∧
    (isCtxStandAlone c = false → c.ports.get port 0 ≠ 0 →
      getHostEp c port = (some { addr := c.hostAddr, port := c.ports.get port 0 }, EZMQX_OK)) ∧
    (isCtxStandAlone c = false →
      (getHostEp c port = (none, EZMQX_UNKNOWN_STATE) ↔
        (AList.lookup port c.ports = none ∨ AList.lookup port c.ports = some 0))) := by
  refine ⟨?_, ?_, ?_⟩
  · intro hs
    unfold isCtxStandAlone at hs
    unfold getHostEp
    rw [if_pos hs]
  · intro hs hne
    unfold isCtxStandAlone at hs
    unfold getHostEp
    simp [hs, hne]
  · intro hs
    unfold isCtxStandAlone at hs
    rw [← GoMap.get_eq_zero_iff]
    unfold getHostEp
    by_cases h0 : c.ports.get port 0 = 0
    · simp [hs, h0]
    · simp [hs, h0]

/-- The endpoints of the sample networked Context and of the sample stand-alone Context. -/
theorem host_endpoint_contract_witness :
    isCtxStandAlone sampleDocker = false ∧ sampleDocker.ports.get 4000 0 ≠ 0 ∧
    getHostEp sampleDocker 4000 = (some { addr := "10.0.0.5", port := 32768 }, EZMQX_OK) ∧
    getHostEp sampleDocker 4001 = (none, EZMQX_UNKNOWN_STATE) ∧
    getHostEp sampleStandAlone 4001 = (some { addr := "localhost", port := 4001 }, EZMQX_OK) :=
  ⟨rfl, by decide, (host_endpoint_contract sampleDocker 4000).2.1 rfl (by decide),
    ((host_endpoint_contract sampleDocker 4001).2.2 rfl).mpr (Or.inl rfl),
    (host_endpoint_contract sampleStandAlone 4001).1 rfl⟩

/-! ## Further claims on the port pool -/

/-- C17: in every reachable Context state, with `LOCAL_PORT_MAX > 0`, the loop
of `assignDynamicPort` returns within `LOCAL_PORT_MAX` iterations, each of
which inspects one port index, with the same result for every larger bound;
it returns `EZMQX_OK` whenever `numOfPort < LOCAL_PORT_MAX` and
`EZMQX_MAXIMUM_PORT_EXCEED` otherwise. -/
theorem assign_scan_is_bounded (K : Constants) (CreateRepresentation : String → Option Rep)
    (GetRepresentationId : Rep → Option String) (c : EZMQXContext Rep)
    (hK : 0 < K.LOCAL_PORT_MAX)
    (hr : Reachable K CreateRepresentation GetRepresentationId c) :
    ∃ (port : Int) (code : EZMQXErrorCode) (c1 : EZMQXContext Rep),
      (∀ fuel : Nat, K.LOCAL_PORT_MAX.toNat ≤ fuel →
        assignDynamicPort K fuel c = some (port, code, c1)) ∧
      (c.numOfPort < K.LOCAL_PORT_MAX → code = EZMQX_OK) ∧
      (K.LOCAL_PORT_MAX ≤ c.numOfPort → code = EZMQX_MAXIMUM_PORT_EXCEED) := by
  have hc := reachable_portPoolInv K hK CreateRepresentation GetRepresentationId c hr
  by_cases hlt : c.numOfPort < K.LOCAL_PORT_MAX
  · obtain ⟨k, hk, hused, hfree⟩ := exists_first_free K c hc hlt
    refine ⟨K.LOCAL_PORT_START + (c.usedIdx + k) % K.LOCAL_PORT_MAX, EZMQX_OK,
      { c with
        usedIdx := (c.usedIdx + k) % K.LOCAL_PORT_MAX
        usedPorts := c.usedPorts.insert
          (K.LOCAL_PORT_START + (c.usedIdx + k) % K.LOCAL_PORT_MAX) true
        numOfPort := c.numOfPort + 1 },
      ?_, fun _ => rfl, fun h => absurd hlt (by omega)⟩
    intro fuel hfuel
    exact assignDynamicPort_scan K k c fuel hlt hc.cursor_nonneg hc.cursor_lt hused hfree
      (by omega)
  · refine ⟨-1, EZMQX_MAXIMUM_PORT_EXCEED, c, ?_, fun h => absurd h hlt, fun _ => rfl⟩
    intro fuel hfuel
    obtain ⟨f, rfl⟩ : ∃ f, fuel = f + 1 := ⟨fuel - 1, by omega⟩
    exact assignDynamicPort_full K c f (by omega)

/-- The scan on the sample pool with one free port. -/
theorem assign_scan_is_bounded_witness :
    0 < sampleConstants.LOCAL_PORT_MAX ∧
    Reachable sampleConstants sampleCreate sampleGetId sampleReleased ∧
    ∃ (port : Int) (code : EZMQXErrorCode) (c1 : EZMQXContext String),
      (∀ fuel : Nat, sampleConstants.LOCAL_PORT_MAX.toNat ≤ fuel →
        assignDynamicPort sampleConstants fuel sampleReleased = some (port, code, c1)) ∧
      (sampleReleased.numOfPort < sampleConstants.LOCAL_PORT_MAX → code = EZMQX_OK) ∧
      (sampleConstants.LOCAL_PORT_MAX ≤ sampleReleased.numOfPort →
        code = EZMQX_MAXIMUM_PORT_EXCEED) :=
  have hr : Reachable sampleConstants sampleCreate sampleGetId sampleReleased :=
    Reachable.release 4000 sampleFull_reachable
  ⟨by decide, hr,
    assign_scan_is_bounded sampleConstants sampleCreate sampleGetId sampleReleased (by decide) hr⟩

/-- C18, as stated, fails: the first assignment on a fresh Context hands out
`LOCAL_PORT_START + 0` and leaves the cursor on 0, not on `(0 + 1) mod 3`. -/
theorem assign_does_not_advance_cursor :
    assignDynamicPort sampleConstants 1 sampleFresh = some (4000, EZMQX_OK, sampleOnePort) ∧
    (4000 : Int) = sampleConstants.LOCAL_PORT_START + 0 ∧
    sampleOnePort.usedIdx = 0 ∧
    sampleOnePort.usedIdx ≠ (0 + 1) % sampleConstants.LOCAL_PORT_MAX :=
  ⟨rfl, by decide, rfl, by decide⟩

/-- C18, as amended: after a call of `assignDynamicPort` that returns the port
`LOCAL_PORT_START + j` with `EZMQX_OK`, the cursor `usedIdx` equals `j`: it
rests on the index just handed out, which is now marked used. -/
theorem assign_leaves_cursor_on_port (K : Constants) (fuel : Nat) (c c1 : EZMQXContext Rep)
    (port : Int) (h : assignDynamicPort K fuel c = some (port, EZMQX_OK, c1)) :
    port = K.LOCAL_PORT_START + c1.usedIdx ∧ c1.usedPorts.get port false = true := by
  induction fuel generalizing c with
  | zero => simp [assignDynamicPort] at h
  | succ f ih =>
    unfold assignDynamicPort at h
    split at h
    · cases h
    · simp only at h
      split at h
      · exact ih _ h
      · cases h
        refine ⟨rfl, ?_⟩
        show GoMap.get (AList.insert _ true c.usedPorts) _ false = true
        rw [GoMap.get_insert, if_pos rfl]

/-- The wrap-around scan on the sample pool: port 4000 is handed out and the cursor rests on index 0. -/
theorem assign_leaves_cursor_on_port_witness :
    assignDynamicPort sampleConstants 2 sampleReleased
      = some (4000, EZMQX_OK,
        { sampleReleased with
          usedIdx := 0, usedPorts := AList.insert 4000 true sampleReleased.usedPorts,
          numOfPort := 3 }) ∧
    (4000 : Int) = sampleConstants.LOCAL_PORT_START + 0 :=
  ⟨rfl, (assign_leaves_cursor_on_port sampleConstants 2 sampleReleased
    { sampleReleased with
      usedIdx := 0, usedPorts := AList.insert 4000 true sampleReleased.usedPorts,
      numOfPort := 3 } 4000 rfl).1⟩

/-! ## Claims on the life-cycle flags -/

theorem assignDynamicPort_flags (K : Constants) (fuel : Nat) :
    ∀ (c : EZMQXContext Rep) (r : Int × EZMQXErrorCode × EZMQXContext Rep),
      assignDynamicPort K fuel c = some r →
      r.2.2.initialized = c.initialized ∧ r.2.2.terminated = c.terminated := by
  induction fuel with
  | zero => intro c r h; simp [assignDynamicPort] at h
  | succ f ih =>
    intro c r h
    unfold assignDynamicPort at h
    split at h
    · cases h; exact ⟨rfl, rfl⟩
    · simp only at h
      split at h
      · have h2 := ih _ _ h
        exact h2
      · cases h; exact ⟨rfl, rfl⟩

theorem addAmlRepLoop_flags (create : String → Option Rep) (getId : Rep → Option String)
    (paths : List String) :
    ∀ (ids : List String) (c : EZMQXContext Rep),
      (addAmlRepLoop create getId paths ids c).2.2.initialized = c.initialized ∧
      (addAmlRepLoop create getId paths ids c).2.2.terminated = c.terminated := by
  induction paths with
  | nil => intro ids c; exact ⟨rfl, rfl⟩
  | cons p rest ih =>
    intro ids c
    cases hc : create p with
    | none => rw [addAmlRepLoop_create_fails create getId p rest ids c hc]; exact ⟨rfl, rfl⟩
    | some repObject =>
      cases hg : getId repObject with
      | none =>
        rw [addAmlRepLoop_getId_fails create getId p rest ids c repObject hc hg]
        exact ⟨rfl, rfl⟩
      | some amlModelId =>
        rw [addAmlRepLoop_step create getId p rest ids c repObject amlModelId hc hg]
        obtain ⟨b1, b2⟩ := ih (ids ++ [amlModelId])
          (if (AList.lookup amlModelId c.amlRepDic).isNone then
            { c with amlRepDic := c.amlRepDic.insert amlModelId repObject } else c)
        refine ⟨b1.trans ?_, b2.trans ?_⟩ <;> split <;> rfl

theorem reachable_flags (K : Constants) (create : String → Option Rep)
    (getId : Rep → Option String) (c : EZMQXContext Rep) (h : Reachable K create getId c) :
    (∃ b, c.initialized = some b) ∧
    ¬ (c.initialized = some true ∧ c.terminated = some true) := by
  induction h with
  | fresh => exact ⟨⟨false, rfl⟩, fun h => by cases h.1⟩
  | assign _ hstep ih =>
    obtain ⟨h1, h2⟩ := assignDynamicPort_flags K _ _ _ hstep
    simp only at h1 h2
    rw [h1, h2]; exact ih
  | @release c0 port _ ih =>
    have h1 : (releaseDynamicPort c0 port).2.initialized = c0.initialized := by
      unfold releaseDynamicPort; split <;> rfl
    have h2 : (releaseDynamicPort c0 port).2.terminated = c0.terminated := by
      unfold releaseDynamicPort; split <;> rfl
    rw [h1, h2]; exact ih
  | @terminate c0 ok _ ih =>
    by_cases ht : c0.terminated = some true
    · rw [terminate_of_terminated c0 ok ht]; exact ih
    · rw [terminate_of_not_terminated c0 ok ht]
      exact ⟨⟨false, rfl⟩, fun h => by cases h.1⟩
  | @standAlone c0 ok useTns tnsAddr _ ih =>
    unfold initializeStandAloneMode
    cases ok
    · exact ih
    · exact ⟨⟨true, rfl⟩, fun h => by cases h.2⟩
  | docker _ hstep ih =>
    rcases initializeDockerMode_frame K _ _ _ hstep with ⟨_, hf⟩ | ⟨_, c3, _, he⟩
    · simp only at hf
      rw [hf.1, hf.2.1]; exact ih
    · simp only at he
      rw [he]
      exact ⟨⟨true, rfl⟩, fun h => by cases h.2⟩
  | @addAml c0 paths _ ih =>
    obtain ⟨h1, h2⟩ := addAmlRepLoop_flags create getId paths [] c0
    unfold addAmlRep
    rw [h1, h2]; exact ih

/-- C20, the code on a fresh Context: `getContextInstance` stores `initialized`
and never stores `terminated`, so `isCtxInitialized()` returns false while
`isCtxTerminated()` is a failed type assertion on a `nil` value; in every
reachable state `isCtxInitialized()` returns a boolean and the two flags are
never both true. -/
theorem fresh_context_terminated_flag_unset (K : Constants)
    (CreateRepresentation : String → Option Rep) (GetRepresentationId : Rep → Option String)
    (c : EZMQXContext Rep) :
    isCtxInitialized (getContextInstance none : EZMQXContext Rep) = some false ∧
    isCtxTerminated (getContextInstance none : EZMQXContext Rep) = none ∧
    (Reachable K CreateRepresentation GetRepresentationId c →
      (∃ b, isCtxInitialized c = some b) ∧
      ¬ (isCtxInitialized c = some true ∧ isCtxTerminated c = some true)) :=
  ⟨rfl, rfl, reachable_flags K CreateRepresentation GetRepresentationId c⟩

/-! ## Claims on the publisher -/

theorem publisherTerminate_not_initialized (K : Constants) (T : TnsConstants) (env : PublisherEnv)
    (pub : EZMQXPublisher) (c : EZMQXContext Rep) (h : pub.status ≠ INITIALIZED) :
    publisherTerminate K T env pub c = .ok (EZMQX_UNKNOWN_STATE, pub, c) := by
  unfold publisherTerminate
  rw [if_pos h]

theorem publisherTerminate_cases (K : Constants) (T : TnsConstants) (env : PublisherEnv)
    (pub : EZMQXPublisher) (c : EZMQXContext Rep)
    (r : EZMQXErrorCode × EZMQXPublisher × EZMQXContext Rep)
    (h : publisherTerminate K T env pub c = .ok r) :
    (r.1 = EZMQX_OK ∧ pub.status = INITIALIZED ∧ r.2.1.status = CREATED) ∨
    (r.1 = EZMQX_UNKNOWN_STATE ∧ r.2.1.status = pub.status) := by
  by_cases hst : pub.status = INITIALIZED
  · unfold publisherTerminate at h
    rw [if_neg (by simp [hst])] at h
    simp only at h
    repeat' split at h
    all_goals first
      | (exact Except.noConfusion h)
      | (cases h; exact Or.inr ⟨rfl, hst.symm⟩)
      | (cases h; exact Or.inl ⟨rfl, hst, rfl⟩)
  · rw [publisherTerminate_not_initialized K T env pub c hst] at h
    cases h
    exact Or.inr ⟨rfl, rfl⟩

theorem unRegisterTopic_after_release (K : Constants) (T : TnsConstants) (env : PublisherEnv)
    (c : EZMQXContext Rep) (port : Int) (topic : Option EZMQXTopic) :
    unRegisterTopic K T env (releaseDynamicPort c port).2 topic = unRegisterTopic K T env c topic := by
  unfold releaseDynamicPort
  split <;> rfl

theorem publisherTerminate_succeeds (K : Constants) (T : TnsConstants) (env : PublisherEnv)
    (pub : EZMQXPublisher) (c : EZMQXContext Rep)
    (hst : pub.status = INITIALIZED)
    (hrel : isCtxStandAlone c = true ∨ c.usedPorts.get pub.localPort false = true)
    (hunreg : unRegisterTopic K T env c pub.topic = .ok EZMQX_OK)
    (hstop : pub.ezmqPublisher = none ∨ env.stopOk = true) :
    publisherTerminate K T env pub c = .ok (EZMQX_OK, { pub with status := CREATED },
      if isCtxStandAlone c then c else (releaseDynamicPort c pub.localPort).2) := by
  have hstopb : (pub.ezmqPublisher.isSome && !env.stopOk) = false := by
    rcases hstop with h | h
    · rw [h]; rfl
    · rw [h]; simp
  have htns : ∀ c0 : EZMQXContext Rep, unRegisterTopic K T env c0 pub.topic = .ok EZMQX_OK →
      (if isCtxTnsEnabled c0 = true then unRegisterTopic K T env c0 pub.topic
        else (.ok EZMQX_OK : Except GoPanic EZMQXErrorCode)) = .ok EZMQX_OK := by
    intro c0 h0
    split
    · exact h0
    · rfl
  unfold publisherTerminate
  rw [if_neg (by simp [hst])]
  cases hs : isCtxStandAlone c with
  | true =>
    simp only [hs, Bool.not_true, Bool.false_eq_true, if_false, ne_eq, not_true_eq_false,
      if_true, htns c hunreg, hstopb]
  | false =>
    have hused : c.usedPorts.get pub.localPort false = true := by
      rcases hrel with h | h
      · rw [hs] at h; cases h
      · exact h
    have hrelease : releaseDynamicPort c pub.localPort = (EZMQX_OK,
        { c with usedPorts := c.usedPorts.insert pub.localPort false,
                 numOfPort := c.numOfPort - 1 }) := by
      unfold releaseDynamicPort
      rw [if_neg (by simp [hused])]
    have hun2 := unRegisterTopic_after_release K T env c pub.localPort pub.topic
    rw [hrelease] at hun2
    simp only [hs, Bool.not_false, if_true, hrelease, ne_eq, not_true_eq_false, if_false,
      Bool.false_eq_true, htns _ (hun2.trans hunreg), hstopb]

theorem publisherTerminateRun_not_initialized (K : Constants) (T : TnsConstants)
    (envs : List PublisherEnv) (pub : EZMQXPublisher) (c : EZMQXContext Rep)
    (h : pub.status ≠ INITIALIZED) :
    publisherTerminateRun K T envs pub c = List.replicate envs.length EZMQX_UNKNOWN_STATE := by
  induction envs with
  | nil => rfl
  | cons env rest ih =>
    unfold publisherTerminateRun
    rw [publisherTerminate_not_initialized K T env pub c h]
    simp only [List.length_cons, List.replicate_succ, ih]

theorem publisherTerminateRun_count (K : Constants) (T : TnsConstants)
    (envs : List PublisherEnv) :
    ∀ (pub : EZMQXPublisher) (c : EZMQXContext Rep),
      (publisherTerminateRun K T envs pub c).count EZMQX_OK ≤ 1 := by
  induction envs with
  | nil => intro pub c; simp [publisherTerminateRun]
  | cons env rest ih =>
    intro pub c
    unfold publisherTerminateRun
    cases hres : publisherTerminate K T env pub c with
    | error e => simp
    | ok r =>
      obtain ⟨code, p1, c1⟩ := r
      rcases publisherTerminate_cases K T env pub c _ hres with ⟨hc, _, hs⟩ | ⟨hc, _⟩
      · simp only at hc hs
        subst hc
        dsimp only
        rw [publisherTerminateRun_not_initialized K T rest p1 c1 (by rw [hs]; decide)]
        simp [List.count_cons, List.count_replicate]
      · simp only at hc
        subst hc
        dsimp only
        have := ih p1 c1
        simpa [List.count_cons] using this

theorem publisherInitialize_ok_status (K : Constants) (env : PublisherEnv) (fuel : Nat)
    (pub0 : EZMQXPublisher) (c0 : EZMQXContext Rep) (optionalPort : Int)
    (pub : EZMQXPublisher) (c : EZMQXContext Rep)
    (h : publisherInitialize K env fuel pub0 c0 optionalPort = some (.ok (EZMQX_OK, pub, c))) :
    pub.status = INITIALIZED := by
  unfold publisherInitialize at h
  cases hi : isCtxInitialized c0 with
  | none => simp [hi] at h
  | some b =>
    cases b with
    | false => simp [hi] at h
    | true =>
      simp only [hi] at h
      split at h
      · cases h
      · rename_i error i1 c1 _
        by_cases he : error = EZMQX_OK
        · subst he
          simp only [ne_eq, not_true_eq_false, if_false] at h
          by_cases hcr : env.createOk i1.localPort = true
          · by_cases hsr : env.startOk i1.localPort = true
            · simp only [hcr, hsr, if_true, Bool.not_true, Bool.false_eq_true, if_false,
                Option.some.injEq, Except.ok.injEq, Prod.mk.injEq, reduceCtorEq, true_and] at h
              rw [← h.1]
            · simp [hcr, hsr] at h
          · simp [hcr] at h
        · rw [if_pos he] at h
          simp only [Option.some.injEq, Except.ok.injEq, Prod.mk.injEq] at h
          exact absurd h.1 he

theorem unRegisterTopic_returns (K : Constants) (T : TnsConstants) (env : PublisherEnv)
    (c : EZMQXContext Rep) (topic : Option EZMQXTopic)
    (h : isCtxTnsEnabled c = false ∨ topic ≠ none) :
    ∃ code, unRegisterTopic K T env c topic = .ok code := by
  unfold unRegisterTopic
  cases htns : isCtxTnsEnabled c with
  | false => exact ⟨EZMQX_OK, by simp⟩
  | true =>
    cases topic with
    | none =>
      rcases h with h | h
      · rw [htns] at h; cases h
      · exact absurd rfl h
    | some t =>
      simp only [Bool.not_true, Bool.false_eq_true, if_false]
      split
      · exact ⟨_, rfl⟩
      · split
        · exact ⟨_, rfl⟩
        · split <;> exact ⟨_, rfl⟩

theorem unRegisterTopic_nil_topic (K : Constants) (T : TnsConstants) (env : PublisherEnv)
    (c : EZMQXContext Rep) (h : isCtxTnsEnabled c = true) :
    unRegisterTopic K T env c none = .error .nilDereference := by
  unfold unRegisterTopic
  simp [h]

theorem unRegisterTopic_tns_disabled (K : Constants) (T : TnsConstants) (env : PublisherEnv)
    (c : EZMQXContext Rep) (topic : Option EZMQXTopic) (h : isCtxTnsEnabled c = false) :
    unRegisterTopic K T env c topic = .ok EZMQX_OK := by
  unfold unRegisterTopic
  simp [h]

theorem publisherTerminate_release_fails (K : Constants) (T : TnsConstants) (env : PublisherEnv)
    (pub : EZMQXPublisher) (c : EZMQXContext Rep)
    (hst : pub.status = INITIALIZED) (hs : isCtxStandAlone c = false)
    (hfree : c.usedPorts.get pub.localPort false = false) :
    publisherTerminate K T env pub c = .ok (EZMQX_UNKNOWN_STATE, pub, c) := by
  have hrelease : releaseDynamicPort c pub.localPort = (EZMQX_RELEASE_WRONG_PORT, c) := by
    unfold releaseDynamicPort
    rw [if_pos hfree]
  have hpub : ({ pub with status := INITIALIZED } : EZMQXPublisher) = pub := by
    cases pub; simp only at hst; subst hst; rfl
  unfold publisherTerminate
  rw [if_neg (by simp [hst])]
  simp only [hs, Bool.not_false, if_true, hrelease, ne_eq, reduceCtorEq, not_false_eq_true, hpub]

theorem publisherTerminate_after_release (K : Constants) (T : TnsConstants) (env : PublisherEnv)
    (pub : EZMQXPublisher) (c : EZMQXContext Rep)
    (hst : pub.status = INITIALIZED)
    (hrel : isCtxStandAlone c = true ∨ c.usedPorts.get pub.localPort false = true) :
    publisherTerminate K T env pub c =
      match unRegisterTopic K T env c pub.topic with
      | .error e => .error e
      | .ok result =>
        if result ≠ EZMQX_OK then
          .ok (EZMQX_UNKNOWN_STATE, pub,
            if isCtxStandAlone c then c else (releaseDynamicPort c pub.localPort).2)
        else if pub.ezmqPublisher.isSome && !env.stopOk then
          .ok (EZMQX_UNKNOWN_STATE, pub,
            if isCtxStandAlone c then c else (releaseDynamicPort c pub.localPort).2)
        else
          .ok (EZMQX_OK, { pub with status := CREATED },
            if isCtxStandAlone c then c else (releaseDynamicPort c pub.localPort).2) := by
  have hpub : ({ pub with status := INITIALIZED } : EZMQXPublisher) = pub := by
    cases pub; simp only at hst; subst hst; rfl
  have htns : ∀ c0 : EZMQXContext Rep,
      (if isCtxTnsEnabled c0 = true then unRegisterTopic K T env c0 pub.topic
        else (.ok EZMQX_OK : Except GoPanic EZMQXErrorCode)) = unRegisterTopic K T env c0 pub.topic := by
    intro c0
    split
    · rfl
    · rename_i hd
      rw [unRegisterTopic_tns_disabled K T env c0 pub.topic (by simpa using hd)]
  unfold publisherTerminate
  rw [if_neg (by simp [hst])]
  cases hs : isCtxStandAlone c with
  | true =>
    simp only [Bool.not_true, Bool.false_eq_true, if_false, ne_eq, not_true_eq_false,
      if_true, htns c, hpub]
  | false =>
    have hused : c.usedPorts.get pub.localPort false = true := by
      rcases hrel with h | h
      · rw [hs] at h; cases h
      · exact h
    have hrelease : releaseDynamicPort c pub.localPort = (EZMQX_OK,
        { c with usedPorts := c.usedPorts.insert pub.localPort false,
                 numOfPort := c.numOfPort - 1 }) := by
      unfold releaseDynamicPort
      rw [if_neg (by simp [hused])]
    have hun2 := unRegisterTopic_after_release K T env c pub.localPort pub.topic
    rw [hrelease] at hun2
    have hcomb := (htns _).trans hun2
    simp only [Bool.not_false, if_true, hrelease, ne_eq, not_true_eq_false, if_false,
      Bool.false_eq_true, hcomb, hpub]


/-- C12, the code at the failing input: a publisher initialized on the
networked, TNS-enabled sample Context has no topic until `registerTopic` is
called, and its `terminate()` does not return `EZMQX_UNKNOWN_STATE`: it
releases port 4000 and then dereferences the `nil` topic in `unRegisterTopic`;
so does every `INITIALIZED` publisher without a topic whose port release
succeeds while TNS is enabled. On every other input `terminate()` returns,
and as the claim says: a publisher that is not `INITIALIZED` gets
`EZMQX_UNKNOWN_STATE` and nothing changes; a failed port release, a failed
unregistration and a failed transport stop each give `EZMQX_UNKNOWN_STATE`
with the publisher as on entry, status `INITIALIZED`; when the three
sub-steps succeed the result is `EZMQX_OK` with status `CREATED`; among any
number of successive calls at most one returns `EZMQX_OK`, and after a first
call whose sub-steps succeed all later ones return `EZMQX_UNKNOWN_STATE`. -/
theorem publisher_terminate_without_topic (K : Constants) (T : TnsConstants) (env : PublisherEnv)
    (pub : EZMQXPublisher) (c : EZMQXContext Rep) :
    publisherInitialize sampleConstants (samplePublisherEnv true true true (some 200)) 1
        getPublisher sampleDocker 0
      = some (.ok (EZMQX_OK, { samplePublisher with topic := none }, sampleDockerOnePort)) ∧
    publisherTerminate sampleConstants sampleTns (samplePublisherEnv true true true (some 200))
        { samplePublisher with topic := none } sampleDockerOnePort
      = .error .nilDereference ∧
    publisherTerminate sampleConstants sampleTns (samplePublisherEnv true true true (some 200))
        samplePublisher sampleDockerOnePort
      = .ok (EZMQX_OK, { samplePublisher with status := CREATED },
          (releaseDynamicPort sampleDockerOnePort 4000).2) ∧
    publisherTerminate sampleConstants sampleTns (samplePublisherEnv true true true (some 200))
        samplePublisher sampleDocker
      = .ok (EZMQX_UNKNOWN_STATE, samplePublisher, sampleDocker) ∧
    publisherTerminate sampleConstants sampleTns (samplePublisherEnv true true true (some 404))
        samplePublisher sampleDockerOnePort
      = .ok (EZMQX_UNKNOWN_STATE, samplePublisher,
          (releaseDynamicPort sampleDockerOnePort 4000).2) ∧
    publisherTerminate sampleConstants sampleTns (samplePublisherEnv true true false (some 200))
        samplePublisher sampleDockerOnePort
      = .ok (EZMQX_UNKNOWN_STATE, samplePublisher,
          (releaseDynamicPort sampleDockerOnePort 4000).2) ∧
    (pub.status = INITIALIZED →
      (isCtxStandAlone c = true ∨ c.usedPorts.get pub.localPort false = true) →
      isCtxTnsEnabled c = true → pub.topic = none →
      publisherTerminate K T env pub c = .error .nilDereference) ∧
    (pub.status ≠ INITIALIZED →
      publisherTerminate K T env pub c = .ok (EZMQX_UNKNOWN_STATE, pub, c)) ∧
    (pub.status = INITIALIZED → isCtxStandAlone c = false →
      c.usedPorts.get pub.localPort false = false →
      publisherTerminate K T env pub c = .ok (EZMQX_UNKNOWN_STATE, pub, c)) ∧
    ((isCtxTnsEnabled c = false ∨ pub.topic ≠ none) →
      ∃ code, unRegisterTopic K T env c pub.topic = .ok code) ∧
    (pub.status = INITIALIZED →
      (isCtxStandAlone c = true ∨ c.usedPorts.get pub.localPort false = true) →
      ∀ code, unRegisterTopic K T env c pub.topic = .ok code → code ≠ EZMQX_OK →
      publisherTerminate K T env pub c = .ok (EZMQX_UNKNOWN_STATE, pub,
        if isCtxStandAlone c then c else (releaseDynamicPort c pub.localPort).2)) ∧
    (pub.status = INITIALIZED →
      (isCtxStandAlone c = true ∨ c.usedPorts.get pub.localPort false = true) →
      unRegisterTopic K T env c pub.topic = .ok EZMQX_OK →
      pub.ezmqPublisher ≠ none → env.stopOk = false →
      publisherTerminate K T env pub c = .ok (EZMQX_UNKNOWN_STATE, pub,
        if isCtxStandAlone c then c else (releaseDynamicPort c pub.localPort).2)) ∧
    (pub.status = INITIALIZED →
      (isCtxStandAlone c = true ∨ c.usedPorts.get pub.localPort false = true) →
      unRegisterTopic K T env c pub.topic = .ok EZMQX_OK →
      (pub.ezmqPublisher = none ∨ env.stopOk = true) →
      publisherTerminate K T env pub c = .ok (EZMQX_OK, { pub with status := CREATED },
        if isCtxStandAlone c then c else (releaseDynamicPort c pub.localPort).2)) ∧
    (∀ envs : List PublisherEnv, (publisherTerminateRun K T envs pub c).count EZMQX_OK ≤ 1) ∧
    (pub.status = INITIALIZED →
      (isCtxStandAlone c = true ∨ c.usedPorts.get pub.localPort false = true) →
      unRegisterTopic K T env c pub.topic = .ok EZMQX_OK →
      (pub.ezmqPublisher = none ∨ env.stopOk = true) →
      ∀ envs : List PublisherEnv,
        publisherTerminateRun K T (env :: envs) pub c
          = EZMQX_OK :: List.replicate envs.length EZMQX_UNKNOWN_STATE) := by
  refine ⟨rfl, rfl, rfl, rfl, rfl, rfl, ?_, publisherTerminate_not_initialized K T env pub c,
    publisherTerminate_release_fails K T env pub c,
    unRegisterTopic_returns K T env c pub.topic, ?_, ?_,
    publisherTerminate_succeeds K T env pub c,
    fun envs => publisherTerminateRun_count K T envs pub c, ?_⟩
  · intro hst hrel htns htopic
    rw [publisherTerminate_after_release K T env pub c hst hrel, htopic,
      unRegisterTopic_nil_topic K T env c htns]
  · intro hst hrel code hcode hne
    rw [publisherTerminate_after_release K T env pub c hst hrel, hcode]
    simp only [ne_eq, hne, not_false_eq_true, if_true]
  · intro hst hrel hcode hpub hstop
    have hstopb : (pub.ezmqPublisher.isSome && !env.stopOk) = true := by
      rw [hstop]
      cases hp : pub.ezmqPublisher with
      | none => exact absurd hp hpub
      | some _ => rfl
    rw [publisherTerminate_after_release K T env pub c hst hrel, hcode]
    simp only [ne_eq, not_true_eq_false, if_false, hstopb, if_true]
  · intro hst hrel hunreg hstop envs
    unfold publisherTerminateRun
    rw [publisherTerminate_succeeds K T env pub c hst hrel hunreg hstop]
    simp only
    rw [publisherTerminateRun_not_initialized K T envs _ _ (fun h => Status.noConfusion h)]

/-- C13, the code at the failing input: a networked publisher on port 4000
whose `terminate()` fails at the TNS unregistration (or at the transport
stop) returns `EZMQX_UNKNOWN_STATE` with status `INITIALIZED`, but port 4000
has been released and `numOfPort` has gone from 1 to 0; the retried
`terminate()`, with every sub-step now working, returns
`EZMQX_UNKNOWN_STATE` again, because the release of the port fails. -/
theorem failed_terminate_loses_port :
    sampleDockerOnePort.usedPorts.get 4000 false = true ∧
    sampleDockerOnePort.numOfPort = 1 ∧
    publisherTerminate sampleConstants sampleTns (samplePublisherEnv true true true none)
      samplePublisher sampleDockerOnePort
      = .ok (EZMQX_UNKNOWN_STATE, samplePublisher, (releaseDynamicPort sampleDockerOnePort 4000).2) ∧
    publisherTerminate sampleConstants sampleTns (samplePublisherEnv true true false (some 200))
      samplePublisher sampleDockerOnePort
      = .ok (EZMQX_UNKNOWN_STATE, samplePublisher, (releaseDynamicPort sampleDockerOnePort 4000).2) ∧
    (releaseDynamicPort sampleDockerOnePort 4000).2.usedPorts.get 4000 false = false ∧
    (releaseDynamicPort sampleDockerOnePort 4000).2.numOfPort = 0 ∧
    publisherTerminate sampleConstants sampleTns (samplePublisherEnv true true true (some 200))
      samplePublisher (releaseDynamicPort sampleDockerOnePort 4000).2
      = .ok (EZMQX_UNKNOWN_STATE, samplePublisher, (releaseDynamicPort sampleDockerOnePort 4000).2) ∧
    publisherTerminate sampleConstants sampleTns (samplePublisherEnv true true true (some 200))
      samplePublisher sampleDockerOnePort
      = .ok (EZMQX_OK, { samplePublisher with status := CREATED },
        (releaseDynamicPort sampleDockerOnePort 4000).2) :=
  ⟨rfl, rfl, rfl, rfl, rfl, rfl, rfl, rfl⟩

/-- C19, the code at the failing input: on a networked, initialized Context
with an empty pool, `initialize` of a publisher whose transport publisher
cannot be created (or started) returns `EZMQX_UNKNOWN_STATE` with status
`CREATED`, and leaves port 4000 marked used with `numOfPort = 1`; `terminate`
on that publisher returns `EZMQX_UNKNOWN_STATE` and does not free the port. -/
theorem failed_initialize_leaks_port :
    initializeDockerMode sampleConstants (sampleDockerEnv sampleConfig sampleAppInfo) sampleFresh
      = .ok (EZMQX_OK, sampleDocker) ∧
    isCtxStandAlone sampleDocker = false ∧
    sampleDocker.numOfPort = 0 ∧
    sampleDocker.usedPorts.get 4000 false = false ∧
    publisherInitialize sampleConstants (samplePublisherEnv false true true none) 1 getPublisher
      sampleDocker 0
      = some (.ok (EZMQX_UNKNOWN_STATE, { getPublisher with localPort := 4000 },
        sampleDockerOnePort)) ∧
    publisherInitialize sampleConstants (samplePublisherEnv true false true none) 1 getPublisher
      sampleDocker 0
      = some (.ok (EZMQX_UNKNOWN_STATE,
        { getPublisher with localPort := 4000, ezmqPublisher := some 4000 },
        sampleDockerOnePort)) ∧
    ({ getPublisher with localPort := 4000 } : EZMQXPublisher).status = CREATED ∧
    sampleDockerOnePort.numOfPort = 1 ∧
    sampleDockerOnePort.usedPorts.get 4000 false = true ∧
    publisherTerminate sampleConstants sampleTns (samplePublisherEnv true true true (some 200))
      { getPublisher with localPort := 4000 } sampleDockerOnePort
      = .ok (EZMQX_UNKNOWN_STATE, { getPublisher with localPort := 4000 }, sampleDockerOnePort) :=
  ⟨rfl, rfl, rfl, rfl, rfl, rfl, rfl, rfl, rfl, rfl⟩

/-! ## Claims on the subscriber -/

/-- C14, as stated, fails: with an initialized Context and TNS disabled, a
topic spec that the naming grammar rejects yields `EZMQX_INVALID_TOPIC`, not
`EZMQX_TNS_NOT_AVAILABLE`. -/
theorem invalid_topic_checked_before_tns :
    isCtxInitialized sampleStandAlone = some true ∧
    isCtxTnsEnabled sampleStandAlone = false ∧
    sampleTopicFunctions.validateTopic "sensor" = false ∧
    subscriberInitialize sampleConstants sampleTns sampleTopicFunctions
      (sampleSubscriberEnv none true) sampleStandAlone getEZMQXSubscriber "sensor" false
      = .ok (EZMQX_INVALID_TOPIC, getEZMQXSubscriber, []) :=
  ⟨rfl, rfl, rfl, rfl⟩

/-- C14, as amended: the subscriber's `initialize` returns
`EZMQX_NOT_INITIALIZED` when the Context is not initialized, for every topic
spec; when the Context is initialized it returns `EZMQX_INVALID_TOPIC` for a
spec that the naming grammar rejects, and `EZMQX_TNS_NOT_AVAILABLE` for a
valid spec when TNS is disabled; in the three cases no TNS request is made and
the subscriber is unchanged (no topic stored, status as before). -/
theorem subscriber_initialize_preconditions (K : Constants) (T : TnsConstants)
    (F : TopicFunctions) (env : SubscriberEnv) (c : EZMQXContext Rep)
    (sub : EZMQXSubscriber Rep) (topic : String) (isHierarchical : Bool) :
    (isCtxInitialized c = some false →
      subscriberInitialize K T F env c sub topic isHierarchical
        = .ok (EZMQX_NOT_INITIALIZED, sub, [])) ∧
    (isCtxInitialized c = some true → F.validateTopic topic = false →
      subscriberInitialize K T F env c sub topic isHierarchical
        = .ok (EZMQX_INVALID_TOPIC, sub, [])) ∧
    (isCtxInitialized c = some true → F.validateTopic topic = true →
      isCtxTnsEnabled c = false →
      subscriberInitialize K T F env c sub topic isHierarchical
        = .ok (EZMQX_TNS_NOT_AVAILABLE, sub, [])) := by
  refine ⟨?_, ?_, ?_⟩
  · intro hi
    unfold subscriberInitialize
    rw [hi]
  · intro hi hv
    unfold subscriberInitialize
    rw [hi]
    simp [hv]
  · intro hi hv ht
    unfold subscriberInitialize
    rw [hi]
    simp [hv, ht]

/-- The two precondition errors on the sample Contexts. -/
theorem subscriber_initialize_preconditions_witness :
    isCtxInitialized sampleFresh = some false ∧
    subscriberInitialize sampleConstants sampleTns sampleTopicFunctions
      (sampleSubscriberEnv none true) sampleFresh getEZMQXSubscriber "sensor" false
      = .ok (EZMQX_NOT_INITIALIZED, getEZMQXSubscriber, []) ∧
    subscriberInitialize sampleConstants sampleTns sampleTopicFunctions
      (sampleSubscriberEnv none true) sampleStandAlone getEZMQXSubscriber "/sensor" false
      = .ok (EZMQX_TNS_NOT_AVAILABLE, getEZMQXSubscriber, []) :=
  ⟨rfl,
    (subscriber_initialize_preconditions sampleConstants sampleTns sampleTopicFunctions
      (sampleSubscriberEnv none true) sampleFresh getEZMQXSubscriber "sensor" false).1 rfl,
    (subscriber_initialize_preconditions sampleConstants sampleTns sampleTopicFunctions
      (sampleSubscriberEnv none true) sampleStandAlone getEZMQXSubscriber "/sensor" false).2.2
      rfl rfl rfl⟩

/-- C16, as stated, fails: when the transport's `Stop` fails, `terminate()` of an
`INITIALIZED` subscriber returns `EZMQX_UNKNOWN_STATE` and the status is
`INITIALIZED` again. -/
theorem subscriber_terminate_stop_failure :
    sampleSubscriber.status = INITIALIZED ∧
    subscriberTerminate (sampleSubscriberEnv none false) sampleSubscriber
      = (EZMQX_UNKNOWN_STATE, sampleSubscriber) ∧
    (subscriberTerminate (sampleSubscriberEnv none false) sampleSubscriber).2.status
      = INITIALIZED :=
  ⟨rfl, rfl, rfl⟩

/-- C16, as amended: for a subscriber whose status is `INITIALIZED` on entry,
`terminate()` returns `EZMQX_OK` and ends in `CREATED` when no transport
subscriber was created or the transport's `Stop` succeeds; when a transport
subscriber exists and its `Stop` fails, it returns `EZMQX_UNKNOWN_STATE` and
leaves the subscriber as it was, status `INITIALIZED`. -/
theorem subscriber_terminate_contract (env : SubscriberEnv) (sub : EZMQXSubscriber Rep)
    (h : sub.status = INITIALIZED) :
    ((sub.ezmqSubscriber = none ∨ env.stopOk = true) →
      (subscriberTerminate env sub).1 = EZMQX_OK ∧
      (subscriberTerminate env sub).2.status = CREATED) ∧
    ((∃ transport, sub.ezmqSubscriber = some transport) → env.stopOk = false →
      subscriberTerminate env sub = (EZMQX_UNKNOWN_STATE, sub)) := by
  unfold subscriberTerminate
  rw [if_neg (by simp [h])]
  constructor
  · intro hok
    cases hs : sub.ezmqSubscriber with
    | none => simp
    | some transport =>
      rcases hok with h0 | h0
      · rw [hs] at h0; cases h0
      · simp [h0]
  · rintro ⟨transport, hs⟩ hstop
    simp only [hs, hstop, Bool.not_false, if_true]
    congr 1
    cases sub
    simp only at h hs
    subst h
    subst hs
    rfl

/-- Termination of the sample subscriber with a working transport, and of a subscriber without transport. -/
theorem subscriber_terminate_contract_witness :
    sampleSubscriber.status = INITIALIZED ∧
    subscriberTerminate (sampleSubscriberEnv none true) sampleSubscriber
      = (EZMQX_OK,
        { sampleSubscriber with
          ezmqSubscriber := some { sampleTransport with started := false }, status := CREATED }) ∧
    (subscriberTerminate (sampleSubscriberEnv none true) sampleSubscriber).2.status = CREATED ∧
    (getEZMQXSubscriber : EZMQXSubscriber String).ezmqSubscriber = none ∧
    subscriberTerminate (sampleSubscriberEnv none false)
      ({ getEZMQXSubscriber with status := INITIALIZED } : EZMQXSubscriber String)
      = (EZMQX_OK, getEZMQXSubscriber) ∧
    (subscriberTerminate (sampleSubscriberEnv none false)
      ({ getEZMQXSubscriber with status := INITIALIZED } : EZMQXSubscriber String)).2.status
      = CREATED :=
  ⟨rfl, rfl,
    ((subscriber_terminate_contract (sampleSubscriberEnv none true) sampleSubscriber rfl).1
      (Or.inr rfl)).2,
    rfl, rfl,
    ((subscriber_terminate_contract (sampleSubscriberEnv none false)
      ({ getEZMQXSubscriber with status := INITIALIZED } : EZMQXSubscriber String) rfl).1
      (Or.inl rfl)).2⟩

theorem subscribe_effect (env : SubscriberEnv) (sub : EZMQXSubscriber Rep) (topic : EZMQXTopic) :
    (subscribe env sub topic).2.storedTopics = sub.storedTopics ∧
    (subscribe env sub topic).2.status = sub.status ∧
    ((subscribe env sub topic).1 = EZMQX_OK →
      subscribedNames (subscribe env sub topic).2 = subscribedNames sub ++ [topic.name]) ∧
    ((subscribe env sub topic).1 ≠ EZMQX_OK →
      subscribedNames (subscribe env sub topic).2 = subscribedNames sub) := by
  unfold subscribe
  cases hs : sub.ezmqSubscriber with
  | none =>
    have hn : subscribedNames sub = [] := by unfold subscribedNames; rw [hs]
    rw [hn]
    unfold createSubscriber
    cases hc : env.createOk topic.endPoint.addr topic.endPoint.port with
    | false => simp [subscribedNames, hc]
    | true =>
      cases hst : env.startOk topic.endPoint.addr topic.endPoint.port with
      | false => simp [subscribedNames, hc, hst]
      | true =>
        cases hsub : env.subscribeForTopicOk topic.name with
        | false => simp [subscribedNames, hc, hst, hsub]
        | true => simp [subscribedNames, hc, hst, hsub, Subscription.name]
  | some transport =>
    have hn : subscribedNames sub = transport.subscriptions.map Subscription.name := by
      unfold subscribedNames; rw [hs]
    rw [hn]
    cases hsub : env.subscribeWithIPPortOk topic.endPoint.addr topic.endPoint.port topic.name with
    | false => simp [subscribedNames, hs, hsub]
    | true => simp [subscribedNames, hsub, Subscription.name]

theorem storeTopic_code (F : TopicFunctions) (env : SubscriberEnv) (c : EZMQXContext Rep)
    (sub : EZMQXSubscriber Rep) (t : EZMQXTopic) :
    (t.secured = true → storeTopic F env c sub t = (EZMQX_INVALID_PARAM, sub)) ∧
    (t.secured = false → F.validateTopic t.name = false →
      storeTopic F env c sub t = (EZMQX_INVALID_TOPIC, sub)) ∧
    (t.secured = false → F.validateTopic t.name = true →
      AList.lookup t.dataModel c.amlRepDic = none →
      (storeTopic F env c sub t).1 = EZMQX_UNKNOWN_AML_MODEL) ∧
    (t.secured = false → F.validateTopic t.name = true →
      ∀ rep, AList.lookup t.dataModel c.amlRepDic = some rep →
      (storeTopic F env c sub t).1
        = (subscribe env { sub with amlRepDic := sub.amlRepDic.insert t.name (some rep) } t).1) := by
  refine ⟨?_, ?_, ?_, ?_⟩
  · intro h1
    unfold storeTopic
    rw [if_pos h1]
  · intro h1 h2
    unfold storeTopic
    simp [h1, h2]
  · intro h1 h2 h3
    unfold storeTopic getAmlRep
    simp [h1, h2, h3]
  · intro h1 h2 rep h3
    unfold storeTopic getAmlRep
    simp only [h1, h2, h3, Bool.false_eq_true, if_false, Bool.not_true, ne_eq,
      not_true_eq_false]
    split
    · rfl
    · rename_i hok
      exact (not_not.mp hok).symm

theorem storeTopic_effect (F : TopicFunctions) (env : SubscriberEnv) (c : EZMQXContext Rep)
    (sub : EZMQXSubscriber Rep) (t : EZMQXTopic) :
    (storeTopic F env c sub t).2.status = sub.status ∧
    ((storeTopic F env c sub t).1 = EZMQX_OK →
      (storeTopic F env c sub t).2.storedTopics = sub.storedTopics ++ [t] ∧
      subscribedNames (storeTopic F env c sub t).2 = subscribedNames sub ++ [t.name]) ∧
    ((storeTopic F env c sub t).1 ≠ EZMQX_OK →
      (storeTopic F env c sub t).2.storedTopics = sub.storedTopics ∧
      subscribedNames (storeTopic F env c sub t).2 = subscribedNames sub) := by
  by_cases h1 : t.secured = true
  · rw [(storeTopic_code F env c sub t).1 h1]
    exact ⟨rfl, fun h => absurd h (by simp), fun _ => ⟨rfl, rfl⟩⟩
  · have h1f : t.secured = false := by simpa using h1
    by_cases h2 : F.validateTopic t.name = true
    · obtain ⟨e1, e2, e3, e4⟩ := subscribe_effect env
        { sub with amlRepDic := sub.amlRepDic.insert t.name (getAmlRep c t.dataModel).1 } t
      by_cases h3 : (getAmlRep c t.dataModel).2 = EZMQX_OK
      · by_cases h4 : (subscribe env
            { sub with amlRepDic := sub.amlRepDic.insert t.name (getAmlRep c t.dataModel).1 } t).1
            = EZMQX_OK
        · have hv : storeTopic F env c sub t = (EZMQX_OK,
              { (subscribe env { sub with
                    amlRepDic := sub.amlRepDic.insert t.name (getAmlRep c t.dataModel).1 } t).2 with
                storedTopics := (subscribe env { sub with
                    amlRepDic := sub.amlRepDic.insert t.name (getAmlRep c t.dataModel).1 } t).2.storedTopics
                  ++ [t] }) := by
            unfold storeTopic
            simp only [h1f, h2, h3, h4, Bool.false_eq_true, if_false, Bool.not_true, ne_eq,
              not_true_eq_false]
          rw [hv]
          refine ⟨e2, fun _ => ⟨?_, e3 h4⟩, fun h => absurd rfl h⟩
          show (subscribe env _ t).2.storedTopics ++ [t] = sub.storedTopics ++ [t]
          rw [e1]
        · have hv : storeTopic F env c sub t = subscribe env { sub with
              amlRepDic := sub.amlRepDic.insert t.name (getAmlRep c t.dataModel).1 } t := by
            unfold storeTopic
            simp only [h1f, h2, h3, h4, Bool.false_eq_true, if_false, Bool.not_true, ne_eq,
              not_true_eq_false, not_false_eq_true, if_true]
          rw [hv]
          exact ⟨e2, fun h => absurd h h4, fun _ => ⟨e1, e4 h4⟩⟩
      · have hv : storeTopic F env c sub t = ((getAmlRep c t.dataModel).2, { sub with
            amlRepDic := sub.amlRepDic.insert t.name (getAmlRep c t.dataModel).1 }) := by
          unfold storeTopic
          simp only [h1f, h2, h3, Bool.false_eq_true, if_false, Bool.not_true, ne_eq,
            not_false_eq_true, if_true]
        rw [hv]
        exact ⟨rfl, fun h => absurd h h3, fun _ => ⟨rfl, rfl⟩⟩
    · have h2f : F.validateTopic t.name = false := by simpa using h2
      rw [(storeTopic_code F env c sub t).2.1 h1f h2f]
      exact ⟨rfl, fun h => absurd h (by simp), fun _ => ⟨rfl, rfl⟩⟩

theorem storeTopicsLoop_cons_fail (F : TopicFunctions) (env : SubscriberEnv)
    (c : EZMQXContext Rep) (t : EZMQXTopic) (rest : List EZMQXTopic) (sub : EZMQXSubscriber Rep)
    (h : (storeTopic F env c sub t).1 ≠ EZMQX_OK) :
    storeTopicsLoop F env c (t :: rest) sub = storeTopic F env c sub t := by
  rw [storeTopicsLoop]
  simp only [h, ne_eq, not_false_eq_true, if_true]

theorem storeTopicsLoop_cons_ok (F : TopicFunctions) (env : SubscriberEnv)
    (c : EZMQXContext Rep) (t : EZMQXTopic) (rest : List EZMQXTopic) (sub : EZMQXSubscriber Rep)
    (h : (storeTopic F env c sub t).1 = EZMQX_OK) :
    storeTopicsLoop F env c (t :: rest) sub
      = storeTopicsLoop F env c rest (storeTopic F env c sub t).2 := by
  rw [storeTopicsLoop]
  simp only [h, ne_eq, not_true_eq_false, if_false]

theorem storeTopicsLoop_append (F : TopicFunctions) (env : SubscriberEnv) (c : EZMQXContext Rep)
    (pre : List EZMQXTopic) :
    ∀ (rest : List EZMQXTopic) (sub : EZMQXSubscriber Rep),
      (storeTopicsLoop F env c pre sub).1 = EZMQX_OK →
      storeTopicsLoop F env c (pre ++ rest) sub
        = storeTopicsLoop F env c rest (storeTopicsLoop F env c pre sub).2 := by
  induction pre with
  | nil => intro rest sub _; rfl
  | cons t pre ih =>
    intro rest sub hok
    rw [List.cons_append]
    by_cases hstep : (storeTopic F env c sub t).1 = EZMQX_OK
    · rw [storeTopicsLoop_cons_ok F env c t pre sub hstep] at hok ⊢
      rw [storeTopicsLoop_cons_ok F env c t (pre ++ rest) sub hstep]
      exact ih rest _ hok
    · rw [storeTopicsLoop_cons_fail F env c t pre sub hstep] at hok
      exact absurd hok hstep

theorem storeTopicsLoop_ok (F : TopicFunctions) (env : SubscriberEnv) (c : EZMQXContext Rep)
    (topics : List EZMQXTopic) :
    ∀ sub : EZMQXSubscriber Rep,
      (storeTopicsLoop F env c topics sub).1 = EZMQX_OK →
      (storeTopicsLoop F env c topics sub).2.storedTopics = sub.storedTopics ++ topics ∧
      subscribedNames (storeTopicsLoop F env c topics sub).2
        = subscribedNames sub ++ topics.map (fun t => t.name) ∧
      (storeTopicsLoop F env c topics sub).2.status = sub.status := by
  induction topics with
  | nil => intro sub _; simp [storeTopicsLoop]
  | cons t rest ih =>
    intro sub hok
    by_cases hstep : (storeTopic F env c sub t).1 = EZMQX_OK
    · rw [storeTopicsLoop_cons_ok F env c t rest sub hstep] at hok ⊢
      obtain ⟨a1, a2, a3⟩ := ih _ hok
      obtain ⟨b1, b2, _⟩ := storeTopic_effect F env c sub t
      obtain ⟨b3, b4⟩ := b2 hstep
      rw [a1, a2, a3, b1, b3, b4]
      simp
    · rw [storeTopicsLoop_cons_fail F env c t rest sub hstep] at hok
      exact absurd hok hstep

/-- C15: with an initialized Context, if the topics of `pre` all pass and the
next topic `t` fails, `storeTopics` on `pre ++ [t] ++ post` returns the code
of that failure (`EZMQX_INVALID_PARAM` for a secured topic,
`EZMQX_INVALID_TOPIC` for an invalid name, `EZMQX_UNKNOWN_AML_MODEL` for a
model id absent from the Context cache, the code of `subscribe` otherwise);
exactly the topics of `pre` have been subscribed and appended to
`storedTopics`, in input order, and the status is as on entry. A list whose
first topic is secured leaves the subscriber unchanged. When no topic fails,
all topics are subscribed and appended in order and the status is
`INITIALIZED`. -/
theorem store_topics_aborts_without_rollback (F : TopicFunctions) (env : SubscriberEnv)
    (c : EZMQXContext Rep) (sub : EZMQXSubscriber Rep) (pre post : List EZMQXTopic)
    (t : EZMQXTopic)
    (hinit : isCtxInitialized c = some true)
    (hpre : (storeTopicsLoop F env c pre sub).1 = EZMQX_OK)
    (hfail : (storeTopic F env c (storeTopicsLoop F env c pre sub).2 t).1 ≠ EZMQX_OK) :
    (∃ sub1 : EZMQXSubscriber Rep,
      storeTopics F env c sub (pre ++ [t] ++ post)
        = .ok ((storeTopic F env c (storeTopicsLoop F env c pre sub).2 t).1, sub1) ∧
      getTopics sub1 = getTopics sub ++ pre ∧
      subscribedNames sub1 = subscribedNames sub ++ pre.map (fun p => p.name) ∧
      sub1.status = sub.status) ∧
    (∀ s : EZMQXSubscriber Rep,
      (t.secured = true → storeTopic F env c s t = (EZMQX_INVALID_PARAM, s)) ∧
      (t.secured = false → F.validateTopic t.name = false →
        storeTopic F env c s t = (EZMQX_INVALID_TOPIC, s)) ∧
      (t.secured = false → F.validateTopic t.name = true →
        AList.lookup t.dataModel c.amlRepDic = none →
        (storeTopic F env c s t).1 = EZMQX_UNKNOWN_AML_MODEL) ∧
      (t.secured = false → F.validateTopic t.name = true →
        ∀ rep, AList.lookup t.dataModel c.amlRepDic = some rep →
        (storeTopic F env c s t).1
          = (subscribe env { s with amlRepDic := s.amlRepDic.insert t.name (some rep) } t).1)) ∧
    (t.secured = true → storeTopics F env c sub ([t] ++ post) = .ok (EZMQX_INVALID_PARAM, sub)) ∧
    (∀ topics : List EZMQXTopic, (storeTopicsLoop F env c topics sub).1 = EZMQX_OK →
      ∃ sub1 : EZMQXSubscriber Rep,
        storeTopics F env c sub topics = .ok (EZMQX_OK, sub1) ∧
        getTopics sub1 = getTopics sub ++ topics ∧
        subscribedNames sub1 = subscribedNames sub ++ topics.map (fun p => p.name) ∧
        sub1.status = INITIALIZED) := by
  have hloop : storeTopicsLoop F env c (pre ++ [t] ++ post) sub
      = storeTopic F env c (storeTopicsLoop F env c pre sub).2 t := by
    rw [List.append_assoc, storeTopicsLoop_append F env c pre _ sub hpre, List.singleton_append,
      storeTopicsLoop_cons_fail F env c t post _ hfail]
  obtain ⟨p1, p2, p3⟩ := storeTopicsLoop_ok F env c pre sub hpre
  obtain ⟨q1, _, q3⟩ := storeTopic_effect F env c (storeTopicsLoop F env c pre sub).2 t
  obtain ⟨q4, q5⟩ := q3 hfail
  refine ⟨⟨(storeTopic F env c (storeTopicsLoop F env c pre sub).2 t).2, ?_, ?_, ?_, ?_⟩,
    fun s => storeTopic_code F env c s t, ?_, ?_⟩
  · unfold storeTopics
    rw [hinit]
    simp only [hloop, hfail, ne_eq, not_false_eq_true, if_true]
  · unfold getTopics
    rw [q4, p1]
  · rw [q5, p2]
  · rw [q1, p3]
  · intro hsec
    unfold storeTopics
    rw [hinit]
    have : storeTopicsLoop F env c ([t] ++ post) sub = (EZMQX_INVALID_PARAM, sub) := by
      have hcode := (storeTopic_code F env c sub t).1 hsec
      rw [List.singleton_append,
        storeTopicsLoop_cons_fail F env c t post sub (by rw [hcode]; simp), hcode]
    simp only [this, ne_eq, reduceCtorEq, not_false_eq_true, if_true]
  · intro topics hok
    obtain ⟨r1, r2, r3⟩ := storeTopicsLoop_ok F env c topics sub hok
    refine ⟨{ (storeTopicsLoop F env c topics sub).2 with status := INITIALIZED }, ?_, ?_, ?_, rfl⟩
    · unfold storeTopics
      rw [hinit]
      simp only [hok, ne_eq, not_true_eq_false, if_false]
    · exact r1
    · have : subscribedNames
          ({ (storeTopicsLoop F env c topics sub).2 with status := INITIALIZED } :
            EZMQXSubscriber Rep)
          = subscribedNames (storeTopicsLoop F env c topics sub).2 := rfl
      rw [this, r2]

/-- Four sample topics whose third is refused by the transport, and the TNS
answer with one secured topic. -/
theorem store_topics_aborts_without_rollback_witness :
    isCtxInitialized sampleDockerWithModel = some true ∧
    (storeTopicsLoop sampleTopicFunctions (sampleSubscriberEnv none true) sampleDockerWithModel
      [sampleTopicA, sampleTopicB] getEZMQXSubscriber).1 = EZMQX_OK ∧
    (storeTopics sampleTopicFunctions (sampleSubscriberEnv none true) sampleDockerWithModel
      getEZMQXSubscriber ([sampleTopicA, sampleTopicB] ++ [sampleTopicBroken] ++ [sampleTopicC])).map
      (fun r => (r.1, getTopics r.2, subscribedNames r.2, r.2.status))
      = .ok (EZMQX_SESSION_UNAVAILABLE, [sampleTopicA, sampleTopicB], ["/a", "/b"], CREATED) ∧
    (subscriberInitialize sampleConstants sampleTns sampleTopicFunctions
      (sampleSubscriberEnv (some sampleTnsSecured) true) sampleDockerWithModel getEZMQXSubscriber
      "/a" false).map (fun r => (r.1, getTopics r.2.1, r.2.1.ezmqSubscriber, r.2.1.status))
      = .ok (EZMQX_INVALID_PARAM, [], none, CREATED) ∧
    ∃ sub1 : EZMQXSubscriber String,
      storeTopics sampleTopicFunctions (sampleSubscriberEnv none true) sampleDockerWithModel
        getEZMQXSubscriber ([sampleTopicA, sampleTopicB] ++ [sampleTopicBroken] ++ [sampleTopicC])
        = .ok ((storeTopic sampleTopicFunctions (sampleSubscriberEnv none true)
            sampleDockerWithModel
            (storeTopicsLoop sampleTopicFunctions (sampleSubscriberEnv none true)
              sampleDockerWithModel [sampleTopicA, sampleTopicB] getEZMQXSubscriber).2
            sampleTopicBroken).1, sub1) ∧
      getTopics sub1 = getTopics (getEZMQXSubscriber : EZMQXSubscriber String)
        ++ [sampleTopicA, sampleTopicB] ∧
      subscribedNames sub1 = subscribedNames (getEZMQXSubscriber : EZMQXSubscriber String)
        ++ [sampleTopicA, sampleTopicB].map (fun p => p.name) ∧
      sub1.status = (getEZMQXSubscriber : EZMQXSubscriber String).status :=
  ⟨rfl, rfl, rfl, rfl,
    (store_topics_aborts_without_rollback sampleTopicFunctions (sampleSubscriberEnv none true)
      sampleDockerWithModel getEZMQXSubscriber [sampleTopicA, sampleTopicB] [sampleTopicC]
      sampleTopicBroken rfl rfl
      (by
        rw [show (storeTopic sampleTopicFunctions (sampleSubscriberEnv none true)
            sampleDockerWithModel
            (storeTopicsLoop sampleTopicFunctions (sampleSubscriberEnv none true)
              sampleDockerWithModel [sampleTopicA, sampleTopicB] getEZMQXSubscriber).2
            sampleTopicBroken).1 = EZMQX_SESSION_UNAVAILABLE from rfl]
        decide)).1⟩

/-! ## The Context after its termination -/

theorem assignDynamicPort_host (K : Constants) (fuel : Nat) :
    ∀ (c : EZMQXContext Rep) (r : Int × EZMQXErrorCode × EZMQXContext Rep),
      assignDynamicPort K fuel c = some r →
      r.2.2.standAlone = c.standAlone ∧ r.2.2.ports = c.ports := by
  induction fuel with
  | zero => intro c r h; simp [assignDynamicPort] at h
  | succ f ih =>
    intro c r h
    unfold assignDynamicPort at h
    split at h
    · cases h; exact ⟨rfl, rfl⟩
    · simp only at h
      split at h
      · have h2 := ih _ _ h
        exact h2
      · cases h; exact ⟨rfl, rfl⟩

theorem assignDynamicPort_marks (K : Constants) (fuel : Nat) :
    ∀ (c c1 : EZMQXContext Rep) (port : Int),
      assignDynamicPort K fuel c = some (port, EZMQX_OK, c1) →
      c1.usedPorts.get port false = true := by
  induction fuel with
  | zero => intro c c1 port h; simp [assignDynamicPort] at h
  | succ f ih =>
    intro c c1 port h
    unfold assignDynamicPort at h
    split at h
    · cases h
    · simp only at h
      split at h
      · exact ih _ _ _ h
      · cases h
        show GoMap.get (AList.insert _ true c.usedPorts) _ false = true
        rw [GoMap.get_insert]
        simp

theorem addAmlRepLoop_host (create : String → Option Rep) (getId : Rep → Option String)
    (paths : List String) :
    ∀ (ids : List String) (c : EZMQXContext Rep),
      (addAmlRepLoop create getId paths ids c).2.2.standAlone = c.standAlone ∧
      (addAmlRepLoop create getId paths ids c).2.2.ports = c.ports := by
  induction paths with
  | nil => intro ids c; exact ⟨rfl, rfl⟩
  | cons p rest ih =>
    intro ids c
    cases hc : create p with
    | none => rw [addAmlRepLoop_create_fails create getId p rest ids c hc]; exact ⟨rfl, rfl⟩
    | some repObject =>
      cases hg : getId repObject with
      | none =>
        rw [addAmlRepLoop_getId_fails create getId p rest ids c repObject hc hg]
        exact ⟨rfl, rfl⟩
      | some amlModelId =>
        rw [addAmlRepLoop_step create getId p rest ids c repObject amlModelId hc hg]
        obtain ⟨b1, b2⟩ := ih (ids ++ [amlModelId])
          (if (AList.lookup amlModelId c.amlRepDic).isNone then
            { c with amlRepDic := c.amlRepDic.insert amlModelId repObject } else c)
        refine ⟨b1.trans ?_, b2.trans ?_⟩ <;> split <;> rfl

theorem beforeReinit_frame (K : Constants) (create : String → Option Rep)
    (getId : Rep → Option String) (c c1 : EZMQXContext Rep)
    (hterm : c.terminated = some true)
    (h : BeforeReinit K create getId c c1) :
    c1.standAlone = c.standAlone ∧ c1.ports = c.ports ∧
    c1.initialized = c.initialized ∧ c1.terminated = c.terminated := by
  induction h with
  | start => exact ⟨rfl, rfl, rfl, rfl⟩
  | assign _ hstep ih =>
    obtain ⟨h1, h2⟩ := assignDynamicPort_host K _ _ _ hstep
    obtain ⟨h3, h4⟩ := assignDynamicPort_flags K _ _ _ hstep
    simp only at h1 h2 h3 h4
    exact ⟨h1.trans ih.1, h2.trans ih.2.1, h3.trans ih.2.2.1, h4.trans ih.2.2.2⟩
  | @release c0 port _ ih =>
    have e : ∀ (f : EZMQXContext Rep → Prop), f c0 →
        (∀ m n, f { c0 with usedPorts := m, numOfPort := n }) →
        f (releaseDynamicPort c0 port).2 := by
      intro f h0 h1
      unfold releaseDynamicPort
      split
      · exact h0
      · exact h1 _ _
    exact e (fun x => x.standAlone = c.standAlone ∧ x.ports = c.ports ∧
      x.initialized = c.initialized ∧ x.terminated = c.terminated) ih (fun _ _ => ih)
  | @terminate c0 ok _ ih =>
    rw [terminate_of_terminated c0 ok (ih.2.2.2.trans hterm)]
    exact ih
  | @addAml c0 paths _ ih =>
    obtain ⟨h1, h2⟩ := addAmlRepLoop_host create getId paths [] c0
    obtain ⟨h3, h4⟩ := addAmlRepLoop_flags create getId paths [] c0
    unfold addAmlRep
    exact ⟨h1.trans ih.1, h2.trans ih.2.1, h3.trans ih.2.2.1, h4.trans ih.2.2.2⟩


/-- C5, as amended: in the state that a successful `terminate()` returns,
`releaseDynamicPort`, `getHostEp` and `getAmlRep` return a non-OK code for
every argument, because the maps they read are empty, while
`assignDynamicPort` returns `(LOCAL_PORT_START, EZMQX_OK)` and `addAmlRep`
returns `EZMQX_OK` whenever every path of its list parses. No operation but
`terminate` reads the `terminated` flag: `releaseDynamicPort` of the port
that `assignDynamicPort` has handed out on that state returns `EZMQX_OK`,
`getAmlRep` of a model that `addAmlRep` has cached on that state returns it
with `EZMQX_OK`, and in every state reached from there by calls other than an
initialization the flags stay `terminated = true`, `initialized = false` and
`getHostEp` returns `EZMQX_UNKNOWN_STATE` for every port. -/
theorem after_terminate (K : Constants) (CreateRepresentation : String → Option Rep)
    (GetRepresentationId : Rep → Option String) (c : EZMQXContext Rep) (ezmqTerminateOk : Bool)
    (h : c.terminated ≠ some true) :
    (terminate c ezmqTerminateOk).1 = EZMQX_OK ∧
    isCtxTerminated (terminate c ezmqTerminateOk).2 = some true ∧
    (∀ port : Int, releaseDynamicPort (terminate c ezmqTerminateOk).2 port
      = (EZMQX_RELEASE_WRONG_PORT, (terminate c ezmqTerminateOk).2)) ∧
    (∀ port : Int, getHostEp (terminate c ezmqTerminateOk).2 port = (none, EZMQX_UNKNOWN_STATE)) ∧
    (∀ amlModelId : String,
      getAmlRep (terminate c ezmqTerminateOk).2 amlModelId = (none, EZMQX_UNKNOWN_AML_MODEL)) ∧
    (0 < K.LOCAL_PORT_MAX → ∀ fuel : Nat,
      (assignDynamicPort K (fuel + 1) (terminate c ezmqTerminateOk).2).map
        (fun r => (r.1, r.2.1)) = some (K.LOCAL_PORT_START, EZMQX_OK)) ∧
    (∀ amlFilePath : List String,
      (∀ p ∈ amlFilePath, ∃ id, modelIdOf CreateRepresentation GetRepresentationId p = some id) →
      (addAmlRep CreateRepresentation GetRepresentationId
        (terminate c ezmqTerminateOk).2 amlFilePath).2.1 = EZMQX_OK) ∧
    (∀ (fuel : Nat) (port : Int) (c1 : EZMQXContext Rep),
      assignDynamicPort K fuel (terminate c ezmqTerminateOk).2 = some (port, EZMQX_OK, c1) →
      (releaseDynamicPort c1 port).1 = EZMQX_OK) ∧
    (∀ (p : String) (rep : Rep) (id : String),
      CreateRepresentation p = some rep → GetRepresentationId rep = some id →
      getAmlRep (addAmlRep CreateRepresentation GetRepresentationId
        (terminate c ezmqTerminateOk).2 [p]).2.2 id = (some rep, EZMQX_OK)) ∧
    (∀ c1 : EZMQXContext Rep,
      BeforeReinit K CreateRepresentation GetRepresentationId (terminate c ezmqTerminateOk).2 c1 →
      isCtxTerminated c1 = some true ∧ isCtxInitialized c1 = some false ∧
      ∀ port : Int, getHostEp c1 port = (none, EZMQX_UNKNOWN_STATE)) := by
  rw [terminate_of_not_terminated c ezmqTerminateOk h]
  refine ⟨rfl, rfl, ?_, ?_, ?_, ?_, ?_, ?_, ?_, ?_⟩
  · intro port
    unfold releaseDynamicPort
    rw [if_pos (GoMap.get_empty port false)]
  · intro port
    unfold getHostEp
    simp [GoMap.get_empty]
  · intro amlModelId
    unfold getAmlRep
    simp [AList.lookup_empty]
  · intro hK fuel
    unfold assignDynamicPort
    rw [if_neg (by simpa using hK)]
    simp [GoMap.get_empty]
  · intro amlFilePath hall
    exact addAmlRepLoop_all_parse CreateRepresentation GetRepresentationId amlFilePath [] _ hall
  · intro fuel port c1 hstep
    have hm := assignDynamicPort_marks K fuel _ c1 port hstep
    unfold releaseDynamicPort
    rw [if_neg (by simp [hm])]
  · intro p rep id hc hg
    rw [addAmlRep_single CreateRepresentation GetRepresentationId _ p rep id hc hg]
    unfold getAmlRep
    simp only [AList.lookup_empty, Option.isNone_none, if_true, AList.lookup_insert]
  · intro c1 hrun
    obtain ⟨h1, h2, h3, h4⟩ :=
      beforeReinit_frame K CreateRepresentation GetRepresentationId _ c1 rfl hrun
    simp only at h1 h2 h3 h4
    refine ⟨h4, h3, ?_⟩
    intro port
    unfold getHostEp
    simp [h1, h2, GoMap.get_empty]

/-- The operations on the sample pool after its termination, and after the
first port has been handed out again. -/
theorem after_terminate_witness :
    sampleFull.terminated ≠ some true ∧
    releaseDynamicPort (terminate sampleFull true).2 4000
      = (EZMQX_RELEASE_WRONG_PORT, (terminate sampleFull true).2) ∧
    getHostEp (terminate sampleFull true).2 4000 = (none, EZMQX_UNKNOWN_STATE) ∧
    getAmlRep (terminate sampleFull true).2 "model.aml" = (none, EZMQX_UNKNOWN_AML_MODEL) ∧
    (assignDynamicPort sampleConstants 1 (terminate sampleFull true).2).map
        (fun r => (r.1, r.2.1)) = some (4000, EZMQX_OK) ∧
    assignDynamicPort sampleConstants 1 (terminate sampleFull true).2
      = some (4000, EZMQX_OK,
          { (terminate sampleFull true).2 with
            usedPorts := AList.insert 4000 true ∅, numOfPort := 1 }) ∧
    (releaseDynamicPort
      { (terminate sampleFull true).2 with
        usedPorts := AList.insert 4000 true ∅, numOfPort := 1 } 4000).1 = EZMQX_OK ∧
    getAmlRep (addAmlRep sampleCreate sampleGetId (terminate sampleFull true).2 ["model.aml"]).2.2
      "model.aml" = (some "model.aml", EZMQX_OK) ∧
    getHostEp
      { (terminate sampleFull true).2 with
        usedPorts := AList.insert 4000 true ∅, numOfPort := 1 } 4000
      = (none, EZMQX_UNKNOWN_STATE) :=
  have h := after_terminate sampleConstants sampleCreate sampleGetId sampleFull true (by decide)
  ⟨by decide, h.2.2.1 4000, h.2.2.2.1 4000, h.2.2.2.2.1 "model.aml",
    h.2.2.2.2.2.1 (by decide) 0, rfl,
    h.2.2.2.2.2.2.2.1 1 4000 _ rfl,
    h.2.2.2.2.2.2.2.2.1 "model.aml" "model.aml" "model.aml" rfl rfl,
    (h.2.2.2.2.2.2.2.2.2 _ (BeforeReinit.assign BeforeReinit.start
      (rfl : assignDynamicPort sampleConstants 1 (terminate sampleFull true).2
        = some (4000, EZMQX_OK,
          { (terminate sampleFull true).2 with
            usedPorts := AList.insert 4000 true ∅, numOfPort := 1 })))).2.2 4000⟩

/-- C5, as stated, fails: on a terminated Context `assignDynamicPort` hands out
port 4000 with `EZMQX_OK` and `addAmlRep` caches a model with `EZMQX_OK`. -/
theorem terminated_context_still_serves :
    (terminate sampleOnePort true).1 = EZMQX_OK ∧
    isCtxTerminated (terminate sampleOnePort true).2 = some true ∧
    (assignDynamicPort sampleConstants 1 (terminate sampleOnePort true).2).map
      (fun r => (r.1, r.2.1)) = some (4000, EZMQX_OK) ∧
    (addAmlRep sampleCreate sampleGetId (terminate sampleOnePort true).2 ["model.aml"]).1
      = ["model.aml"] ∧
    (addAmlRep sampleCreate sampleGetId (terminate sampleOnePort true).2 ["model.aml"]).2.1
      = EZMQX_OK :=
  ⟨rfl, rfl, rfl, rfl, rfl⟩

end EZMQX
